import Mathlib

/-!
# STM32 embedded demo applications: verification development

A shallow embedding of the four demo firmwares of the repository
(`PWM_LED`, `RTC_Time_Date`, `CAN_Normal_Mode`, `Current_Meg_Stop_Mode`).
Calls into the vendor hardware-abstraction layer are recorded as events of a
trace; values that the hardware supplies (status codes, received bytes, the
volatile button flag, oscillator readiness) are inputs of the embedded
functions.  Loops that wait on the hardware carry a fuel argument and answer
`none` when the fuel runs out.
-/

/-! ## Shared vocabulary -/

namespace Firmware

/-- Status code returned by the calls of the hardware-abstraction layer. -/
inductive HAL_StatusTypeDef where
  | HAL_OK
  | HAL_ERROR
  | HAL_BUSY
  | HAL_TIMEOUT
  deriving DecidableEq, Repr

/-- Execution of a piece of straight-line firmware code: the hardware calls it made,
and whether it ended in an infinite empty loop (`while (1) {}`) instead of returning. -/
structure Run (ε : Type) where
  trace : List ε
  halted : Bool

/-- Code that does nothing and returns. -/
def Run.skip {ε : Type} : Run ε := ⟨[], false⟩

/-- A single hardware call that returns. -/
def Run.call {ε : Type} (e : ε) : Run ε := ⟨[e], false⟩

/-- An infinite empty loop: nothing after it is executed. -/
def Run.halt {ε : Type} : Run ε := ⟨[], true⟩

/-- A hardware call whose returned status the source does not use: the program goes on
whatever the status is. -/
def Run.unchecked {ε : Type} (e : ε) (_status : HAL_StatusTypeDef) : Run ε := Run.call e

/-- The run stopped in an infinite empty loop right after the call `e`: it is halted and
`e` is the last call it made. -/
def Run.haltedAt {ε : Type} (r : Run ε) (e : ε) : Prop :=
  r.halted = true ∧ r.trace.getLast? = some e

/-- Sequential composition `a; b`: `b` runs only when `a` returns. -/
def Run.andThen {ε : Type} (a b : Run ε) : Run ε :=
  if a.halted then a else ⟨a.trace ++ b.trace, b.halted⟩

/-- A block of statements executed in order. -/
def Run.steps {ε : Type} : List (Run ε) → Run ε
  | [] => Run.skip
  | r :: rs => r.andThen (Run.steps rs)

/-- The bytes of an ASCII string literal of the source. -/
def bytes (s : String) : List Nat := s.toList.map Char.toNat

/-- What `strlen` and the conversion `%s` see of a character buffer: the bytes before
the first NUL. -/
def cString (buf : List Nat) : List Nat := buf.takeWhile (fun b => b != 0)

/-- Content of the destination of `snprintf(dst, size, ...)` read back as a C string,
for a formatted text `formatted`: at most `size - 1` characters are stored. -/
def snprintf (size : Nat) (formatted : List Nat) : List Nat :=
  cString (formatted.take (size - 1))

/-- The conversion `%02d` of `printf` for a non-negative argument: the decimal digits,
padded on the left with zeros to a width of at least two. -/
def fmt02d (v : Nat) : List Nat :=
  let digits := (Nat.toDigits 10 v).map Char.toNat
  List.replicate (2 - digits.length) 48 ++ digits

/-- A number below 100 written with exactly two decimal digits (ASCII), zero-padded. -/
def twoDigits (v : Nat) : List Nat := [48 + v / 10, 48 + v % 10]

end Firmware

/-! ## PWM_LED/Src/main_app.c -/

namespace PWM_LED

/-- Conversion of a C `int` to `uint16_t`, the cast `(uint16_t)(...)`. -/
def toUint16 (x : Int) : Nat := (x % 65536).toNat

/-- Hardware-abstraction calls issued inside the breathing loop of `main`. -/
inductive HalCall where
  /-- The call `__HAL_TIM_SET_COMPARE(&gTim2Handle, TIM_CHANNEL_1, duty)`. -/
  | setCompare (value : Nat)
  /-- The call `HAL_Delay(ms)`. -/
  | delay (ms : Nat)
  deriving DecidableEq, Repr

/-- Value of `gTim2Handle.Init.Period` as assigned in `TIMER2_Init`. -/
def Period : Nat := 10000 - 1

/-- Value of the local constant `dutyStep` of `main`. -/
def dutyStep : Nat := 20

/-- Inner loop `while (duty < gTim2Handle.Init.Period)` of `main`
("Increase brightness").  Returns the final `duty` and the calls made. -/
def increaseBrightness (period step : Nat) : Nat → Nat → Option (Nat × List HalCall)
  | 0, _ => none
  | fuel + 1, duty =>
    if duty < period then
      let duty1 := toUint16 ((duty : Int) + (step : Int))
      match increaseBrightness period step fuel duty1 with
      | none => none
      | some (d, calls) => some (d, HalCall.setCompare duty1 :: HalCall.delay 1 :: calls)
    else
      some (duty, [])

/-- Inner loop `while (duty > 0U)` of `main` ("Decrease brightness"). -/
def decreaseBrightness (step : Nat) : Nat → Nat → Option (Nat × List HalCall)
  | 0, _ => none
  | fuel + 1, duty =>
    if duty > 0 then
      let duty1 := toUint16 ((duty : Int) - (step : Int))
      match decreaseBrightness step fuel duty1 with
      | none => none
      | some (d, calls) => some (d, HalCall.setCompare duty1 :: HalCall.delay 1 :: calls)
    else
      some (duty, [])

/-- One pass of the body of the outer `while (1)` of `main`. -/
def breathingPass (period step fuel duty : Nat) : Option (Nat × List HalCall) :=
  match increaseBrightness period step fuel duty with
  | none => none
  | some (d1, up) =>
    match decreaseBrightness step fuel d1 with
    | none => none
    | some (d2, down) => some (d2, up ++ down)

/-- The first `passes` passes of the outer `while (1)` of `main`. -/
def breathing (period step fuel : Nat) : Nat → Nat → Option (Nat × List HalCall)
  | 0, duty => some (duty, [])
  | passes + 1, duty =>
    match breathingPass period step fuel duty with
    | none => none
    | some (d, calls) =>
      match breathing period step fuel passes d with
      | none => none
      | some (d1, rest) => some (d1, calls ++ rest)

/-- The compare values written to TIM2 channel 1, in order. -/
def compareWrites : List HalCall → List Nat
  | [] => []
  | HalCall.setCompare v :: rest => v :: compareWrites rest
  | HalCall.delay _ :: rest => compareWrites rest

open Firmware

/-- Argument of `SystemClock_Config_HSE`: one of the three `SYS_CLOCK_FREQ_xx_MHZ`
constants of `main_app.h` that the `switch` names, or any other value. -/
inductive ClockFreq where
  | SYS_CLOCK_FREQ_50_MHZ
  | SYS_CLOCK_FREQ_84_MHZ
  | SYS_CLOCK_FREQ_120_MHZ
  | other
  deriving DecidableEq, Repr

/-- Hardware calls of the PWM demo, in the order of their first use in `main`. -/
inductive Call where
  | HAL_Init
  | HAL_RCC_OscConfig (plln : Nat)
  | HAL_RCC_ClockConfig (flashLatency : Nat)
  | HAL_RCC_GetHCLKFreq
  | HAL_SYSTICK_Config (ticks : Nat)
  | HAL_SYSTICK_CLKSourceConfig
  | HAL_NVIC_SetPriority_SysTick
  | GPIOA_CLK_ENABLE
  /-- The call `HAL_GPIO_Init(GPIOA, &ledCfg)` for the LED on PA5. -/
  | HAL_GPIO_Init_LED
  | HAL_UART_Init
  | HAL_TIM_PWM_Init (period prescaler : Nat)
  | HAL_TIM_PWM_ConfigChannel (pulse : Nat)
  | HAL_TIM_PWM_Start
  /-- A call made inside the breathing loop. -/
  | inLoop (c : HalCall)
  deriving DecidableEq, Repr

/-- What the hardware answers during the start-up of `main`. -/
structure Hardware where
  oscConfig : HAL_StatusTypeDef
  clockConfig : HAL_StatusTypeDef
  /-- Status returned by `HAL_SYSTICK_Config`, which the source does not test. -/
  systickConfig : HAL_StatusTypeDef
  uartInit : HAL_StatusTypeDef
  timPwmInit : HAL_StatusTypeDef
  timPwmConfigChannel : HAL_StatusTypeDef
  timPwmStart : HAL_StatusTypeDef
  /-- Result of `HAL_RCC_GetHCLKFreq()`. -/
  hclkFreq : Nat

/-- The function `Error_handler`: `while (1) {}`. -/
def Error_handler : Run Call := Run.halt

/-- The pattern `if (call(...) != HAL_OK) { Error_handler(); }`. -/
def checked (call : Call) (status : HAL_StatusTypeDef) : Run Call :=
  (Run.call call).andThen (if status ≠ HAL_StatusTypeDef.HAL_OK then Error_handler else Run.skip)

/-- The values `(PLLN, flashLatency)` chosen by the `switch` of
`SystemClock_Config_HSE`, or `none` for its `default: return;`. -/
def clockSetting : ClockFreq → Option (Nat × Nat)
  | ClockFreq.SYS_CLOCK_FREQ_50_MHZ => some (50, 1)
  | ClockFreq.SYS_CLOCK_FREQ_84_MHZ => some (84, 2)
  | ClockFreq.SYS_CLOCK_FREQ_120_MHZ => some (120, 3)
  | ClockFreq.other => none

/-- The function `SystemClock_Config_HSE`. -/
def SystemClock_Config_HSE (hw : Hardware) (clock_freq : ClockFreq) : Run Call :=
  match clockSetting clock_freq with
  | none => Run.skip
  | some (plln, flashLatency) =>
    Run.steps [
      checked (Call.HAL_RCC_OscConfig plln) hw.oscConfig,
      checked (Call.HAL_RCC_ClockConfig flashLatency) hw.clockConfig,
      Run.call Call.HAL_RCC_GetHCLKFreq,
      Run.unchecked (Call.HAL_SYSTICK_Config (hw.hclkFreq / 1000)) hw.systickConfig,
      Run.call Call.HAL_SYSTICK_CLKSourceConfig,
      Run.call Call.HAL_NVIC_SetPriority_SysTick]

/-- The function `GPIO_Init`. -/
def GPIO_Init : Run Call :=
  Run.steps [Run.call Call.GPIOA_CLK_ENABLE, Run.call Call.HAL_GPIO_Init_LED]

/-- The function `UART2_Init`. -/
def UART2_Init (hw : Hardware) : Run Call := checked Call.HAL_UART_Init hw.uartInit

/-- The function `TIMER2_Init`: Period `10000U - 1U`, Prescaler 4, Pulse 0. -/
def TIMER2_Init (hw : Hardware) : Run Call :=
  Run.steps [
    checked (Call.HAL_TIM_PWM_Init Period 4) hw.timPwmInit,
    checked (Call.HAL_TIM_PWM_ConfigChannel 0) hw.timPwmConfigChannel]

/-- The part of `main` before its `while (1)`. -/
def startup (hw : Hardware) : Run Call :=
  Run.steps [
    Run.call Call.HAL_Init,
    SystemClock_Config_HSE hw ClockFreq.SYS_CLOCK_FREQ_50_MHZ,
    GPIO_Init,
    UART2_Init hw,
    TIMER2_Init hw,
    checked Call.HAL_TIM_PWM_Start hw.timPwmStart]

/-- The function `main`, cut after `passes` passes of its `while (1)`: the start-up,
then, unless the start-up halted, the breathing loop from `duty = 0`.  The result is
`none` when an inner loop outlasts the fuel. -/
def main (hw : Hardware) (fuel passes : Nat) : Option (Run Call) :=
  if (startup hw).halted then some (startup hw)
  else
    match breathing Period dutyStep fuel passes 0 with
    | none => none
    | some (_, calls) => some ⟨(startup hw).trace ++ calls.map Call.inLoop, false⟩

/-- Status codes of a start-up on which every HAL call succeeds. -/
def allOk : Hardware :=
  { oscConfig := HAL_StatusTypeDef.HAL_OK
    clockConfig := HAL_StatusTypeDef.HAL_OK
    systickConfig := HAL_StatusTypeDef.HAL_OK
    uartInit := HAL_StatusTypeDef.HAL_OK
    timPwmInit := HAL_StatusTypeDef.HAL_OK
    timPwmConfigChannel := HAL_StatusTypeDef.HAL_OK
    timPwmStart := HAL_StatusTypeDef.HAL_OK
    hclkFreq := 50000000 }

/-- The compare values 20, 40, ..., 10000 (500 values). -/
def risingWrites : List Nat := (List.range' 1 500).map (fun i => 20 * i)

/-- The compare values 9980, 9960, ..., 0 (500 values). -/
def fallingWrites : List Nat := ((List.range 500).map (fun i => 20 * i)).reverse

end PWM_LED

/-! ## RTC_Time_Date/Src/main_app.c -/

namespace RTC_Time_Date

open Firmware

/-- Argument of `SystemClock_Config_HSE`: one of the three `SYS_CLOCK_FREQ_xx_MHZ`
constants of `main_app.h` that the `switch` names, or any other value. -/
inductive ClockFreq where
  | SYS_CLOCK_FREQ_50_MHZ
  | SYS_CLOCK_FREQ_84_MHZ
  | SYS_CLOCK_FREQ_120_MHZ
  | other
  deriving DecidableEq, Repr

/-- Flags of the power controller used by `main`. -/
inductive PwrFlag where
  | PWR_FLAG_SB
  | PWR_FLAG_WU
  deriving DecidableEq, Repr

/-- Content of `RTC_TimeTypeDef` read by the callback (fields of type `uint8_t`). -/
structure RTC_TimeTypeDef where
  Hours : Nat
  Minutes : Nat
  Seconds : Nat
  deriving DecidableEq, Repr

/-- Content of `RTC_DateTypeDef` read by the callback (fields of type `uint8_t`). -/
structure RTC_DateTypeDef where
  WeekDay : Nat
  Month : Nat
  Date : Nat
  Year : Nat
  deriving DecidableEq, Repr

/-- Hardware calls of the RTC demo, in the order of their first use in `main`. -/
inductive Call where
  | HAL_Init
  | GPIOA_CLK_ENABLE
  | GPIOC_CLK_ENABLE
  /-- The call `HAL_GPIO_Init(GPIOA, &ledCfg)` for the LED on PA5. -/
  | HAL_GPIO_Init_LED
  /-- The call `HAL_GPIO_Init(GPIOC, &btnCfg)` for the button on PC13. -/
  | HAL_GPIO_Init_Button
  | HAL_NVIC_SetPriority_EXTI15_10
  | HAL_NVIC_EnableIRQ_EXTI15_10
  | HAL_RCC_OscConfig (plln : Nat)
  | HAL_RCC_ClockConfig (flashLatency : Nat)
  | HAL_RCC_GetHCLKFreq
  | HAL_SYSTICK_Config (ticks : Nat)
  | HAL_SYSTICK_CLKSourceConfig
  | HAL_NVIC_SetPriority_SysTick
  | HAL_UART_Init
  | HAL_RTC_Init
  /-- The call `HAL_UART_Transmit(&gUart2Handle, buffer, strlen(buffer), HAL_MAX_DELAY)`. -/
  | HAL_UART_Transmit (data : List Nat)
  | PWR_GET_FLAG (flag : PwrFlag)
  | PWR_CLEAR_FLAG (flag : PwrFlag)
  | HAL_RTC_GetTime
  | HAL_RTC_GetDate
  | HAL_PWR_EnableWakeUpPin
  | HAL_PWR_EnterSTANDBYMode
  deriving DecidableEq, Repr

/-- What the hardware answers during one run of `main`. -/
structure Hardware where
  oscConfig : HAL_StatusTypeDef
  clockConfig : HAL_StatusTypeDef
  uartInit : HAL_StatusTypeDef
  rtcInit : HAL_StatusTypeDef
  /-- Status returned by `HAL_SYSTICK_Config`, which the source does not test. -/
  systickConfig : HAL_StatusTypeDef
  /-- Status returned by `HAL_RTC_GetTime`, which the source does not test. -/
  rtcGetTime : HAL_StatusTypeDef
  /-- Status returned by `HAL_RTC_GetDate`, which the source does not test. -/
  rtcGetDate : HAL_StatusTypeDef
  /-- Status returned by the calls of `HAL_UART_Transmit`, which the source does not
  test. -/
  uartTransmit : HAL_StatusTypeDef
  /-- Result of `HAL_RCC_GetHCLKFreq()`. -/
  hclkFreq : Nat
  /-- Whether `__HAL_PWR_GET_FLAG(PWR_FLAG_SB) != RESET` at startup. -/
  standbyFlag : Bool
  /-- Content of `timeNow` after `HAL_RTC_GetTime`. -/
  timeNow : RTC_TimeTypeDef
  /-- Content of `dateNow` after `HAL_RTC_GetDate`. -/
  dateNow : RTC_DateTypeDef

/-- The function `RTC_AppError`: `while (1) {}`. -/
def RTC_AppError : Run Call := Run.halt

/-- The pattern `if (status != HAL_OK) { RTC_AppError(); }` after a call. -/
def checked (call : Call) (status : HAL_StatusTypeDef) : Run Call :=
  (Run.call call).andThen (if status ≠ HAL_StatusTypeDef.HAL_OK then RTC_AppError else Run.skip)

/-- The function `rtc_uart_printf`, applied to the text produced by its format:
`vsnprintf` into `buffer[80]`, then transmission of `strlen(buffer)` bytes; the status
of the transmission is not used. -/
def rtc_uart_printf (hw : Hardware) (formatted : List Nat) : Run Call :=
  Run.unchecked (Call.HAL_UART_Transmit (cString (snprintf 80 formatted))) hw.uartTransmit

/-- The table `names` of `rtc_get_weekday_name`. -/
def names : List String :=
  ["Monday", "Tuesday", "Wednesday", "Thursday", "Friday", "Saturday", "Sunday"]

/-- The function `rtc_get_weekday_name`. -/
def rtc_get_weekday_name (index : Nat) : String :=
  if index = 0 ∨ index > 7 then "?" else names.getD (index - 1) ""

/-- Text produced by the format `"Time : %02d:%02d:%02d\r\n"`. -/
def timeLine (t : RTC_TimeTypeDef) : List Nat :=
  bytes "Time : " ++ fmt02d t.Hours ++ bytes ":" ++ fmt02d t.Minutes ++ bytes ":" ++
    fmt02d t.Seconds ++ bytes "\r\n"

/-- Text produced by the format `"Date : %02d-%02d-%02d  <%s>\r\n"`. -/
def dateLine (d : RTC_DateTypeDef) : List Nat :=
  bytes "Date : " ++ fmt02d d.Month ++ bytes "-" ++ fmt02d d.Date ++ bytes "-" ++
    fmt02d d.Year ++ bytes "  <" ++ cString (bytes (rtc_get_weekday_name d.WeekDay)) ++
    bytes ">\r\n"

/-- The function `HAL_GPIO_EXTI_Callback`; the statuses of the two RTC reads are not
tested by the source. -/
def HAL_GPIO_EXTI_Callback (hw : Hardware) (_GPIO_Pin : Nat) : Run Call :=
  Run.steps [
    Run.unchecked Call.HAL_RTC_GetTime hw.rtcGetTime,
    Run.unchecked Call.HAL_RTC_GetDate hw.rtcGetDate,
    rtc_uart_printf hw (timeLine hw.timeNow),
    rtc_uart_printf hw (dateLine hw.dateNow)]

/-- The function `GPIO_Init`. -/
def GPIO_Init : Run Call :=
  Run.steps [
    Run.call Call.GPIOA_CLK_ENABLE,
    Run.call Call.GPIOC_CLK_ENABLE,
    Run.call Call.HAL_GPIO_Init_LED,
    Run.call Call.HAL_GPIO_Init_Button,
    Run.call Call.HAL_NVIC_SetPriority_EXTI15_10,
    Run.call Call.HAL_NVIC_EnableIRQ_EXTI15_10]

/-- The values `(PLLN, flashLatency)` chosen by the `switch` of
`SystemClock_Config_HSE`, or `none` for its `default: return;`. -/
def clockSetting : ClockFreq → Option (Nat × Nat)
  | ClockFreq.SYS_CLOCK_FREQ_50_MHZ => some (50, 1)
  | ClockFreq.SYS_CLOCK_FREQ_84_MHZ => some (84, 2)
  | ClockFreq.SYS_CLOCK_FREQ_120_MHZ => some (120, 3)
  | ClockFreq.other => none

/-- The function `SystemClock_Config_HSE`. -/
def SystemClock_Config_HSE (hw : Hardware) (clock_freq : ClockFreq) : Run Call :=
  match clockSetting clock_freq with
  | none => Run.skip
  | some (plln, flashLatency) =>
    Run.steps [
      checked (Call.HAL_RCC_OscConfig plln) hw.oscConfig,
      checked (Call.HAL_RCC_ClockConfig flashLatency) hw.clockConfig,
      Run.call Call.HAL_RCC_GetHCLKFreq,
      Run.unchecked (Call.HAL_SYSTICK_Config (hw.hclkFreq / 1000)) hw.systickConfig,
      Run.call Call.HAL_SYSTICK_CLKSourceConfig,
      Run.call Call.HAL_NVIC_SetPriority_SysTick]

/-- The function `UART2_Init`. -/
def UART2_Init (hw : Hardware) : Run Call := checked Call.HAL_UART_Init hw.uartInit

/-- The function `RTC_Init`. -/
def RTC_Init (hw : Hardware) : Run Call := checked Call.HAL_RTC_Init hw.rtcInit

/-- The function `main`.  It ends in `while (1) {}` after the request to enter STANDBY. -/
def main (hw : Hardware) : Run Call :=
  Run.steps [
    Run.call Call.HAL_Init,
    GPIO_Init,
    SystemClock_Config_HSE hw ClockFreq.SYS_CLOCK_FREQ_50_MHZ,
    UART2_Init hw,
    RTC_Init hw,
    rtc_uart_printf hw (bytes "RTC standby example started\r\n"),
    Run.call (Call.PWR_GET_FLAG PwrFlag.PWR_FLAG_SB),
    (if hw.standbyFlag then
      Run.steps [
        Run.call (Call.PWR_CLEAR_FLAG PwrFlag.PWR_FLAG_SB),
        Run.call (Call.PWR_CLEAR_FLAG PwrFlag.PWR_FLAG_WU),
        rtc_uart_printf hw (bytes "System woke up from STANDBY mode\r\n"),
        HAL_GPIO_EXTI_Callback hw 0]
    else Run.skip),
    Run.call Call.HAL_PWR_EnableWakeUpPin,
    rtc_uart_printf hw (bytes "Entering STANDBY mode now\r\n"),
    Run.call Call.HAL_PWR_EnterSTANDBYMode,
    Run.halt]

/-- The texts sent over the serial link, in order. -/
def uartTexts : List Call → List (List Nat)
  | [] => []
  | Call.HAL_UART_Transmit data :: rest => data :: uartTexts rest
  | _ :: rest => uartTexts rest

/-- A run resumed from STANDBY on which every initialisation call succeeds. -/
def resumedBoot : Hardware :=
  { oscConfig := HAL_StatusTypeDef.HAL_OK
    clockConfig := HAL_StatusTypeDef.HAL_OK
    uartInit := HAL_StatusTypeDef.HAL_OK
    rtcInit := HAL_StatusTypeDef.HAL_OK
    systickConfig := HAL_StatusTypeDef.HAL_OK
    rtcGetTime := HAL_StatusTypeDef.HAL_OK
    rtcGetDate := HAL_StatusTypeDef.HAL_OK
    uartTransmit := HAL_StatusTypeDef.HAL_OK
    hclkFreq := 50000000
    standbyFlag := true
    timeNow := { Hours := 12, Minutes := 11, Seconds := 10 }
    dateNow := { WeekDay := 2, Month := 6, Date := 12, Year := 18 } }

/-- A run resumed from STANDBY on which `HAL_SYSTICK_Config`, `HAL_RTC_GetTime`,
`HAL_RTC_GetDate` and every `HAL_UART_Transmit` report an error, while the four tested
calls succeed. -/
def untestedCallsFail : Hardware :=
  { resumedBoot with
    systickConfig := HAL_StatusTypeDef.HAL_ERROR
    rtcGetTime := HAL_StatusTypeDef.HAL_ERROR
    rtcGetDate := HAL_StatusTypeDef.HAL_ERROR
    uartTransmit := HAL_StatusTypeDef.HAL_ERROR }

/-- A first boot (standby flag not set) on which every call succeeds. -/
def firstBoot : Hardware := { resumedBoot with standbyFlag := false }

/-- The calls of `main` before its first serial output, when the four tested calls
succeed. -/
def startupCalls (hw : Hardware) : List Call :=
  [Call.HAL_Init, Call.GPIOA_CLK_ENABLE, Call.GPIOC_CLK_ENABLE, Call.HAL_GPIO_Init_LED,
   Call.HAL_GPIO_Init_Button, Call.HAL_NVIC_SetPriority_EXTI15_10,
   Call.HAL_NVIC_EnableIRQ_EXTI15_10, Call.HAL_RCC_OscConfig 50, Call.HAL_RCC_ClockConfig 1,
   Call.HAL_RCC_GetHCLKFreq, Call.HAL_SYSTICK_Config (hw.hclkFreq / 1000),
   Call.HAL_SYSTICK_CLKSourceConfig, Call.HAL_NVIC_SetPriority_SysTick, Call.HAL_UART_Init,
   Call.HAL_RTC_Init]

/-- The calls of the body of `if (__HAL_PWR_GET_FLAG(PWR_FLAG_SB) != RESET)` in `main`. -/
def resumeCalls (hw : Hardware) : List Call :=
  [Call.PWR_CLEAR_FLAG PwrFlag.PWR_FLAG_SB, Call.PWR_CLEAR_FLAG PwrFlag.PWR_FLAG_WU,
   Call.HAL_UART_Transmit (bytes "System woke up from STANDBY mode\r\n"),
   Call.HAL_RTC_GetTime, Call.HAL_RTC_GetDate,
   Call.HAL_UART_Transmit (cString (snprintf 80 (timeLine hw.timeNow))),
   Call.HAL_UART_Transmit (cString (snprintf 80 (dateLine hw.dateNow)))]

end RTC_Time_Date

/-! ## CAN_Normal_Mode/Src/main.c and CAN_Normal_Mode/Src/main_app.c -/

namespace CAN_Normal_Mode

open Firmware

/-- Identifier type of a frame (`CAN_ID_STD` is the zero value). -/
inductive IdType where
  | CAN_ID_STD
  | CAN_ID_EXT
  deriving DecidableEq, Repr

/-- Frame type (`CAN_RTR_DATA` is the zero value). -/
inductive FrameType where
  | CAN_RTR_DATA
  | CAN_RTR_REMOTE
  deriving DecidableEq, Repr

/-- Transmit header `CAN_TxHeaderTypeDef`. -/
structure CAN_TxHeaderTypeDef where
  StdId : Nat
  ExtId : Nat
  IDE : IdType
  RTR : FrameType
  DLC : Nat
  TransmitGlobalTime : Bool
  deriving DecidableEq, Repr

/-- Filter mode (`CAN_FILTERMODE_IDMASK` is the zero value). -/
inductive FilterMode where
  | CAN_FILTERMODE_IDMASK
  | CAN_FILTERMODE_IDLIST
  deriving DecidableEq, Repr

/-- Filter scale (`CAN_FILTERSCALE_16BIT` is the zero value). -/
inductive FilterScale where
  | CAN_FILTERSCALE_16BIT
  | CAN_FILTERSCALE_32BIT
  deriving DecidableEq, Repr

/-- Receive FIFO (`CAN_RX_FIFO0` is the zero value). -/
inductive RxFifo where
  | CAN_RX_FIFO0
  | CAN_RX_FIFO1
  deriving DecidableEq, Repr

/-- Filter configuration `CAN_FilterTypeDef`. -/
structure CAN_FilterTypeDef where
  FilterIdHigh : Nat
  FilterIdLow : Nat
  FilterMaskIdHigh : Nat
  FilterMaskIdLow : Nat
  FilterFIFOAssignment : RxFifo
  FilterBank : Nat
  FilterMode : FilterMode
  FilterScale : FilterScale
  FilterActivation : Bool
  SlaveStartFilterBank : Nat
  deriving DecidableEq, Repr

/-- Interrupt sources named in `CAN_AppInit`. -/
inductive Notification where
  | CAN_IT_TX_MAILBOX_EMPTY
  | CAN_IT_RX_FIFO0_MSG_PENDING
  | CAN_IT_BUSOFF
  deriving DecidableEq, Repr

/-- Calls made by the CAN demo.  `SystemClock_Config`, `MX_GPIO_Init`, `MX_CAN1_Init`
and `MX_USART2_UART_Init` are the generated functions whose bodies `main.c` leaves
out; each is recorded as one call. -/
inductive Call where
  | HAL_Init
  | SystemClock_Config
  | MX_GPIO_Init
  | MX_CAN1_Init
  | MX_USART2_UART_Init
  | HAL_CAN_ConfigFilter (filter : CAN_FilterTypeDef)
  | HAL_CAN_ActivateNotification (sources : List Notification)
  | HAL_CAN_Start
  | HAL_CAN_AddTxMessage (header : CAN_TxHeaderTypeDef) (data : List Nat)
  | HAL_CAN_GetRxMessage (fifo : RxFifo)
  /-- The call `HAL_UART_Transmit(&huart2, text, strlen(text), HAL_MAX_DELAY)`. -/
  | HAL_UART_Transmit (data : List Nat)
  deriving DecidableEq, Repr

/-- Status codes the HAL answers to the calls of `CAN_AppInit`. -/
structure Hardware where
  configFilter : HAL_StatusTypeDef
  activateNotification : HAL_StatusTypeDef
  start : HAL_StatusTypeDef
  addTxMessage : HAL_StatusTypeDef

/-- Modelled from the spec: `Error_Handler` is declared in the header `main.h` of the
CAN project, which is not under src/; the spec describes the halt routine as an
infinite empty loop that disables further progress. -/
def Error_Handler : Run Call := Run.halt

/-- The pattern `if (call(...) != HAL_OK) { Error_Handler(); }`. -/
def checked (call : Call) (status : HAL_StatusTypeDef) : Run Call :=
  (Run.call call).andThen (if status ≠ HAL_StatusTypeDef.HAL_OK then Error_Handler else Run.skip)

/-- The function `CAN_AppPrint`. -/
def CAN_AppPrint (text : List Nat) : Run Call :=
  Run.call (Call.HAL_UART_Transmit (cString text))

/-- The filter built by `CAN_AppConfigFilter`: `memset` to zero, then the assignments. -/
def acceptAllFilter : CAN_FilterTypeDef :=
  { FilterIdHigh := 0x0000
    FilterIdLow := 0x0000
    FilterMaskIdHigh := 0x0000
    FilterMaskIdLow := 0x0000
    FilterFIFOAssignment := RxFifo.CAN_RX_FIFO0
    FilterBank := 0
    FilterMode := FilterMode.CAN_FILTERMODE_IDMASK
    FilterScale := FilterScale.CAN_FILTERSCALE_32BIT
    FilterActivation := true
    SlaveStartFilterBank := 0 }

/-- The function `CAN_AppConfigFilter`. -/
def CAN_AppConfigFilter (hw : Hardware) : Run Call :=
  checked (Call.HAL_CAN_ConfigFilter acceptAllFilter) hw.configFilter

/-- The header built by `CAN_AppSendInitialFrame`: `memset` to zero, then the
assignments. -/
def initialTxHeader : CAN_TxHeaderTypeDef :=
  { StdId := 0x65D
    ExtId := 0
    IDE := IdType.CAN_ID_STD
    RTR := FrameType.CAN_RTR_DATA
    DLC := 5
    TransmitGlobalTime := false }

/-- The array `data` of `CAN_AppSendInitialFrame`. -/
def initialTxData : List Nat :=
  ['H'.toNat, 'E'.toNat, 'L'.toNat, 'L'.toNat, 'O'.toNat]

/-- The function `CAN_AppSendInitialFrame`. -/
def CAN_AppSendInitialFrame (hw : Hardware) : Run Call :=
  checked (Call.HAL_CAN_AddTxMessage initialTxHeader initialTxData) hw.addTxMessage

/-- The function `CAN_AppInit`. -/
def CAN_AppInit (hw : Hardware) : Run Call :=
  Run.steps [
    CAN_AppConfigFilter hw,
    checked (Call.HAL_CAN_ActivateNotification
      [Notification.CAN_IT_TX_MAILBOX_EMPTY, Notification.CAN_IT_RX_FIFO0_MSG_PENDING,
       Notification.CAN_IT_BUSOFF]) hw.activateNotification,
    checked Call.HAL_CAN_Start hw.start,
    CAN_AppSendInitialFrame hw]

/-- The function `CAN_AppTask`: its body is empty. -/
def CAN_AppTask : Run Call := Run.skip

/-- The function `main` of `main.c`, cut after `iterations` passes of its `while (1)`. -/
def main (hw : Hardware) (iterations : Nat) : Run Call :=
  Run.steps ([
    Run.call Call.HAL_Init,
    Run.call Call.SystemClock_Config,
    Run.call Call.MX_GPIO_Init,
    Run.call Call.MX_CAN1_Init,
    Run.call Call.MX_USART2_UART_Init,
    CAN_AppInit hw] ++ List.replicate iterations CAN_AppTask)

/-- Index of the assignment `payload[rxHeader.DLC < 8 ? rxHeader.DLC : 7] = 0`. -/
def terminatorIndex (DLC : Nat) : Nat := if DLC < 8 then DLC else 7

/-- The array `payload` after that assignment. -/
def terminated (payload : List Nat) (DLC : Nat) : List Nat :=
  payload.set (terminatorIndex DLC) 0

/-- The text stored in `text` by `snprintf(text, sizeof(text), "CAN RX: %s\r\n", payload)`. -/
def rxText (payload : List Nat) (DLC : Nat) : List Nat :=
  snprintf 64 (bytes "CAN RX: " ++ cString (terminated payload DLC) ++ bytes "\r\n")

/-- The function `HAL_CAN_RxFifo0MsgPendingCallback`, for the status `status` of
`HAL_CAN_GetRxMessage`, the received `rxHeader.DLC` and the eight bytes of `payload`
after that call. -/
def HAL_CAN_RxFifo0MsgPendingCallback (status : HAL_StatusTypeDef) (DLC : Nat)
    (payload : List Nat) : Run Call :=
  Run.steps [
    checked (Call.HAL_CAN_GetRxMessage RxFifo.CAN_RX_FIFO0) status,
    CAN_AppPrint (rxText payload DLC)]

/-- The texts sent over the serial link, in order. -/
def uartTexts : List Call → List (List Nat)
  | [] => []
  | Call.HAL_UART_Transmit data :: rest => data :: uartTexts rest
  | _ :: rest => uartTexts rest

/-- The frames handed to `HAL_CAN_AddTxMessage`, in order. -/
def txRequests : List Call → List (CAN_TxHeaderTypeDef × List Nat)
  | [] => []
  | Call.HAL_CAN_AddTxMessage header data :: rest => (header, data) :: txRequests rest
  | _ :: rest => txRequests rest

/-- Status codes of a start-up on which every HAL call succeeds. -/
def allOk : Hardware :=
  { configFilter := HAL_StatusTypeDef.HAL_OK
    activateNotification := HAL_StatusTypeDef.HAL_OK
    start := HAL_StatusTypeDef.HAL_OK
    addTxMessage := HAL_StatusTypeDef.HAL_OK }

/-- The 32-bit filter identifier formed by `FilterIdHigh` (upper half) and
`FilterIdLow` (lower half) in the 32-bit filter scale. -/
def filterId32 (f : CAN_FilterTypeDef) : Nat := f.FilterIdHigh * 65536 + f.FilterIdLow

/-- The 32-bit filter mask formed by `FilterMaskIdHigh` and `FilterMaskIdLow`. -/
def filterMask32 (f : CAN_FilterTypeDef) : Nat :=
  f.FilterMaskIdHigh * 65536 + f.FilterMaskIdLow

/-- Modelled from the spec: the acceptance test of the CAN peripheral is hardware and
not part of the sources; `CAN_AppInit` describes its filter as "accept all IDs into
FIFO0".  In identifier-mask mode an identifier passes an active filter when it agrees
with the filter identifier on every bit that is set in the mask:
`(id AND mask) = (filterId AND mask)`. -/
def identifierMaskMatch (f : CAN_FilterTypeDef) (id : Nat) : Bool :=
  f.FilterActivation && decide (id &&& filterMask32 f = filterId32 f &&& filterMask32 f)

end CAN_Normal_Mode

/-! ## Current_Meg_Stop_Mode: Src/main.c, Src/pwr_modes.c, Src/stm32f4xx_it.c -/

namespace Current_Meg_Stop_Mode

/-- Value `RESET` of the peripheral library's `FlagStatus`. -/
def RESET : Nat := 0

/-- Value `SET` of the peripheral library's `FlagStatus`. -/
def SET : Nat := 1

/-- Pin masks `GPIO_Pin_5`, `GPIO_Pin_13` and `GPIO_Pin_All`. -/
def GPIO_Pin_5 : Nat := 0x0020

/-- See `GPIO_Pin_5`. -/
def GPIO_Pin_13 : Nat := 0x2000

/-- See `GPIO_Pin_5`. -/
def GPIO_Pin_All : Nat := 0xFFFF

/-- Line mask `EXTI_Line13`. -/
def EXTI_Line13 : Nat := 0x2000

/-- Argument `RCC_HSE_OFF` of `RCC_HSEConfig`. -/
def RCC_HSE_OFF : Nat := 0x00

/-- Argument `RCC_SYSCLKSource_HSI` of `RCC_SYSCLKConfig`. -/
def RCC_SYSCLKSource_HSI : Nat := 0x00

/-- GPIO ports of the device. -/
inductive Port where
  | GPIOA | GPIOB | GPIOC | GPIOD | GPIOE | GPIOF | GPIOG | GPIOH
  deriving DecidableEq, Repr

/-- Field `GPIO_Mode` of `GPIO_InitTypeDef`. -/
inductive GPIOMode where
  | GPIO_Mode_IN | GPIO_Mode_OUT | GPIO_Mode_AF | GPIO_Mode_AN
  deriving DecidableEq, Repr

/-- Configuration `GPIO_InitTypeDef`; `GPIO_OType` is `none` where the source leaves
the field of the local variable unassigned. -/
structure GPIO_InitTypeDef where
  GPIO_Pin : Nat
  GPIO_Mode : GPIOMode
  /-- Speed in MHz (`GPIO_Speed_50MHz`). -/
  GPIO_Speed : Nat
  /-- Push-pull (`true`, `GPIO_OType_PP`) or open drain. -/
  GPIO_OType : Option Bool
  /-- Pull resistor enabled (`false` for `GPIO_PuPd_NOPULL`). -/
  GPIO_PuPd : Bool
  deriving DecidableEq, Repr

/-- Field `EXTI_Trigger` of `EXTI_InitTypeDef`. -/
inductive EXTITrigger where
  | EXTI_Trigger_Rising | EXTI_Trigger_Falling | EXTI_Trigger_Rising_Falling
  deriving DecidableEq, Repr

/-- Configuration `EXTI_InitTypeDef`. -/
structure EXTI_InitTypeDef where
  EXTI_Line : Nat
  /-- Value `true` for `EXTI_Mode_Interrupt`, `false` for `EXTI_Mode_Event`. -/
  EXTI_Mode_Interrupt : Bool
  EXTI_Trigger : EXTITrigger
  EXTI_LineCmd : Bool
  deriving DecidableEq, Repr

/-- Interrupt channels named by the source. -/
inductive IRQn where
  | EXTI15_10_IRQn
  deriving DecidableEq, Repr

/-- Configuration `NVIC_InitTypeDef`. -/
structure NVIC_InitTypeDef where
  NVIC_IRQChannel : IRQn
  NVIC_IRQChannelPreemptionPriority : Nat
  NVIC_IRQChannelSubPriority : Nat
  NVIC_IRQChannelCmd : Bool
  deriving DecidableEq, Repr

/-- Regulator argument of the two STOP-entry calls. -/
inductive Regulator where
  | PWR_Regulator_ON
  | PWR_Regulator_LowPower
  | PWR_MainRegulator_UnderDrive_ON
  | PWR_LowPowerRegulator_UnderDrive_ON
  deriving DecidableEq, Repr

/-- Functions of the demo that assign the shared flag `UserButtonStatus`. -/
inductive Writer where
  | WaitUser_PushBotton
  | Measure_Stop
  | EXTI15_10_IRQHandler
  | HAL_GPIO_EXTI_Callback
  deriving DecidableEq, Repr

/-- Peripheral-library calls and accesses to the shared flag made by the demo.
Calls that return a value record the value returned. -/
inductive Call where
  | RCC_APB1PeriphClockCmd_PWR (state : Bool)
  | RCC_AHB1PeriphClockCmd (ports : List Port) (state : Bool)
  | RCC_APB2PeriphClockCmd_SYSCFG (state : Bool)
  | GPIO_Init (port : Port) (cfg : GPIO_InitTypeDef)
  | SYSCFG_EXTILineConfig (port : Port) (pinSource : Nat)
  | EXTI_DeInit
  | EXTI_Init (cfg : EXTI_InitTypeDef)
  | NVIC_Init (cfg : NVIC_InitTypeDef)
  | GPIO_SetBits (port : Port) (pins : Nat)
  | GPIO_ResetBits (port : Port) (pins : Nat)
  /-- A read of the volatile flag `UserButtonStatus` and the value seen. -/
  | readUserButtonStatus (value : Nat)
  /-- An assignment to `UserButtonStatus`, with the function that makes it. -/
  | writeUserButtonStatus (writer : Writer) (value : Nat)
  | RCC_DeInit
  | RCC_HSEConfig (hse : Nat)
  | RCC_HSICmd (state : Bool)
  | RCC_GetFlagStatus_HSIRDY (result : Nat)
  | RCC_SYSCLKConfig (source : Nat)
  | RCC_GetSYSCLKSource (result : Nat)
  | PWR_ClearFlag_WU
  | PWR_FlashPowerDownCmd (state : Bool)
  | PWR_UnderDriveCmd (state : Bool)
  /-- The call `PWR_EnterSTOPMode(regulator, PWR_STOPEntry_WFI)`. -/
  | PWR_EnterSTOPMode (regulator : Regulator)
  /-- The call `PWR_EnterUnderDriveSTOPMode(regulator, PWR_STOPEntry_WFI)`. -/
  | PWR_EnterUnderDriveSTOPMode (regulator : Regulator)
  | EXTI_GetITStatus (line : Nat) (result : Nat)
  | EXTI_ClearITPendingBit (line : Nat)
  deriving DecidableEq, Repr

/-- Clock-control state that `Mode_Exit` commands and observes: the oscillator enable
and ready bits of `RCC_CR`, and the requested (`SW`) and active (`SWS`) system clock
source of `RCC_CFGR`, encoded 0 for HSI, 1 for HSE, 2 for PLL. -/
structure Rcc where
  HSION : Bool
  HSIRDY : Bool
  HSEON : Bool
  PLLON : Bool
  SW : Nat
  SWS : Nat
  deriving DecidableEq, Repr

/-- State of the foreground program: clock control, the number of hardware polls made
so far (the index into the environment), and the calls made so far. -/
structure Mcu where
  rcc : Rcc
  tick : Nat
  trace : List Call
  deriving DecidableEq, Repr

/-- What the world outside the foreground program does, by poll index. -/
structure Environment where
  /-- Value of `UserButtonStatus` seen by a read made at poll `t` (the interrupt
  context writes the flag between polls). -/
  buttonStatus : Nat → Nat
  /-- Whether the HSI oscillator, if enabled, is stable at poll `t`. -/
  hsiStable : Nat → Bool
  /-- Whether a requested system clock switch has been carried out at poll `t`. -/
  switchDone : Nat → Bool

/-- Records a call in the trace. -/
def emit (c : Call) (s : Mcu) : Mcu := { s with trace := s.trace ++ [c] }

/-- The function `LedsConfig`. -/
def LedsConfig (s : Mcu) : Mcu :=
  emit (Call.GPIO_Init Port.GPIOA
      { GPIO_Pin := GPIO_Pin_5, GPIO_Mode := GPIOMode.GPIO_Mode_OUT, GPIO_Speed := 50,
        GPIO_OType := some true, GPIO_PuPd := false })
    (emit (Call.RCC_AHB1PeriphClockCmd [Port.GPIOA] true) s)

/-- The function `ButtonPinInt_configuration`. -/
def ButtonPinInt_configuration (s : Mcu) : Mcu :=
  let s1 := emit (Call.RCC_AHB1PeriphClockCmd [Port.GPIOC] true) s
  let s2 := emit (Call.RCC_APB2PeriphClockCmd_SYSCFG true) s1
  let s3 := emit (Call.GPIO_Init Port.GPIOC
      { GPIO_Pin := GPIO_Pin_13, GPIO_Mode := GPIOMode.GPIO_Mode_IN, GPIO_Speed := 50,
        GPIO_OType := some true, GPIO_PuPd := false }) s2
  let s4 := emit (Call.SYSCFG_EXTILineConfig Port.GPIOC 13) s3
  let s5 := emit Call.EXTI_DeInit s4
  let s6 := emit (Call.EXTI_Init
      { EXTI_Line := EXTI_Line13, EXTI_Mode_Interrupt := true,
        EXTI_Trigger := EXTITrigger.EXTI_Trigger_Rising, EXTI_LineCmd := true }) s5
  emit (Call.NVIC_Init
      { NVIC_IRQChannel := IRQn.EXTI15_10_IRQn, NVIC_IRQChannelPreemptionPriority := 0,
        NVIC_IRQChannelSubPriority := 0, NVIC_IRQChannelCmd := true }) s6

/-- The function `LowPowerDemo_Init`. -/
def LowPowerDemo_Init (s : Mcu) : Mcu :=
  ButtonPinInt_configuration (LedsConfig (emit (Call.RCC_APB1PeriphClockCmd_PWR true) s))

/-- The configuration `gpio` of `GPIO_AnalogConfig`; its field `GPIO_OType` is not
assigned. -/
def analogCfg : GPIO_InitTypeDef :=
  { GPIO_Pin := GPIO_Pin_All, GPIO_Mode := GPIOMode.GPIO_Mode_AN, GPIO_Speed := 50,
    GPIO_OType := none, GPIO_PuPd := false }

/-- The function `GPIO_AnalogConfig`. -/
def GPIO_AnalogConfig (s : Mcu) : Mcu :=
  let group1 := [Port.GPIOA, Port.GPIOB, Port.GPIOC, Port.GPIOD, Port.GPIOE, Port.GPIOH]
  let group2 := [Port.GPIOF, Port.GPIOG]
  let s1 := emit (Call.RCC_AHB1PeriphClockCmd group1 true) s
  let s2 := emit (Call.RCC_AHB1PeriphClockCmd group2 true) s1
  let s3 := [Port.GPIOA, Port.GPIOB, Port.GPIOC, Port.GPIOD, Port.GPIOE, Port.GPIOF,
      Port.GPIOG, Port.GPIOH].foldl (fun st port => emit (Call.GPIO_Init port analogCfg) st) s2
  let s4 := emit (Call.RCC_AHB1PeriphClockCmd group1 false) s3
  emit (Call.RCC_AHB1PeriphClockCmd group2 false) s4

/-- The loop `while (UserButtonStatus != SET) {}` of `WaitUser_PushBotton`: each pass
reads the volatile flag once. -/
def pollButton (env : Environment) : Nat → Mcu → Option Mcu
  | 0, _ => none
  | fuel + 1, s =>
    let value := env.buttonStatus s.tick
    let s1 := emit (Call.readUserButtonStatus value) { s with tick := s.tick + 1 }
    if value ≠ SET then pollButton env fuel s1 else some s1

/-- The function `WaitUser_PushBotton`. -/
def WaitUser_PushBotton (env : Environment) (fuel : Nat) (s : Mcu) : Option Mcu :=
  match pollButton env fuel (emit (Call.GPIO_SetBits Port.GPIOA GPIO_Pin_5) s) with
  | none => none
  | some s1 =>
    some (emit (Call.writeUserButtonStatus Writer.WaitUser_PushBotton RESET)
      (emit (Call.GPIO_ResetBits Port.GPIOA GPIO_Pin_5) s1))

/-- Modelled from the spec: the peripheral-library function `RCC_DeInit` is not under
src/.  `Mode_Exit` calls it to "Reset RCC to default reset state" (its comment), the
state of the spec's resume that "falls back to the internal oscillator": HSI enabled
and requested as system clock, HSE and PLL off.  The active source follows the request
only when the hardware carries out the switch (see `RCC_GetSYSCLKSource`). -/
def RCC_DeInit (s : Mcu) : Mcu :=
  emit Call.RCC_DeInit
    { s with rcc := { s.rcc with HSION := true, SW := 0, HSEON := false, PLLON := false } }

/-- Modelled from the spec: the peripheral-library function `RCC_HSEConfig` is not
under src/.  `Mode_Exit` calls it with `RCC_HSE_OFF` to "Disable HSE just in case it was
enabled" (its comment): that argument switches the external oscillator off, any other
argument switches it on. -/
def RCC_HSEConfig (hse : Nat) (s : Mcu) : Mcu :=
  emit (Call.RCC_HSEConfig hse)
    { s with rcc := { s.rcc with HSEON := decide (hse ≠ RCC_HSE_OFF) } }

/-- Modelled from the spec: the peripheral-library function `RCC_HSICmd` is not under
src/.  `Mode_Exit` calls it to "Enable internal HSI oscillator" (its comment): it
enables or disables the internal oscillator; a disabled oscillator is not ready. -/
def RCC_HSICmd (state : Bool) (s : Mcu) : Mcu :=
  emit (Call.RCC_HSICmd state)
    { s with rcc := { s.rcc with HSION := state, HSIRDY := state && s.rcc.HSIRDY } }

/-- Modelled from the spec: the peripheral-library call `RCC_GetFlagStatus(RCC_FLAG_HSIRDY)`
is not under src/.  `Mode_Exit` polls it to "wait until HSI is ready" (its comment): the
enabled internal oscillator becomes ready when the environment says it is stable; the
call returns `SET` when the ready bit is set, else `RESET`. -/
def RCC_GetFlagStatus_HSIRDY (env : Environment) (s : Mcu) : Nat × Mcu :=
  let ready := s.rcc.HSIRDY || (s.rcc.HSION && env.hsiStable s.tick)
  let result := if ready then SET else RESET
  (result, emit (Call.RCC_GetFlagStatus_HSIRDY result)
    { s with rcc := { s.rcc with HSIRDY := ready }, tick := s.tick + 1 })

/-- Modelled from the spec: the peripheral-library function `RCC_SYSCLKConfig` is not
under src/.  `Mode_Exit` calls it to "Use HSI as system clock" (its comment): it
requests a system clock source (the field `SW`). -/
def RCC_SYSCLKConfig (source : Nat) (s : Mcu) : Mcu :=
  emit (Call.RCC_SYSCLKConfig source) { s with rcc := { s.rcc with SW := source } }

/-- Modelled from the spec: the peripheral-library function `RCC_GetSYSCLKSource` is not
under src/.  `Mode_Exit` polls it to "wait until switch is complete" (its comment): the
active source takes the requested value when the environment carries out the switch;
the call returns the field `SWS` in place, that is 0x00 for HSI, 0x04 for HSE and 0x08
for PLL. -/
def RCC_GetSYSCLKSource (env : Environment) (s : Mcu) : Nat × Mcu :=
  let active := if env.switchDone s.tick then s.rcc.SW else s.rcc.SWS
  (4 * active, emit (Call.RCC_GetSYSCLKSource (4 * active))
    { s with rcc := { s.rcc with SWS := active }, tick := s.tick + 1 })

/-- The loop `while (RCC_GetFlagStatus(RCC_FLAG_HSIRDY) == RESET) {}` of `Mode_Exit`. -/
def waitHSIRDY (env : Environment) : Nat → Mcu → Option Mcu
  | 0, _ => none
  | fuel + 1, s =>
    if (RCC_GetFlagStatus_HSIRDY env s).1 = RESET then
      waitHSIRDY env fuel (RCC_GetFlagStatus_HSIRDY env s).2
    else some (RCC_GetFlagStatus_HSIRDY env s).2

/-- The loop `while (RCC_GetSYSCLKSource() != 0x00) {}` of `Mode_Exit`. -/
def waitSYSCLK (env : Environment) : Nat → Mcu → Option Mcu
  | 0, _ => none
  | fuel + 1, s =>
    if (RCC_GetSYSCLKSource env s).1 ≠ 0x00 then
      waitSYSCLK env fuel (RCC_GetSYSCLKSource env s).2
    else some (RCC_GetSYSCLKSource env s).2

/-- The function `Mode_Exit`. -/
def Mode_Exit (env : Environment) (fuel : Nat) (s : Mcu) : Option Mcu :=
  match waitHSIRDY env fuel (RCC_HSICmd true (RCC_HSEConfig RCC_HSE_OFF (RCC_DeInit s))) with
  | none => none
  | some s1 =>
    match waitSYSCLK env fuel (RCC_SYSCLKConfig RCC_SYSCLKSource_HSI s1) with
    | none => none
    | some s2 =>
      some (ButtonPinInt_configuration (LedsConfig
        (emit (Call.RCC_APB1PeriphClockCmd_PWR true) s2)))

/-- The function `PWR_PrepareForStopMode` of `pwr_modes.c`. -/
def PWR_PrepareForStopMode (s : Mcu) : Mcu :=
  ButtonPinInt_configuration (emit Call.PWR_ClearFlag_WU s)

/-- The function `PWR_StopMainRegFlashStop`. -/
def PWR_StopMainRegFlashStop (s : Mcu) : Mcu :=
  emit (Call.PWR_EnterSTOPMode Regulator.PWR_Regulator_ON)
    (emit (Call.PWR_FlashPowerDownCmd false) (PWR_PrepareForStopMode s))

/-- The function `PWR_StopMainRegFlashPwrDown`. -/
def PWR_StopMainRegFlashPwrDown (s : Mcu) : Mcu :=
  emit (Call.PWR_EnterSTOPMode Regulator.PWR_Regulator_ON)
    (emit (Call.PWR_FlashPowerDownCmd true) (PWR_PrepareForStopMode s))

/-- The function `PWR_StopLowPwrRegFlashStop`. -/
def PWR_StopLowPwrRegFlashStop (s : Mcu) : Mcu :=
  emit (Call.PWR_EnterSTOPMode Regulator.PWR_Regulator_LowPower)
    (emit (Call.PWR_FlashPowerDownCmd false) (PWR_PrepareForStopMode s))

/-- The function `PWR_StopLowPwrRegFlashPwrDown`. -/
def PWR_StopLowPwrRegFlashPwrDown (s : Mcu) : Mcu :=
  emit (Call.PWR_EnterSTOPMode Regulator.PWR_Regulator_LowPower)
    (emit (Call.PWR_FlashPowerDownCmd true) (PWR_PrepareForStopMode s))

/-- The function `PWR_StopMainRegUnderDriveFlashPwrDown`. -/
def PWR_StopMainRegUnderDriveFlashPwrDown (s : Mcu) : Mcu :=
  emit (Call.PWR_EnterUnderDriveSTOPMode Regulator.PWR_MainRegulator_UnderDrive_ON)
    (emit (Call.PWR_UnderDriveCmd true) (PWR_PrepareForStopMode s))

/-- The function `PWR_StopLowPwrRegUnderDriveFlashPwrDown`. -/
def PWR_StopLowPwrRegUnderDriveFlashPwrDown (s : Mcu) : Mcu :=
  emit (Call.PWR_EnterUnderDriveSTOPMode Regulator.PWR_LowPowerRegulator_UnderDrive_ON)
    (emit (Call.PWR_UnderDriveCmd true) (PWR_PrepareForStopMode s))

/-- Which of the six STOP sub-mode macros of `pwr_modes.h` are defined in a build. -/
structure Selection where
  StopMainRegFlashStop : Bool
  StopMainRegFlashPwrDown : Bool
  StopLowPwrRegFlashStop : Bool
  StopLowPwrRegFlashPwrDown : Bool
  StopMainRegUnderDriveFlashPwrDown : Bool
  StopLowPwrRegUnderDriveFlashPwrDown : Bool
  deriving DecidableEq, Repr

/-- The selection of the shipped `pwr_modes.h`: only `StopLowPwrRegFlashPwrDown`. -/
def shipped : Selection :=
  { StopMainRegFlashStop := false
    StopMainRegFlashPwrDown := false
    StopLowPwrRegFlashStop := false
    StopLowPwrRegFlashPwrDown := true
    StopMainRegUnderDriveFlashPwrDown := false
    StopLowPwrRegUnderDriveFlashPwrDown := false }

/-- The five statements that each `#if defined` block of `Measure_Stop` holds, for the
entry function `enter` of the block. -/
def stopSequence (enter : Mcu → Mcu) (env : Environment) (fuel : Nat) (s : Mcu) :
    Option Mcu :=
  match WaitUser_PushBotton env fuel s with
  | none => none
  | some s1 =>
    match Mode_Exit env fuel (enter (GPIO_AnalogConfig s1)) with
    | none => none
    | some s2 => some (emit (Call.writeUserButtonStatus Writer.Measure_Stop RESET) s2)

/-- An `#if defined` block: compiled in only when its macro is defined. -/
def ifDefined (defined : Bool) (block : Mcu → Option Mcu) (s : Mcu) : Option Mcu :=
  if defined then block s else some s

/-- The function `Measure_Stop`: its six `#if defined` blocks in source order. -/
def Measure_Stop (sel : Selection) (env : Environment) (fuel : Nat) (s : Mcu) : Option Mcu :=
  (((((ifDefined sel.StopMainRegFlashStop
          (stopSequence PWR_StopMainRegFlashStop env fuel) s).bind
      (ifDefined sel.StopMainRegFlashPwrDown
          (stopSequence PWR_StopMainRegFlashPwrDown env fuel))).bind
      (ifDefined sel.StopLowPwrRegFlashStop
          (stopSequence PWR_StopLowPwrRegFlashStop env fuel))).bind
      (ifDefined sel.StopLowPwrRegFlashPwrDown
          (stopSequence PWR_StopLowPwrRegFlashPwrDown env fuel))).bind
      (ifDefined sel.StopMainRegUnderDriveFlashPwrDown
          (stopSequence PWR_StopMainRegUnderDriveFlashPwrDown env fuel))).bind
      (ifDefined sel.StopLowPwrRegUnderDriveFlashPwrDown
          (stopSequence PWR_StopLowPwrRegUnderDriveFlashPwrDown env fuel))

/-- The function `main` up to its final `while (1) {}`: the state in which that empty
loop is entered, or `none` when a wait inside `Measure_Stop` outlasts the fuel. -/
def main (sel : Selection) (env : Environment) (fuel : Nat) (s : Mcu) : Option Mcu :=
  Measure_Stop sel env fuel (LowPowerDemo_Init s)

/-- What the interrupt context sees and changes: the pending register `EXTI->PR` and
the shared flag, with the calls and flag assignments it made. -/
structure IrqContext where
  PR : Nat
  UserButtonStatus : Nat
  trace : List Call
  deriving DecidableEq, Repr

/-- The interrupt handler `EXTI15_10_IRQHandler` of `stm32f4xx_it.c`.  The library
call `EXTI_GetITStatus(line)` answers `SET` when the bit of `line` is set in the pending
register, and `EXTI_ClearITPendingBit(line)` clears that bit. -/
def EXTI15_10_IRQHandler (c : IrqContext) : IrqContext :=
  let status := if c.PR &&& EXTI_Line13 ≠ 0 then SET else RESET
  let c1 := { c with trace := c.trace ++ [Call.EXTI_GetITStatus EXTI_Line13 status] }
  if status ≠ RESET then
    { PR := c1.PR &&& (0xFFFFFFFF ^^^ EXTI_Line13)
      UserButtonStatus := SET
      trace := c1.trace ++ [Call.EXTI_ClearITPendingBit EXTI_Line13,
        Call.writeUserButtonStatus Writer.EXTI15_10_IRQHandler SET] }
  else c1

/-- The callback `HAL_GPIO_EXTI_Callback` of `main.c`. -/
def HAL_GPIO_EXTI_Callback (GPIO_Pin : Nat) (c : IrqContext) : IrqContext :=
  if GPIO_Pin = GPIO_Pin_13 then
    { c with
      UserButtonStatus := SET
      trace := c.trace ++ [Call.writeUserButtonStatus Writer.HAL_GPIO_EXTI_Callback SET] }
  else c

/-- The assignments to `UserButtonStatus` recorded in a trace, in order. -/
def flagWrites : List Call → List (Writer × Nat)
  | [] => []
  | Call.writeUserButtonStatus writer value :: rest => (writer, value) :: flagWrites rest
  | _ :: rest => flagWrites rest

/-- The values of `UserButtonStatus` read in a trace, in order. -/
def flagReads : List Call → List Nat
  | [] => []
  | Call.readUserButtonStatus value :: rest => value :: flagReads rest
  | _ :: rest => flagReads rest

/-- Level of the indicator LED (PA5) after the calls of a trace, from the level `led`
before them: `GPIO_SetBits` on PA5 drives it active, `GPIO_ResetBits` inactive. -/
def ledAfter (led : Bool) : List Call → Bool
  | [] => led
  | Call.GPIO_SetBits Port.GPIOA pins :: rest =>
    ledAfter (if pins &&& GPIO_Pin_5 ≠ 0 then true else led) rest
  | Call.GPIO_ResetBits Port.GPIOA pins :: rest =>
    ledAfter (if pins &&& GPIO_Pin_5 ≠ 0 then false else led) rest
  | _ :: rest => ledAfter led rest

/-- A start state: running from the PLL fed by HSE, nothing polled or called yet. -/
def onPll : Mcu :=
  { rcc := { HSION := false, HSIRDY := false, HSEON := true, PLLON := true, SW := 2, SWS := 2 }
    tick := 0
    trace := [] }

/-- An environment in which the button flag reads `RESET` twice and `SET` from the
third read on, and the clock hardware answers at once. -/
def pressAtThirdPoll : Environment :=
  { buttonStatus := fun t => if t < 2 then RESET else SET
    hsiStable := fun _ => true
    switchDone := fun _ => true }

/-- Clock-control state in which `Mode_Exit` leaves the device: HSI enabled, ready,
requested and active; HSE and PLL off. -/
def onHsi : Rcc :=
  { HSION := true, HSIRDY := true, HSEON := false, PLLON := false, SW := 0, SWS := 0 }

/-- Number of STOP sub-mode macros defined in a build. -/
def selectedCount (sel : Selection) : Nat :=
  sel.StopMainRegFlashStop.toNat + sel.StopMainRegFlashPwrDown.toNat +
  sel.StopLowPwrRegFlashStop.toNat + sel.StopLowPwrRegFlashPwrDown.toNat +
  sel.StopMainRegUnderDriveFlashPwrDown.toNat + sel.StopLowPwrRegUnderDriveFlashPwrDown.toNat

/-- An environment in which the button flag always reads `RESET`. -/
def neverPressed : Environment :=
  { buttonStatus := fun _ => RESET
    hsiStable := fun _ => true
    switchDone := fun _ => true }

/-- The calls made by `ButtonPinInt_configuration`, in order: GPIOC and SYSCFG clocks,
PC13 as input, EXTI line 13 routed to port C, EXTI reset, line 13 enabled as rising-edge
interrupt, `EXTI15_10_IRQn` enabled in the NVIC. -/
def buttonExtiCalls : List Call :=
  [Call.RCC_AHB1PeriphClockCmd [Port.GPIOC] true,
   Call.RCC_APB2PeriphClockCmd_SYSCFG true,
   Call.GPIO_Init Port.GPIOC
      { GPIO_Pin := GPIO_Pin_13, GPIO_Mode := GPIOMode.GPIO_Mode_IN, GPIO_Speed := 50,
        GPIO_OType := some true, GPIO_PuPd := false },
   Call.SYSCFG_EXTILineConfig Port.GPIOC 13,
   Call.EXTI_DeInit,
   Call.EXTI_Init
      { EXTI_Line := EXTI_Line13, EXTI_Mode_Interrupt := true,
        EXTI_Trigger := EXTITrigger.EXTI_Trigger_Rising, EXTI_LineCmd := true },
   Call.NVIC_Init
      { NVIC_IRQChannel := IRQn.EXTI15_10_IRQn, NVIC_IRQChannelPreemptionPriority := 0,
        NVIC_IRQChannelSubPriority := 0, NVIC_IRQChannelCmd := true }]

/-- The six STOP sub-modes, named after their macros in `pwr_modes.h`. -/
inductive Variant where
  | StopMainRegFlashStop
  | StopMainRegFlashPwrDown
  | StopLowPwrRegFlashStop
  | StopLowPwrRegFlashPwrDown
  | StopMainRegUnderDriveFlashPwrDown
  | StopLowPwrRegUnderDriveFlashPwrDown
  deriving DecidableEq, Repr

/-- The entry function that `Measure_Stop` calls in the block guarded by a macro. -/
def entry : Variant → Mcu → Mcu
  | Variant.StopMainRegFlashStop => PWR_StopMainRegFlashStop
  | Variant.StopMainRegFlashPwrDown => PWR_StopMainRegFlashPwrDown
  | Variant.StopLowPwrRegFlashStop => PWR_StopLowPwrRegFlashStop
  | Variant.StopLowPwrRegFlashPwrDown => PWR_StopLowPwrRegFlashPwrDown
  | Variant.StopMainRegUnderDriveFlashPwrDown => PWR_StopMainRegUnderDriveFlashPwrDown
  | Variant.StopLowPwrRegUnderDriveFlashPwrDown => PWR_StopLowPwrRegUnderDriveFlashPwrDown

/-- The build in which the macro of one sub-mode is defined and the other five are not. -/
def only (v : Variant) : Selection :=
  { StopMainRegFlashStop := decide (v = Variant.StopMainRegFlashStop)
    StopMainRegFlashPwrDown := decide (v = Variant.StopMainRegFlashPwrDown)
    StopLowPwrRegFlashStop := decide (v = Variant.StopLowPwrRegFlashStop)
    StopLowPwrRegFlashPwrDown := decide (v = Variant.StopLowPwrRegFlashPwrDown)
    StopMainRegUnderDriveFlashPwrDown := decide (v = Variant.StopMainRegUnderDriveFlashPwrDown)
    StopLowPwrRegUnderDriveFlashPwrDown :=
      decide (v = Variant.StopLowPwrRegUnderDriveFlashPwrDown) }

/-- The call by which the entry function of a sub-mode enters STOP. -/
def enterCall : Variant → Call
  | Variant.StopMainRegFlashStop => Call.PWR_EnterSTOPMode Regulator.PWR_Regulator_ON
  | Variant.StopMainRegFlashPwrDown => Call.PWR_EnterSTOPMode Regulator.PWR_Regulator_ON
  | Variant.StopLowPwrRegFlashStop => Call.PWR_EnterSTOPMode Regulator.PWR_Regulator_LowPower
  | Variant.StopLowPwrRegFlashPwrDown => Call.PWR_EnterSTOPMode Regulator.PWR_Regulator_LowPower
  | Variant.StopMainRegUnderDriveFlashPwrDown =>
    Call.PWR_EnterUnderDriveSTOPMode Regulator.PWR_MainRegulator_UnderDrive_ON
  | Variant.StopLowPwrRegUnderDriveFlashPwrDown =>
    Call.PWR_EnterUnderDriveSTOPMode Regulator.PWR_LowPowerRegulator_UnderDrive_ON

/-- The call that the entry function of a sub-mode makes just before it enters STOP. -/
def powerCommand : Variant → Call
  | Variant.StopMainRegFlashStop => Call.PWR_FlashPowerDownCmd false
  | Variant.StopMainRegFlashPwrDown => Call.PWR_FlashPowerDownCmd true
  | Variant.StopLowPwrRegFlashStop => Call.PWR_FlashPowerDownCmd false
  | Variant.StopLowPwrRegFlashPwrDown => Call.PWR_FlashPowerDownCmd true
  | Variant.StopMainRegUnderDriveFlashPwrDown => Call.PWR_UnderDriveCmd true
  | Variant.StopLowPwrRegUnderDriveFlashPwrDown => Call.PWR_UnderDriveCmd true

/-- The calls of the entry function of a sub-mode, in order. -/
def entryCalls (v : Variant) : List Call :=
  [Call.PWR_ClearFlag_WU] ++ buttonExtiCalls ++ [powerCommand v, enterCall v]

/-- Whether the macro of a sub-mode is defined in a build. -/
def isDefined (sel : Selection) : Variant → Bool
  | Variant.StopMainRegFlashStop => sel.StopMainRegFlashStop
  | Variant.StopMainRegFlashPwrDown => sel.StopMainRegFlashPwrDown
  | Variant.StopLowPwrRegFlashStop => sel.StopLowPwrRegFlashStop
  | Variant.StopLowPwrRegFlashPwrDown => sel.StopLowPwrRegFlashPwrDown
  | Variant.StopMainRegUnderDriveFlashPwrDown => sel.StopMainRegUnderDriveFlashPwrDown
  | Variant.StopLowPwrRegUnderDriveFlashPwrDown => sel.StopLowPwrRegUnderDriveFlashPwrDown

/-- The sub-modes whose macro is defined in a build, in the order of their blocks in
`Measure_Stop`. -/
def selected (sel : Selection) : List Variant :=
  [Variant.StopMainRegFlashStop, Variant.StopMainRegFlashPwrDown,
   Variant.StopLowPwrRegFlashStop, Variant.StopLowPwrRegFlashPwrDown,
   Variant.StopMainRegUnderDriveFlashPwrDown,
   Variant.StopLowPwrRegUnderDriveFlashPwrDown].filter (isDefined sel)

/-- The STOP entry calls recorded in a trace, in order. -/
def stopEntries : List Call → List Call
  | [] => []
  | Call.PWR_EnterSTOPMode regulator :: rest =>
    Call.PWR_EnterSTOPMode regulator :: stopEntries rest
  | Call.PWR_EnterUnderDriveSTOPMode regulator :: rest =>
    Call.PWR_EnterUnderDriveSTOPMode regulator :: stopEntries rest
  | _ :: rest => stopEntries rest

/-- The first `iterations` passes of the final `while (1) {}` of `main`, whose body is
empty. -/
def idleLoop : Nat → Mcu → Mcu
  | 0, s => s
  | iterations + 1, s => idleLoop iterations s

/-- The function `main` followed by `iterations` passes of its final empty loop. -/
def mainFor (sel : Selection) (env : Environment) (fuel iterations : Nat) (s : Mcu) :
    Option Mcu :=
  (main sel env fuel s).map (idleLoop iterations)

/-- An environment in which the button flag reads `SET` at every poll (the button is
pressed again and again), and the clock hardware answers at once. -/
def alwaysPressed : Environment :=
  { buttonStatus := fun _ => SET
    hsiStable := fun _ => true
    switchDone := fun _ => true }

/-- A build in which two sub-mode macros are defined. -/
def twoSelected : Selection :=
  { StopMainRegFlashStop := true
    StopMainRegFlashPwrDown := false
    StopLowPwrRegFlashStop := false
    StopLowPwrRegFlashPwrDown := true
    StopMainRegUnderDriveFlashPwrDown := false
    StopLowPwrRegUnderDriveFlashPwrDown := false }

/-- A build in which no sub-mode macro is defined. -/
def noneSelected : Selection :=
  { StopMainRegFlashStop := false
    StopMainRegFlashPwrDown := false
    StopLowPwrRegFlashStop := false
    StopLowPwrRegFlashPwrDown := false
    StopMainRegUnderDriveFlashPwrDown := false
    StopLowPwrRegUnderDriveFlashPwrDown := false }

/-- An interrupt context in which EXTI lines 13 and 10 are pending and the flag is
`RESET`. -/
def line13Pending : IrqContext := { PR := 0x2400, UserButtonStatus := RESET, trace := [] }

/-- An interrupt context in which only EXTI line 10 is pending and the flag is `RESET`. -/
def line10Pending : IrqContext := { PR := 0x0400, UserButtonStatus := RESET, trace := [] }

/-- The calls made by `GPIO_AnalogConfig`, in order: the GPIO clocks enabled in two
groups, `GPIO_Init` of the ports A to H with all pins in analog mode, the GPIO clocks
disabled in the same two groups. -/
def analogCalls : List Call :=
  [Call.RCC_AHB1PeriphClockCmd
      [Port.GPIOA, Port.GPIOB, Port.GPIOC, Port.GPIOD, Port.GPIOE, Port.GPIOH] true,
   Call.RCC_AHB1PeriphClockCmd [Port.GPIOF, Port.GPIOG] true,
   Call.GPIO_Init Port.GPIOA analogCfg, Call.GPIO_Init Port.GPIOB analogCfg,
   Call.GPIO_Init Port.GPIOC analogCfg, Call.GPIO_Init Port.GPIOD analogCfg,
   Call.GPIO_Init Port.GPIOE analogCfg, Call.GPIO_Init Port.GPIOF analogCfg,
   Call.GPIO_Init Port.GPIOG analogCfg, Call.GPIO_Init Port.GPIOH analogCfg,
   Call.RCC_AHB1PeriphClockCmd
      [Port.GPIOA, Port.GPIOB, Port.GPIOC, Port.GPIOD, Port.GPIOE, Port.GPIOH] false,
   Call.RCC_AHB1PeriphClockCmd [Port.GPIOF, Port.GPIOG] false]

/-- Hardware configuration of the button wakeup path: the GPIOC and SYSCFG clocks, the
mode of pin PC13, the port routed to EXTI line 13, the interrupt mask and the edge
selection of line 13, and the enable of `EXTI15_10_IRQn` in the NVIC. -/
structure WakeupConfig where
  gpiocClock : Bool
  syscfgClock : Bool
  pc13Mode : GPIOMode
  exti13Port : Option Port
  exti13Interrupt : Bool
  exti13Rising : Bool
  exti13Falling : Bool
  nvicEXTI15_10 : Bool
  deriving DecidableEq, Repr

/-- Modelled from the spec: the peripheral-library functions are not under src/; their
effect on the wakeup path is taken from the comments of `ButtonPinInt_configuration`
and `GPIO_AnalogConfig` ("Enable GPIOC and SYSCFG clocks", "PC13 as input", "Route EXTI
line 13 to PC13", "Configure EXTI line 13", "Configure NVIC for EXTI15_10_IRQn", "Put
all GPIOs in analog mode", "Disable clocks again").  A clock command sets the clock of
the named peripherals; `GPIO_Init` sets the mode of the pins of its mask, and reaches
the registers of port C only while the GPIOC clock is on; `SYSCFG_EXTILineConfig`
routes a line to a port, while the SYSCFG clock is on; `EXTI_DeInit` resets the mask
and edge selection; `EXTI_Init` with `ENABLE` sets mask and edge selection of its line
as configured and with `DISABLE` clears the mask bit of its mode; `NVIC_Init` enables
or disables the channel.  Every other call leaves the wakeup path as it is. -/
def applyCall (w : WakeupConfig) : Call → WakeupConfig
  | Call.RCC_AHB1PeriphClockCmd ports state =>
    if Port.GPIOC ∈ ports then { w with gpiocClock := state } else w
  | Call.RCC_APB2PeriphClockCmd_SYSCFG state => { w with syscfgClock := state }
  | Call.GPIO_Init Port.GPIOC cfg =>
    if w.gpiocClock = true ∧ cfg.GPIO_Pin &&& GPIO_Pin_13 ≠ 0 then
      { w with pc13Mode := cfg.GPIO_Mode }
    else w
  | Call.SYSCFG_EXTILineConfig port pinSource =>
    if w.syscfgClock = true ∧ pinSource = 13 then { w with exti13Port := some port } else w
  | Call.EXTI_DeInit =>
    { w with exti13Interrupt := false, exti13Rising := false, exti13Falling := false }
  | Call.EXTI_Init cfg =>
    if cfg.EXTI_Line &&& EXTI_Line13 ≠ 0 then
      if cfg.EXTI_LineCmd then
        { w with
          exti13Interrupt := cfg.EXTI_Mode_Interrupt
          exti13Rising := decide (cfg.EXTI_Trigger ≠ EXTITrigger.EXTI_Trigger_Falling)
          exti13Falling := decide (cfg.EXTI_Trigger ≠ EXTITrigger.EXTI_Trigger_Rising) }
      else if cfg.EXTI_Mode_Interrupt then { w with exti13Interrupt := false } else w
    else w
  | Call.NVIC_Init cfg => { w with nvicEXTI15_10 := cfg.NVIC_IRQChannelCmd }
  | _ => w

/-- The wakeup path after the calls of a trace, from the configuration `w` before them. -/
def wakeupAfter (w : WakeupConfig) (calls : List Call) : WakeupConfig :=
  calls.foldl applyCall w

/-- The armed wakeup path: clocks on, PC13 an input routed to EXTI line 13, line 13
an enabled rising-edge interrupt, `EXTI15_10_IRQn` enabled in the NVIC. -/
def armedConfig : WakeupConfig :=
  { gpiocClock := true
    syscfgClock := true
    pc13Mode := GPIOMode.GPIO_Mode_IN
    exti13Port := some Port.GPIOC
    exti13Interrupt := true
    exti13Rising := true
    exti13Falling := false
    nvicEXTI15_10 := true }

/-- Whether a call is one of the two STOP entry calls. -/
def isStopEntry : Call → Bool
  | Call.PWR_EnterSTOPMode _ => true
  | Call.PWR_EnterUnderDriveSTOPMode _ => true
  | _ => false

/-- The wakeup-path configuration in force at each STOP entry call of a trace, in order:
for every entry call, what the calls before it have made of the configuration `w`. -/
def configAtStopEntries (w : WakeupConfig) : List Call → List WakeupConfig
  | [] => []
  | c :: rest =>
    (if isStopEntry c then [w] else []) ++ configAtStopEntries (applyCall w c) rest

/-- The state `s1` continues the trace of `s` by calls among which there are `n` STOP
entry calls, each issued with the wakeup path armed, whatever the configuration at the
start of the continuation. -/
def armedExtension (s s1 : Mcu) (n : Nat) : Prop :=
  ∃ t, s1.trace = s.trace ++ t ∧
    ∀ w, configAtStopEntries w t = List.replicate n armedConfig

/-- A starting configuration in which nothing of the wakeup path is set up. -/
def unconfigured : WakeupConfig :=
  { gpiocClock := false
    syscfgClock := false
    pc13Mode := GPIOMode.GPIO_Mode_AN
    exti13Port := none
    exti13Interrupt := false
    exti13Rising := false
    exti13Falling := false
    nvicEXTI15_10 := false }

end Current_Meg_Stop_Mode

/-! ## Theorems -/

namespace Firmware

theorem cString_eq_self (l : List Nat) (h : ∀ b ∈ l, b ≠ 0) : cString l = l := by
  unfold cString
  rw [List.takeWhile_eq_self_iff]
  intro b hb
  simpa using h b hb

theorem cString_ne_zero (l : List Nat) : ∀ b ∈ cString l, b ≠ 0 := by
  intro b hb
  have := List.mem_takeWhile_imp hb
  simpa using this

theorem cString_length_le (l : List Nat) : (cString l).length ≤ l.length := by
  unfold cString
  exact (List.takeWhile_sublist _).length_le

theorem cString_idem (l : List Nat) : cString (cString l) = cString l :=
  cString_eq_self _ (cString_ne_zero l)

/-- Storing a NUL at index `n` of a buffer makes the C string end at `n` at the latest. -/
theorem cString_set_zero (l : List Nat) : ∀ n : Nat, n < l.length →
    cString (l.set n 0) = cString (l.take n) := by
  induction l with
  | nil => intro n hn; simp at hn
  | cons a l ih =>
    intro n hn
    cases n with
    | zero => simp [cString]
    | succ n =>
      have hn1 : n < l.length := by simpa using hn
      have := ih n hn1
      unfold cString at this ⊢
      simp only [List.set_cons_succ, List.take_succ_cons, List.takeWhile_cons]
      split
      · rw [this]
      · rfl

theorem snprintf_eq_self (size : Nat) (formatted : List Nat)
    (hlen : formatted.length ≤ size - 1) (hnz : ∀ b ∈ formatted, b ≠ 0) :
    snprintf size formatted = formatted := by
  unfold snprintf
  rw [List.take_of_length_le hlen]
  exact cString_eq_self _ hnz

theorem Run.andThen_skip {ε : Type} (a : Run ε) : a.andThen Run.skip = a := by
  cases a with
  | mk trace halted =>
    cases halted <;> simp [Run.andThen, Run.skip]

theorem Run.steps_replicate_skip {ε : Type} (n : Nat) :
    Run.steps (List.replicate n (Run.skip : Run ε)) = Run.skip := by
  induction n with
  | zero => rfl
  | succ n ih =>
    rw [List.replicate_succ]
    show (Run.skip : Run ε).andThen (Run.steps (List.replicate n Run.skip)) = Run.skip
    rw [ih]
    rfl

theorem Run.steps_append_replicate_skip {ε : Type} (xs : List (Run ε)) (n : Nat) :
    Run.steps (xs ++ List.replicate n Run.skip) = Run.steps xs := by
  induction xs with
  | nil => simpa [Run.steps] using Run.steps_replicate_skip n
  | cons x xs ih =>
    show x.andThen (Run.steps (xs ++ List.replicate n Run.skip)) = x.andThen (Run.steps xs)
    rw [ih]

theorem bytes_ne_zero_label : ∀ b ∈ bytes "CAN RX: ", b ≠ 0 := by decide

theorem bytes_ne_zero_crlf : ∀ b ∈ bytes "\r\n", b ≠ 0 := by decide

end Firmware

namespace PWM_LED

theorem compareWrites_append (xs ys : List HalCall) :
    compareWrites (xs ++ ys) = compareWrites xs ++ compareWrites ys := by
  induction xs with
  | nil => rfl
  | cons x xs ih =>
    cases x with
    | setCompare v => simp [compareWrites, ih]
    | delay m => simp [compareWrites, ih]

theorem toUint16_add (d s : Nat) (h : d + s < 65536) :
    toUint16 ((d : Int) + (s : Int)) = d + s := by
  unfold toUint16
  omega

theorem toUint16_sub (d s : Nat) (h1 : s ≤ d) (h2 : d < 65536) :
    toUint16 ((d : Int) - (s : Int)) = d - s := by
  unfold toUint16
  omega

/-- The rising loop from `20 * k` (with `k + n = 500`) ends at 10000 after writing
`20 * (k+1), ..., 10000`. -/
theorem increaseBrightness_run (n : Nat) : ∀ (k fuel : Nat), k + n = 500 → n < fuel →
    ∃ calls, increaseBrightness 9999 20 fuel (20 * k) = some (10000, calls) ∧
      compareWrites calls = (List.range' (k + 1) n).map (fun i => 20 * i) := by
  induction n with
  | zero =>
    intro k fuel hk hf
    obtain ⟨f, rfl⟩ : ∃ f, fuel = f + 1 := ⟨fuel - 1, by omega⟩
    have hk500 : k = 500 := by omega
    subst hk500
    exact ⟨[], by simp [increaseBrightness], by simp [compareWrites]⟩
  | succ n ih =>
    intro k fuel hk hf
    obtain ⟨f, rfl⟩ : ∃ f, fuel = f + 1 := ⟨fuel - 1, by omega⟩
    obtain ⟨calls, hrun, hw⟩ := ih (k + 1) f (by omega) (by omega)
    have hlt : 20 * k < 9999 := by omega
    have hcast : toUint16 (((20 * k : Nat) : Int) + ((20 : Nat) : Int)) = 20 * (k + 1) := by
      rw [toUint16_add _ _ (by omega)]; ring
    refine ⟨HalCall.setCompare (20 * (k + 1)) :: HalCall.delay 1 :: calls, ?_, ?_⟩
    · simp only [increaseBrightness, hlt, if_true, hcast, hrun]
    · simp [compareWrites, hw, List.range'_succ]

/-- The falling loop from `20 * n` ends at 0 after writing `20 * (n-1), ..., 0`. -/
theorem decreaseBrightness_run (n : Nat) : ∀ (fuel : Nat), 20 * n < 65536 → n < fuel →
    ∃ calls, decreaseBrightness 20 fuel (20 * n) = some (0, calls) ∧
      compareWrites calls = ((List.range n).map (fun i => 20 * i)).reverse := by
  induction n with
  | zero =>
    intro fuel _ hf
    obtain ⟨f, rfl⟩ : ∃ f, fuel = f + 1 := ⟨fuel - 1, by omega⟩
    exact ⟨[], by simp [decreaseBrightness], by simp [compareWrites]⟩
  | succ n ih =>
    intro fuel hb hf
    obtain ⟨f, rfl⟩ : ∃ f, fuel = f + 1 := ⟨fuel - 1, by omega⟩
    obtain ⟨calls, hrun, hw⟩ := ih f (by omega) (by omega)
    have hpos : 20 * (n + 1) > 0 := by omega
    have hcast : toUint16 (((20 * (n + 1) : Nat) : Int) - ((20 : Nat) : Int)) = 20 * n := by
      rw [toUint16_sub _ _ (by omega) (by omega)]; omega
    refine ⟨HalCall.setCompare (20 * n) :: HalCall.delay 1 :: calls, ?_, ?_⟩
    · simp only [decreaseBrightness, hpos, if_true, hcast, hrun]
    · simp [compareWrites, hw, List.range_succ]

theorem chain_up (n : Nat) : ∀ k : Nat,
    List.Chain (fun a b => a < b ∧ b = a + 20) (20 * k)
      ((List.range' (k + 1) n).map (fun i => 20 * i)) := by
  induction n with
  | zero => intro k; simp
  | succ n ih =>
    intro k
    simp only [List.range'_succ, List.map_cons, List.chain_cons]
    exact ⟨⟨by omega, by ring⟩, ih (k + 1)⟩

theorem chain_down (n : Nat) :
    List.Chain (fun a b => b < a ∧ b + 20 = a) (20 * n)
      ((List.range n).map (fun i => 20 * i)).reverse := by
  induction n with
  | zero => simp
  | succ n ih =>
    simp only [List.range_succ, List.map_append, List.map_cons, List.map_nil,
      List.reverse_append, List.reverse_cons, List.reverse_nil, List.nil_append,
      List.singleton_append, List.chain_cons]
    exact ⟨⟨by omega, by ring⟩, ih⟩

/-- One pass from duty 0 with the demo's constants, for any sufficient fuel. -/
theorem breathingPass_run (fuel : Nat) (hf : 500 < fuel) :
    ∃ up down, increaseBrightness Period dutyStep fuel 0 = some (10000, up) ∧
      decreaseBrightness dutyStep fuel 10000 = some (0, down) ∧
      breathingPass Period dutyStep fuel 0 = some (0, up ++ down) ∧
      compareWrites up = (List.range' 1 500).map (fun i => 20 * i) ∧
      compareWrites down = ((List.range 500).map (fun i => 20 * i)).reverse := by
  obtain ⟨up, hup, hupw⟩ := increaseBrightness_run 500 0 fuel (by omega) hf
  obtain ⟨down, hdown, hdownw⟩ := decreaseBrightness_run 500 fuel (by omega) hf
  have hP : Period = 9999 := rfl
  have hS : dutyStep = 20 := rfl
  rw [hP, hS]
  simp only [Nat.mul_zero, Nat.zero_add] at hup hupw
  have h10 : (20 * 500 : Nat) = 10000 := rfl
  rw [h10] at hdown
  refine ⟨up, down, hup, hdown, ?_, hupw, hdownw⟩
  simp only [breathingPass, hup, hdown]

/-- Any number of passes of the breathing loop from duty 0 terminates with duty 0, and
no compare value above 10000 is written. -/
theorem breathing_run (fuel : Nat) (hf : 500 < fuel) : ∀ passes : Nat,
    ∃ calls, breathing Period dutyStep fuel passes 0 = some (0, calls) ∧
      ∀ v ∈ compareWrites calls, v ≤ 10000 := by
  intro passes
  induction passes with
  | zero => exact ⟨[], rfl, by simp [compareWrites]⟩
  | succ n ih =>
    obtain ⟨up, down, _, _, hpass, hupw, hdownw⟩ := breathingPass_run fuel hf
    obtain ⟨rest, hrest, hbound⟩ := ih
    refine ⟨up ++ down ++ rest, by simp only [breathing, hpass, hrest], ?_⟩
    intro v hv
    rw [compareWrites_append, compareWrites_append, hupw, hdownw] at hv
    simp only [List.mem_append, List.mem_map, List.mem_range', List.mem_reverse,
      List.mem_range] at hv
    rcases hv with (⟨i, ⟨j, hj, hi⟩, rfl⟩ | ⟨i, hi, rfl⟩) | hv
    · omega
    · omega
    · exact hbound v hv

/-- C1 (refutation of the claim as stated): in the first pass of the breathing loop of
`main`, started as the program starts it (duty 0, step 20, Period 9999), the 500th
compare value written to TIM2 channel 1 is 10000, which is greater than Period; so not
every written compare value lies in the range from 0 to Period. -/
theorem C1_rising_loop_overshoots_period :
    ∃ d calls, breathing Period dutyStep 501 1 0 = some (d, calls) ∧
      (compareWrites calls)[499]? = some 10000 ∧ Period < 10000 ∧
      ¬ (∀ v ∈ compareWrites calls, v ≤ Period) := by
  obtain ⟨up, down, _, _, hpass, hupw, hdownw⟩ := breathingPass_run 501 (by omega)
  refine ⟨0, up ++ down ++ [], ?_, ?_, by decide, ?_⟩
  · simp only [breathing, hpass]
  · have hsplit : List.range' 1 500 = List.range' 1 499 ++ [500] := List.range'_concat 1 499
    have hw : compareWrites (up ++ down ++ []) =
        (List.range' 1 499).map (fun i => 20 * i) ++ (10000 :: compareWrites down) := by
      simp [compareWrites_append, hupw, hsplit, compareWrites]
    rw [hw, List.getElem?_append_right (by simp)]
    simp
  · intro hall
    have hmem : 10000 ∈ compareWrites (up ++ down ++ []) := by
      simp only [compareWrites_append, hupw, List.mem_append, List.mem_map, List.mem_range']
      exact Or.inl (Or.inl ⟨500, ⟨499, by omega, by omega⟩, rfl⟩)
    have := hall 10000 hmem
    exact absurd this (by decide)

/-- C1 (amended): in the breathing loop of `main` (duty starts at 0, step 20, Period
9999), for any number of passes of the outer loop and any fuel above 500 the passes
terminate, and every compare value written to TIM2 channel 1 lies in the closed range
from 0 to Period + 1 = 10000: the peak exceeds Period by one count and nothing larger
is ever written. -/
theorem C1_compare_values_at_most_period_plus_one (fuel passes : Nat) (hf : 500 < fuel) :
    ∃ calls, breathing Period dutyStep fuel passes 0 = some (0, calls) ∧
      ∀ v ∈ compareWrites calls, 0 ≤ v ∧ v ≤ Period + 1 := by
  obtain ⟨calls, hrun, hbound⟩ := breathing_run fuel hf passes
  exact ⟨calls, hrun, fun v hv => ⟨Nat.zero_le v, hbound v hv⟩⟩

/-- Witness for C1 (amended): three passes on fuel 501. -/
theorem C1_compare_values_at_most_period_plus_one_witness :
    ∃ calls, breathing Period dutyStep 501 3 0 = some (0, calls) ∧
      ∀ v ∈ compareWrites calls, 0 ≤ v ∧ v ≤ Period + 1 :=
  C1_compare_values_at_most_period_plus_one 501 3 (by decide)

/-- C2: one pass of the outer loop of `main`, started from duty 0 with step 20 and
Period 9999, terminates for every fuel above 500 and writes a triangular sequence:
the rising writes each equal the previous value plus 20 (strictly increasing, from 0)
up to a peak of at least Period - step, the falling writes each equal the previous
value minus 20 (strictly decreasing) down to a last written value 0, and the duty
left for the next pass is 0. -/
theorem C2_one_pass_is_triangular (fuel : Nat) (hf : 500 < fuel) :
    ∃ calls up down peak,
      breathingPass Period dutyStep fuel 0 = some (0, calls) ∧
      compareWrites calls = up ++ down ∧
      List.Chain (fun a b => a < b ∧ b = a + dutyStep) 0 up ∧
      up.getLast? = some peak ∧ Period - dutyStep ≤ peak ∧
      List.Chain (fun a b => b < a ∧ b + dutyStep = a) peak down ∧
      down.getLast? = some 0 := by
  obtain ⟨up, down, _, _, hpass, hupw, hdownw⟩ := breathingPass_run fuel hf
  refine ⟨up ++ down, compareWrites up, compareWrites down, 10000, hpass,
    compareWrites_append up down, ?_, ?_, by decide, ?_, ?_⟩
  · rw [hupw]; exact chain_up 500 0
  · have hsplit : List.range' 1 500 = List.range' 1 499 ++ [500] := List.range'_concat 1 499
    rw [hupw, hsplit]; simp
  · rw [hdownw]; exact chain_down 500
  · have hsplit : List.range 500 = 0 :: (List.range 499).map Nat.succ := List.range_succ_eq_map 499
    rw [hdownw, hsplit]; simp

/-- Witness for C2 at fuel 501. -/
theorem C2_one_pass_is_triangular_witness :
    500 < 501 ∧ ∃ calls up down peak,
      breathingPass Period dutyStep 501 0 = some (0, calls) ∧
      compareWrites calls = up ++ down ∧
      List.Chain (fun a b => a < b ∧ b = a + dutyStep) 0 up ∧
      up.getLast? = some peak ∧ Period - dutyStep ≤ peak ∧
      List.Chain (fun a b => b < a ∧ b + dutyStep = a) peak down ∧
      down.getLast? = some 0 :=
  ⟨by decide, C2_one_pass_is_triangular 501 (by decide)⟩

end PWM_LED

namespace RTC_Time_Date

open Firmware

/-- The serial output of a run of `main` on which the four checked initialisation
calls succeed. -/
theorem uartTexts_main_of_init_ok (hw : Hardware)
    (hosc : hw.oscConfig = HAL_StatusTypeDef.HAL_OK)
    (hclk : hw.clockConfig = HAL_StatusTypeDef.HAL_OK)
    (huart : hw.uartInit = HAL_StatusTypeDef.HAL_OK)
    (hrtc : hw.rtcInit = HAL_StatusTypeDef.HAL_OK) :
    uartTexts (main hw).trace =
      [bytes "RTC standby example started\r\n"] ++
      (if hw.standbyFlag then
        [bytes "System woke up from STANDBY mode\r\n",
         cString (snprintf 80 (timeLine hw.timeNow)),
         cString (snprintf 80 (dateLine hw.dateNow))]
       else []) ++
      [bytes "Entering STANDBY mode now\r\n"] := by
  have hbanner : cString (snprintf 80 (bytes "RTC standby example started\r\n")) =
      bytes "RTC standby example started\r\n" := by decide
  have hwoke : cString (snprintf 80 (bytes "System woke up from STANDBY mode\r\n")) =
      bytes "System woke up from STANDBY mode\r\n" := by decide
  have hentering : cString (snprintf 80 (bytes "Entering STANDBY mode now\r\n")) =
      bytes "Entering STANDBY mode now\r\n" := by decide
  cases hsb : hw.standbyFlag <;>
    simp [main, Run.steps, Run.andThen, Run.call, Run.unchecked, Run.skip, Run.halt, GPIO_Init,
      SystemClock_Config_HSE, clockSetting, checked, UART2_Init, RTC_Init, rtc_uart_printf,
      HAL_GPIO_EXTI_Callback, uartTexts, hosc, hclk, huart, hrtc, hsb, hbanner, hwoke,
      hentering]

/-- C3 (refutation of the claim as stated): on the run `resumedBoot`, which starts
with the standby flag set and on which every initialisation call succeeds, the first
text sent over the serial link is the banner "RTC standby example started", and the
first two texts are not the time/date pair. -/
theorem C3_resumed_run_starts_with_banner :
    resumedBoot.standbyFlag = true ∧
    (uartTexts (main resumedBoot).trace).head? =
      some (bytes "RTC standby example started\r\n") ∧
    (uartTexts (main resumedBoot).trace).take 2 ≠
      [cString (snprintf 80 (timeLine resumedBoot.timeNow)),
       cString (snprintf 80 (dateLine resumedBoot.dateNow))] := by
  have h := uartTexts_main_of_init_ok resumedBoot rfl rfl rfl rfl
  refine ⟨rfl, ?_, ?_⟩
  · rw [h]; rfl
  · rw [h]; decide

/-- C3 (amended): on every run of `main` on which the standby flag is set at startup
and the four checked initialisation calls succeed, the texts sent over the serial link
are, in order, the banner "RTC standby example started", the line "System woke up from
STANDBY mode", the time line, the date line and "Entering STANDBY mode now"; the
restored time/date pair is the third and fourth text, after the banner. -/
theorem C3_resumed_run_serial_output (hw : Hardware)
    (hosc : hw.oscConfig = HAL_StatusTypeDef.HAL_OK)
    (hclk : hw.clockConfig = HAL_StatusTypeDef.HAL_OK)
    (huart : hw.uartInit = HAL_StatusTypeDef.HAL_OK)
    (hrtc : hw.rtcInit = HAL_StatusTypeDef.HAL_OK)
    (hsb : hw.standbyFlag = true) :
    uartTexts (main hw).trace =
      [bytes "RTC standby example started\r\n",
       bytes "System woke up from STANDBY mode\r\n",
       cString (snprintf 80 (timeLine hw.timeNow)),
       cString (snprintf 80 (dateLine hw.dateNow)),
       bytes "Entering STANDBY mode now\r\n"] := by
  rw [uartTexts_main_of_init_ok hw hosc hclk huart hrtc, hsb]
  rfl

/-- Witness for C3 (amended) on the run `resumedBoot`; its time and date lines are
"Time : 12:11:10" and "Date : 06-12-18  <Tuesday>". -/
theorem C3_resumed_run_serial_output_witness :
    uartTexts (main resumedBoot).trace =
      [bytes "RTC standby example started\r\n",
       bytes "System woke up from STANDBY mode\r\n",
       bytes "Time : 12:11:10\r\n",
       bytes "Date : 06-12-18  <Tuesday>\r\n",
       bytes "Entering STANDBY mode now\r\n"] :=
  (C3_resumed_run_serial_output resumedBoot rfl rfl rfl rfl rfl).trans (by decide)

end RTC_Time_Date

namespace CAN_Normal_Mode

open Firmware

/-- The line built by the receive callback around any NUL-free echo of at most eight
bytes is stored and printed unchanged. -/
theorem rxLine_unchanged (echo : List Nat) (hlen : echo.length ≤ 8)
    (hnz : ∀ b ∈ echo, b ≠ 0) :
    cString (snprintf 64 (bytes "CAN RX: " ++ echo ++ bytes "\r\n")) =
      bytes "CAN RX: " ++ echo ++ bytes "\r\n" := by
  have hall : ∀ b ∈ bytes "CAN RX: " ++ echo ++ bytes "\r\n", b ≠ 0 := by
    intro b hb
    rcases List.mem_append.mp hb with h | h
    · rcases List.mem_append.mp h with h1 | h1
      · exact bytes_ne_zero_label b h1
      · exact hnz b h1
    · exact bytes_ne_zero_crlf b h
  have hl1 : (bytes "CAN RX: ").length = 8 := by decide
  have hl2 : (bytes "\r\n").length = 2 := by decide
  rw [snprintf_eq_self 64 _ (by simp only [List.length_append, hl1, hl2]; omega) hall]
  exact cString_eq_self _ hall

/-- The serial output of the receive callback when the frame was read successfully. -/
theorem callback_output (DLC : Nat) (payload : List Nat) (hlen : payload.length = 8) :
    (HAL_CAN_RxFifo0MsgPendingCallback HAL_StatusTypeDef.HAL_OK DLC payload).trace =
      [Call.HAL_CAN_GetRxMessage RxFifo.CAN_RX_FIFO0,
       Call.HAL_UART_Transmit
        (bytes "CAN RX: " ++ cString (payload.take (terminatorIndex DLC)) ++ bytes "\r\n")] := by
  have hidx : terminatorIndex DLC < payload.length := by
    unfold terminatorIndex; split <;> omega
  have hecho : cString (terminated payload DLC) = cString (payload.take (terminatorIndex DLC)) :=
    cString_set_zero payload _ hidx
  have hlen2 : (cString (payload.take (terminatorIndex DLC))).length ≤ 8 := by
    have h1 := cString_length_le (payload.take (terminatorIndex DLC))
    have h2 : (payload.take (terminatorIndex DLC)).length ≤ terminatorIndex DLC :=
      List.length_take_le _ _
    omega
  have hline := rxLine_unchanged _ hlen2 (cString_ne_zero _)
  simp only [HAL_CAN_RxFifo0MsgPendingCallback, Run.steps, Run.andThen, Run.call, Run.skip,
    checked, CAN_AppPrint, rxText, hecho, hline, ne_eq, not_true_eq_false, if_false,
    Bool.false_eq_true, List.append_nil, List.singleton_append, List.nil_append]

/-- C4: when the frame is read successfully, its DLC `n` is at most 7 and none of the
first `n` bytes of the payload is zero, the receive callback sends over the serial
link exactly the text "CAN RX: " followed by those `n` bytes followed by CR LF. -/
theorem C4_rx_callback_echoes_payload (n : Nat) (payload : List Nat)
    (hlen : payload.length = 8) (hn : n ≤ 7) (hnz : ∀ b ∈ payload.take n, b ≠ 0) :
    uartTexts (HAL_CAN_RxFifo0MsgPendingCallback HAL_StatusTypeDef.HAL_OK n payload).trace =
      [bytes "CAN RX: " ++ payload.take n ++ bytes "\r\n"] := by
  have hidx : terminatorIndex n = n := by unfold terminatorIndex; rw [if_pos (by omega)]
  rw [callback_output n payload hlen, hidx, cString_eq_self _ hnz]
  rfl

/-- Witness for C4: the four-byte payload "TEST" (the other four bytes of the buffer
being 0xAA, 0xBB, 0xCC, 0xDD) yields the line "CAN RX: TEST" followed by CR LF. -/
theorem C4_rx_callback_echoes_TEST :
    uartTexts (HAL_CAN_RxFifo0MsgPendingCallback HAL_StatusTypeDef.HAL_OK 4
        (bytes "TEST" ++ [0xAA, 0xBB, 0xCC, 0xDD])).trace =
      [bytes "CAN RX: TEST\r\n"] :=
  (C4_rx_callback_echoes_payload 4 (bytes "TEST" ++ [0xAA, 0xBB, 0xCC, 0xDD])
    (by decide) (by decide) (by decide)).trans (by decide)

/-- C5: in the receive callback, for a reported DLC of 8 or more the terminator is
written at index 7, so the buffer becomes its first seven bytes followed by NUL and
the echoed line carries the C string of bytes 0..6 only; for a DLC `n` below 8 the
terminator is written at index `n`, the first `n` bytes of the buffer are kept, and
the echoed line carries the C string of those `n` bytes. -/
theorem C5_rx_callback_truncates_to_seven (DLC : Nat) (payload : List Nat)
    (hlen : payload.length = 8) :
    (8 ≤ DLC →
      terminatorIndex DLC = 7 ∧
      terminated payload DLC = payload.take 7 ++ [0] ∧
      uartTexts (HAL_CAN_RxFifo0MsgPendingCallback HAL_StatusTypeDef.HAL_OK DLC payload).trace =
        [bytes "CAN RX: " ++ cString (payload.take 7) ++ bytes "\r\n"]) ∧
    (DLC < 8 →
      terminatorIndex DLC = DLC ∧
      (terminated payload DLC).take DLC = payload.take DLC ∧
      (terminated payload DLC)[DLC]? = some 0 ∧
      uartTexts (HAL_CAN_RxFifo0MsgPendingCallback HAL_StatusTypeDef.HAL_OK DLC payload).trace =
        [bytes "CAN RX: " ++ cString (payload.take DLC) ++ bytes "\r\n"]) := by
  constructor
  · intro h8
    have hidx : terminatorIndex DLC = 7 := by unfold terminatorIndex; rw [if_neg (by omega)]
    refine ⟨hidx, ?_, ?_⟩
    · unfold terminated
      rw [hidx, List.set_eq_take_append_cons_drop, if_pos (by omega),
        List.drop_of_length_le (by omega)]
    · rw [callback_output DLC payload hlen, hidx]; rfl
  · intro h8
    have hidx : terminatorIndex DLC = DLC := by unfold terminatorIndex; rw [if_pos h8]
    refine ⟨hidx, ?_, ?_, ?_⟩
    · unfold terminated
      rw [hidx, List.set_eq_take_append_cons_drop, if_pos (by omega)]
      rw [List.take_append_of_le_length (by rw [List.length_take]; omega), List.take_take]
      simp
    · unfold terminated
      rw [hidx]
      exact List.getElem?_set_self (by omega)
    · rw [callback_output DLC payload hlen, hidx]; rfl

/-- Witness for C5: the eight-byte payload "ABCDEFGH" with DLC 8 is echoed as
"CAN RX: ABCDEFG", and with DLC 3 as "CAN RX: ABC". -/
theorem C5_rx_callback_truncates_ABCDEFGH :
    uartTexts (HAL_CAN_RxFifo0MsgPendingCallback HAL_StatusTypeDef.HAL_OK 8
        (bytes "ABCDEFGH")).trace = [bytes "CAN RX: ABCDEFG\r\n"] ∧
    uartTexts (HAL_CAN_RxFifo0MsgPendingCallback HAL_StatusTypeDef.HAL_OK 3
        (bytes "ABCDEFGH")).trace = [bytes "CAN RX: ABC\r\n"] :=
  ⟨((C5_rx_callback_truncates_to_seven 8 (bytes "ABCDEFGH") (by decide)).1
      (by decide)).2.2.trans (by decide),
   ((C5_rx_callback_truncates_to_seven 3 (bytes "ABCDEFGH") (by decide)).2
      (by decide)).2.2.2.trans (by decide)⟩

/-- Passes of the empty `CAN_AppTask` add nothing to the run of `main`. -/
theorem main_eq_init (hw : Hardware) (iterations : Nat) : main hw iterations = main hw 0 := by
  unfold main CAN_AppTask
  rw [Run.steps_append_replicate_skip]
  simp

/-- C6: when every HAL call of the start-up succeeds, `CAN_AppInit` makes exactly the
calls configure-filter, activate-notification, `HAL_CAN_Start` and then one
`HAL_CAN_AddTxMessage` with standard identifier 0x65D, IDE standard, RTR data frame,
DLC 5 and data bytes 'H','E','L','L','O'; `CAN_AppTask` makes no call; and after any
number of passes of the loop of `main` exactly that one frame has been queued. -/
theorem C6_exactly_one_hello_frame (hw : Hardware) (iterations : Nat)
    (hfilter : hw.configFilter = HAL_StatusTypeDef.HAL_OK)
    (hnotify : hw.activateNotification = HAL_StatusTypeDef.HAL_OK)
    (hstart : hw.start = HAL_StatusTypeDef.HAL_OK)
    (htx : hw.addTxMessage = HAL_StatusTypeDef.HAL_OK) :
    (CAN_AppInit hw).trace =
      [Call.HAL_CAN_ConfigFilter acceptAllFilter,
       Call.HAL_CAN_ActivateNotification
        [Notification.CAN_IT_TX_MAILBOX_EMPTY, Notification.CAN_IT_RX_FIFO0_MSG_PENDING,
         Notification.CAN_IT_BUSOFF],
       Call.HAL_CAN_Start,
       Call.HAL_CAN_AddTxMessage
        { StdId := 0x65D, ExtId := 0, IDE := IdType.CAN_ID_STD, RTR := FrameType.CAN_RTR_DATA,
          DLC := 5, TransmitGlobalTime := false }
        ['H'.toNat, 'E'.toNat, 'L'.toNat, 'L'.toNat, 'O'.toNat]] ∧
    CAN_AppTask.trace = [] ∧
    txRequests (main hw iterations).trace =
      [({ StdId := 0x65D, ExtId := 0, IDE := IdType.CAN_ID_STD, RTR := FrameType.CAN_RTR_DATA,
          DLC := 5, TransmitGlobalTime := false }, bytes "HELLO")] := by
  refine ⟨?_, rfl, ?_⟩
  · simp [CAN_AppInit, CAN_AppConfigFilter, CAN_AppSendInitialFrame, checked, Run.steps,
      Run.andThen, Run.call, Run.skip, hfilter, hnotify, hstart, htx, initialTxHeader,
      initialTxData]
  · rw [main_eq_init]
    simp [main, CAN_AppInit, CAN_AppConfigFilter, CAN_AppSendInitialFrame, checked, Run.steps,
      Run.andThen, Run.call, Run.skip, hfilter, hnotify, hstart, htx, initialTxHeader,
      initialTxData, txRequests, bytes]

/-- Witness for C6: the start-up `allOk`, cut after three passes of the loop. -/
theorem C6_exactly_one_hello_frame_witness :
    txRequests (main allOk 3).trace =
      [({ StdId := 0x65D, ExtId := 0, IDE := IdType.CAN_ID_STD, RTR := FrameType.CAN_RTR_DATA,
          DLC := 5, TransmitGlobalTime := false }, bytes "HELLO")] :=
  (C6_exactly_one_hello_frame allOk 3 rfl rfl rfl rfl).2.2

end CAN_Normal_Mode

namespace Current_Meg_Stop_Mode

/-- The reads made by `k` passes of the polling loop started at poll index `t`. -/
theorem pollButton_run (env : Environment) (k : Nat) : ∀ (fuel : Nat) (s : Mcu),
    (∀ i, i < k → env.buttonStatus (s.tick + i) ≠ SET) →
    env.buttonStatus (s.tick + k) = SET → k < fuel →
    pollButton env fuel s = some
      { s with
        tick := s.tick + k + 1
        trace := s.trace ++
          (List.range k).map (fun i => Call.readUserButtonStatus (env.buttonStatus (s.tick + i)))
          ++ [Call.readUserButtonStatus SET] } := by
  induction k with
  | zero =>
    intro fuel s _ hset hf
    obtain ⟨f, rfl⟩ : ∃ f, fuel = f + 1 := ⟨fuel - 1, by omega⟩
    have hset0 : env.buttonStatus s.tick = SET := by simpa using hset
    simp [pollButton, hset0, emit]
  | succ k ih =>
    intro fuel s hk hset hf
    obtain ⟨f, rfl⟩ : ∃ f, fuel = f + 1 := ⟨fuel - 1, by omega⟩
    have h0 : env.buttonStatus s.tick ≠ SET := by simpa using hk 0 (by omega)
    have hrec := ih f (emit (Call.readUserButtonStatus (env.buttonStatus s.tick))
        { s with tick := s.tick + 1 })
      (by intro i hi; have := hk (i + 1) (by omega); simpa [emit, Nat.add_assoc, Nat.add_comm 1 i] using this)
      (by simpa [emit, Nat.add_assoc, Nat.add_comm 1 k] using hset) (by omega)
    simp only [pollButton, h0, ne_eq, not_false_eq_true, if_true, hrec]
    simp [emit, List.range_succ_eq_map, List.map_map, Function.comp_def, Nat.add_assoc,
      Nat.add_comm 1]

/-- A polling loop that returns has seen `SET`, at its first occurrence. -/
theorem pollButton_inv (env : Environment) : ∀ (fuel : Nat) (s s1 : Mcu),
    pollButton env fuel s = some s1 →
    ∃ k, k < fuel ∧ (∀ i, i < k → env.buttonStatus (s.tick + i) ≠ SET) ∧
      env.buttonStatus (s.tick + k) = SET := by
  intro fuel
  induction fuel with
  | zero => intro s s1 h; simp [pollButton] at h
  | succ f ih =>
    intro s s1 h
    by_cases h0 : env.buttonStatus s.tick = SET
    · exact ⟨0, by omega, by intro i hi; omega, by simpa using h0⟩
    · simp only [pollButton, h0, ne_eq, not_false_eq_true, if_true] at h
      obtain ⟨k, hk, hbefore, hset⟩ := ih _ _ h
      refine ⟨k + 1, by omega, ?_, ?_⟩
      · intro i hi
        cases i with
        | zero => simpa using h0
        | succ i =>
          have := hbefore i (by omega)
          simpa [emit, Nat.add_assoc, Nat.add_comm 1 i] using this
      · simpa [emit, Nat.add_assoc, Nat.add_comm 1 k] using hset

/-- A polling loop with enough fuel returns once the flag reads `SET`. -/
theorem pollButton_isSome (env : Environment) : ∀ (fuel : Nat) (s : Mcu) (k : Nat),
    env.buttonStatus (s.tick + k) = SET → k < fuel → (pollButton env fuel s).isSome = true := by
  intro fuel
  induction fuel with
  | zero => intro s k _ hf; omega
  | succ f ih =>
    intro s k hset hf
    by_cases h0 : env.buttonStatus s.tick = SET
    · simp [pollButton, h0]
    · simp only [pollButton, h0, ne_eq, not_false_eq_true, if_true]
      cases k with
      | zero => exact absurd (by simpa using hset) h0
      | succ k =>
        exact ih _ k (by simpa [emit, Nat.add_assoc, Nat.add_comm 1 k] using hset) (by omega)

/-- The calls of a returning `WaitUser_PushBotton`: LED on, the reads that did not see
`SET`, the read that saw `SET`, LED off, flag cleared. -/
theorem WaitUser_PushBotton_run (env : Environment) (fuel : Nat) (s : Mcu) (k : Nat)
    (hbefore : ∀ i, i < k → env.buttonStatus (s.tick + i) ≠ SET)
    (hset : env.buttonStatus (s.tick + k) = SET) (hf : k < fuel) :
    WaitUser_PushBotton env fuel s = some
      { s with
        tick := s.tick + k + 1
        trace := s.trace ++ [Call.GPIO_SetBits Port.GPIOA GPIO_Pin_5] ++
          (List.range k).map (fun i => Call.readUserButtonStatus (env.buttonStatus (s.tick + i)))
          ++ [Call.readUserButtonStatus SET, Call.GPIO_ResetBits Port.GPIOA GPIO_Pin_5,
              Call.writeUserButtonStatus Writer.WaitUser_PushBotton RESET] } := by
  have h := pollButton_run env k fuel (emit (Call.GPIO_SetBits Port.GPIOA GPIO_Pin_5) s)
    hbefore hset hf
  simp only [WaitUser_PushBotton, h]
  simp [emit]

/-- A returning `WaitUser_PushBotton` has seen `SET`. -/
theorem WaitUser_PushBotton_inv (env : Environment) (fuel : Nat) (s s1 : Mcu)
    (h : WaitUser_PushBotton env fuel s = some s1) :
    ∃ k, k < fuel ∧ (∀ i, i < k → env.buttonStatus (s.tick + i) ≠ SET) ∧
      env.buttonStatus (s.tick + k) = SET := by
  unfold WaitUser_PushBotton at h
  cases hp : pollButton env fuel (emit (Call.GPIO_SetBits Port.GPIOA GPIO_Pin_5) s) with
  | none => simp [hp] at h
  | some s2 =>
    have hinv := pollButton_inv env fuel (emit (Call.GPIO_SetBits Port.GPIOA GPIO_Pin_5) s) s2 hp
    exact hinv

theorem ledAfter_append (xs ys : List Call) : ∀ led : Bool,
    ledAfter led (xs ++ ys) = ledAfter (ledAfter led xs) ys := by
  induction xs with
  | nil => intro led; rfl
  | cons x xs ih =>
    intro led
    cases x with
    | GPIO_SetBits port pins => cases port <;> exact ih _
    | GPIO_ResetBits port pins => cases port <;> exact ih _
    | _ => exact ih led

theorem ledAfter_reads (f : Nat → Nat) (l : List Nat) : ∀ led : Bool,
    ledAfter led (l.map (fun i => Call.readUserButtonStatus (f i))) = led := by
  induction l with
  | nil => intro led; rfl
  | cons a l ih => intro led; exact ih led

/-- C7: when the flag first reads `SET` at the poll of index `k` (every earlier poll
reads another value), `WaitUser_PushBotton` returns for every fuel above `k`, and its
calls are: drive PA5 active, the `k` polls that do not read `SET`, the poll that reads
`SET`, drive PA5 inactive, clear the flag.  Hence the LED is active at every poll
(whatever its level before the call), the first action after the poll that reads `SET`
drives it inactive, and it is inactive when the function returns. -/
theorem C7_led_active_exactly_while_waiting (env : Environment) (fuel : Nat) (s : Mcu)
    (k : Nat) (hbefore : ∀ i, i < k → env.buttonStatus (s.tick + i) ≠ SET)
    (hset : env.buttonStatus (s.tick + k) = SET) (hf : k < fuel) :
    ∃ s1 polls, WaitUser_PushBotton env fuel s = some s1 ∧
      polls = (List.range k).map
        (fun i => Call.readUserButtonStatus (env.buttonStatus (s.tick + i))) ∧
      s1.trace = s.trace ++ [Call.GPIO_SetBits Port.GPIOA GPIO_Pin_5] ++ polls ++
        [Call.readUserButtonStatus SET, Call.GPIO_ResetBits Port.GPIOA GPIO_Pin_5,
         Call.writeUserButtonStatus Writer.WaitUser_PushBotton RESET] ∧
      (∀ led j, j ≤ k →
        ledAfter led ([Call.GPIO_SetBits Port.GPIOA GPIO_Pin_5] ++ polls.take j) = true) ∧
      (∀ led, ledAfter led ([Call.GPIO_SetBits Port.GPIOA GPIO_Pin_5] ++ polls ++
        [Call.readUserButtonStatus SET, Call.GPIO_ResetBits Port.GPIOA GPIO_Pin_5]) = false) ∧
      (∀ led, ledAfter led ([Call.GPIO_SetBits Port.GPIOA GPIO_Pin_5] ++ polls ++
        [Call.readUserButtonStatus SET, Call.GPIO_ResetBits Port.GPIOA GPIO_Pin_5,
         Call.writeUserButtonStatus Writer.WaitUser_PushBotton RESET]) = false) := by
  refine ⟨_, _, WaitUser_PushBotton_run env fuel s k hbefore hset hf, rfl, rfl, ?_, ?_, ?_⟩
  · intro led j _
    rw [← List.map_take, ledAfter_append, ledAfter_reads]
    cases led <;> decide
  · intro led
    rw [ledAfter_append, ledAfter_append, ledAfter_reads]
    cases led <;> decide
  · intro led
    rw [ledAfter_append, ledAfter_append, ledAfter_reads]
    cases led <;> decide

/-- Witness for C7: the flag reads `RESET`, `RESET`, `SET`; fuel 10. -/
theorem C7_led_active_exactly_while_waiting_witness :
    ∃ s1 polls, WaitUser_PushBotton pressAtThirdPoll 10 onPll = some s1 ∧
      polls = [Call.readUserButtonStatus RESET, Call.readUserButtonStatus RESET] ∧
      s1.trace = onPll.trace ++ [Call.GPIO_SetBits Port.GPIOA GPIO_Pin_5] ++ polls ++
        [Call.readUserButtonStatus SET, Call.GPIO_ResetBits Port.GPIOA GPIO_Pin_5,
         Call.writeUserButtonStatus Writer.WaitUser_PushBotton RESET] := by
  obtain ⟨s1, polls, hrun, hpolls, htrace, _⟩ :=
    C7_led_active_exactly_while_waiting pressAtThirdPoll 10 onPll 2
      (by decide) (by decide) (by decide)
  exact ⟨s1, polls, hrun, hpolls.trans (by decide), htrace⟩

theorem flagWrites_append (xs ys : List Call) :
    flagWrites (xs ++ ys) = flagWrites xs ++ flagWrites ys := by
  induction xs with
  | nil => rfl
  | cons x xs ih => cases x <;> simp [flagWrites, ih]

theorem flagWrites_reads (f : Nat → Nat) (l : List Nat) :
    flagWrites (l.map (fun i => Call.readUserButtonStatus (f i))) = [] := by
  induction l with
  | nil => rfl
  | cons a l ih => simpa [flagWrites] using ih

/-- C8: `WaitUser_PushBotton` returns only after a poll has read `SET`, and the last
value it writes to the flag is `RESET`; if the flag never reads `SET` it returns for no
amount of fuel; and if some poll reads `SET` it does return, for every fuel above the
index of that poll. -/
theorem C8_returns_only_after_observing_SET (env : Environment) (s : Mcu) :
    (∀ fuel s1, WaitUser_PushBotton env fuel s = some s1 →
      ∃ k added, k < fuel ∧ env.buttonStatus (s.tick + k) = SET ∧
        s1.trace = s.trace ++ added ∧
        Call.readUserButtonStatus SET ∈ added ∧
        (flagWrites added).getLast? = some (Writer.WaitUser_PushBotton, RESET)) ∧
    ((∀ t, s.tick ≤ t → env.buttonStatus t ≠ SET) →
      ∀ fuel, WaitUser_PushBotton env fuel s = none) ∧
    (∀ k fuel, env.buttonStatus (s.tick + k) = SET → k < fuel →
      (WaitUser_PushBotton env fuel s).isSome = true) := by
  refine ⟨?_, ?_, ?_⟩
  · intro fuel s1 h
    obtain ⟨k, hk, hbefore, hset⟩ := WaitUser_PushBotton_inv env fuel s s1 h
    have hrun := WaitUser_PushBotton_run env fuel s k hbefore hset hk
    rw [hrun] at h
    have hs1 := Option.some.inj h
    refine ⟨k, [Call.GPIO_SetBits Port.GPIOA GPIO_Pin_5] ++
      (List.range k).map (fun i => Call.readUserButtonStatus (env.buttonStatus (s.tick + i)))
      ++ [Call.readUserButtonStatus SET, Call.GPIO_ResetBits Port.GPIOA GPIO_Pin_5,
          Call.writeUserButtonStatus Writer.WaitUser_PushBotton RESET], hk, hset, ?_, ?_, ?_⟩
    · rw [← hs1]; simp
    · simp
    · rw [flagWrites_append, flagWrites_append, flagWrites_reads]
      rfl
  · intro hnever fuel
    cases h : WaitUser_PushBotton env fuel s with
    | none => rfl
    | some s1 =>
      obtain ⟨k, _, _, hset⟩ := WaitUser_PushBotton_inv env fuel s s1 h
      exact absurd hset (hnever _ (by omega))
  · intro k fuel hset hf
    have h := pollButton_isSome env fuel (emit (Call.GPIO_SetBits Port.GPIOA GPIO_Pin_5) s) k
      hset hf
    unfold WaitUser_PushBotton
    cases hp : pollButton env fuel (emit (Call.GPIO_SetBits Port.GPIOA GPIO_Pin_5) s) with
    | none => rw [hp] at h; exact absurd h (by decide)
    | some s2 => rfl

/-- Witness for C8: with the flag reading `RESET`, `RESET`, `SET` the function returns
on fuel 10 after a poll that read `SET`; with a flag that always reads `RESET` it does
not return on fuel 10. -/
theorem C8_returns_only_after_observing_SET_witness :
    (WaitUser_PushBotton pressAtThirdPoll 10 onPll).isSome = true ∧
    (∃ s1 k added, WaitUser_PushBotton pressAtThirdPoll 10 onPll = some s1 ∧
      k < 10 ∧ pressAtThirdPoll.buttonStatus (onPll.tick + k) = SET ∧
      s1.trace = onPll.trace ++ added ∧ Call.readUserButtonStatus SET ∈ added ∧
      (flagWrites added).getLast? = some (Writer.WaitUser_PushBotton, RESET)) ∧
    WaitUser_PushBotton neverPressed 10 onPll = none := by
  have hsome := (C8_returns_only_after_observing_SET pressAtThirdPoll onPll).2.2 2 10
    (by decide) (by decide)
  refine ⟨hsome, ?_, ?_⟩
  · cases h : WaitUser_PushBotton pressAtThirdPoll 10 onPll with
    | none => rw [h] at hsome; exact absurd hsome (by decide)
    | some s1 =>
      obtain ⟨k, added, hk⟩ :=
        (C8_returns_only_after_observing_SET pressAtThirdPoll onPll).1 10 s1 h
      exact ⟨s1, k, added, rfl, hk⟩
  · exact (C8_returns_only_after_observing_SET neverPressed onPll).2.1
      (fun _ _ => (by decide : RESET ≠ SET)) 10

/-- The wait for HSIRDY changes nothing of the clock state but the ready bit, which is
set when the wait ends. -/
theorem waitHSIRDY_rcc (env : Environment) : ∀ (fuel : Nat) (s s1 : Mcu),
    waitHSIRDY env fuel s = some s1 → s1.rcc = { s.rcc with HSIRDY := true } := by
  intro fuel
  induction fuel with
  | zero => intro s s1 h; simp [waitHSIRDY] at h
  | succ f ih =>
    intro s s1 h
    unfold waitHSIRDY at h
    cases hr : (s.rcc.HSIRDY || (s.rcc.HSION && env.hsiStable s.tick)) with
    | true =>
      simp [RCC_GetFlagStatus_HSIRDY, hr, SET, RESET] at h
      rw [← h]; rfl
    | false =>
      simp only [RCC_GetFlagStatus_HSIRDY, hr, Bool.false_eq_true, if_false, if_true] at h
      have h2 := ih _ _ h
      have hrdy : s.rcc.HSIRDY = false := by
        cases hh : s.rcc.HSIRDY with
        | false => rfl
        | true => rw [hh] at hr; simp at hr
      rw [h2]
      simp [emit]

/-- The wait for the clock switch changes nothing of the clock state but the active
source, which is HSI when the wait ends. -/
theorem waitSYSCLK_rcc (env : Environment) : ∀ (fuel : Nat) (s s1 : Mcu),
    waitSYSCLK env fuel s = some s1 → s1.rcc = { s.rcc with SWS := 0 } := by
  intro fuel
  induction fuel with
  | zero => intro s s1 h; simp [waitSYSCLK] at h
  | succ f ih =>
    intro s s1 h
    unfold waitSYSCLK at h
    by_cases hz : (if env.switchDone s.tick then s.rcc.SW else s.rcc.SWS) = 0
    · simp [RCC_GetSYSCLKSource, hz] at h
      rw [← h]; simp [emit]
    · simp only [RCC_GetSYSCLKSource, ne_eq, Nat.mul_eq_zero, OfNat.ofNat_ne_zero, false_or, hz,
        not_false_eq_true, if_true] at h
      have h2 := ih _ _ h
      rw [h2]
      simp [emit]

theorem LedsConfig_rcc (s : Mcu) : (LedsConfig s).rcc = s.rcc := rfl

theorem ButtonPinInt_configuration_rcc (s : Mcu) :
    (ButtonPinInt_configuration s).rcc = s.rcc := rfl

/-- Whatever the clock state before the call, a returning `Mode_Exit` leaves `onHsi`. -/
theorem Mode_Exit_rcc (env : Environment) (fuel : Nat) (s s1 : Mcu)
    (h : Mode_Exit env fuel s = some s1) : s1.rcc = onHsi := by
  cases h1 : waitHSIRDY env fuel (RCC_HSICmd true (RCC_HSEConfig RCC_HSE_OFF (RCC_DeInit s))) with
  | none => simp [Mode_Exit, h1] at h
  | some a =>
    cases h2 : waitSYSCLK env fuel (RCC_SYSCLKConfig RCC_SYSCLKSource_HSI a) with
    | none => simp [Mode_Exit, h1, h2] at h
    | some b =>
      simp only [Mode_Exit, h1, h2, Option.some.injEq] at h
      have ha := waitHSIRDY_rcc env fuel _ a h1
      have hb := waitSYSCLK_rcc env fuel _ b h2
      rw [← h, ButtonPinInt_configuration_rcc, LedsConfig_rcc]
      show b.rcc = onHsi
      rw [hb]
      simp [RCC_SYSCLKConfig, emit, ha, RCC_HSICmd, RCC_HSEConfig, RCC_DeInit, onHsi,
        RCC_HSE_OFF, RCC_SYSCLKSource_HSI]

/-- The wait for HSIRDY ends once the enabled oscillator is stable. -/
theorem waitHSIRDY_isSome (env : Environment) (N : Nat)
    (hstable : ∀ t, N ≤ t → env.hsiStable t = true) : ∀ (fuel : Nat) (s : Mcu),
    s.rcc.HSION = true → 0 < fuel → N < fuel + s.tick →
    (waitHSIRDY env fuel s).isSome = true := by
  intro fuel
  induction fuel with
  | zero => intro s _ hf _; omega
  | succ f ih =>
    intro s hon _ hN
    unfold waitHSIRDY
    cases hr : (s.rcc.HSIRDY || (s.rcc.HSION && env.hsiStable s.tick)) with
    | true => simp [RCC_GetFlagStatus_HSIRDY, hr, SET, RESET]
    | false =>
      simp only [RCC_GetFlagStatus_HSIRDY, hr, Bool.false_eq_true, if_false, if_true]
      have hnot : env.hsiStable s.tick = false := by
        cases hh : env.hsiStable s.tick with
        | false => rfl
        | true => rw [hh, hon] at hr; simp at hr
      have hlt : s.tick < N := by
        by_contra hge
        have := hstable s.tick (by omega)
        rw [this] at hnot
        exact absurd hnot (by decide)
      exact ih _ hon (by omega) (by simp only [emit]; omega)

/-- The wait for the clock switch ends once the hardware carries out the requested
switch to HSI. -/
theorem waitSYSCLK_isSome (env : Environment) (N : Nat)
    (hdone : ∀ t, N ≤ t → env.switchDone t = true) : ∀ (fuel : Nat) (s : Mcu),
    s.rcc.SW = 0 → 0 < fuel → N < fuel + s.tick →
    (waitSYSCLK env fuel s).isSome = true := by
  intro fuel
  induction fuel with
  | zero => intro s _ hf _; omega
  | succ f ih =>
    intro s hsw _ hN
    unfold waitSYSCLK
    by_cases hz : (if env.switchDone s.tick then s.rcc.SW else s.rcc.SWS) = 0
    · simp [RCC_GetSYSCLKSource, hz]
    · simp only [RCC_GetSYSCLKSource, ne_eq, Nat.mul_eq_zero, OfNat.ofNat_ne_zero, false_or, hz,
        not_false_eq_true, if_true]
      have hlt : s.tick < N := by
        by_contra hge
        have := hdone s.tick (by omega)
        rw [this, if_pos rfl] at hz
        exact hz hsw
      exact ih _ hsw (by omega) (by simp only [emit]; omega)

/-- The function `Mode_Exit` returns on every fuel above `N` when the clock hardware
answers from poll `N` on. -/
theorem Mode_Exit_isSome (env : Environment) (N fuel : Nat) (s : Mcu)
    (hanswer : ∀ t, N ≤ t → env.hsiStable t = true ∧ env.switchDone t = true)
    (hf : N < fuel) : (Mode_Exit env fuel s).isSome = true := by
  have h1 := waitHSIRDY_isSome env N (fun t ht => (hanswer t ht).1) fuel
    (RCC_HSICmd true (RCC_HSEConfig RCC_HSE_OFF (RCC_DeInit s))) rfl (by omega) (by omega)
  cases ha : waitHSIRDY env fuel (RCC_HSICmd true (RCC_HSEConfig RCC_HSE_OFF (RCC_DeInit s))) with
  | none => rw [ha] at h1; exact absurd h1 (by decide)
  | some a =>
    have harcc := waitHSIRDY_rcc env fuel _ a ha
    have h2 := waitSYSCLK_isSome env N (fun t ht => (hanswer t ht).2) fuel
      (RCC_SYSCLKConfig RCC_SYSCLKSource_HSI a) rfl (by omega) (by omega)
    cases hb : waitSYSCLK env fuel (RCC_SYSCLKConfig RCC_SYSCLKSource_HSI a) with
    | none => rw [hb] at h2; exact absurd h2 (by decide)
    | some b => simp [Mode_Exit, ha, hb]

/-- From the clock state `onHsi`, the reported system clock source is 0x00. -/
theorem RCC_GetSYSCLKSource_onHsi (env : Environment) (s : Mcu) (h : s.rcc = onHsi) :
    (RCC_GetSYSCLKSource env s).1 = 0x00 := by
  simp [RCC_GetSYSCLKSource, h, onHsi]

/-- C9: for every clock state before the call (HSI, HSE or PLL active, or any other
content of the modelled registers), whenever `Mode_Exit` returns the active system
clock source is HSI, `RCC_GetSYSCLKSource()` reports 0x00 and HSE is off; a second run
of `Mode_Exit` returns on any positive fuel and leaves the same clock state; and the
first run does return when the clock hardware answers from some poll `N` on and the
fuel exceeds `N`. -/
theorem C9_mode_exit_ends_on_HSI (env : Environment) (s : Mcu) :
    (∀ fuel s1, Mode_Exit env fuel s = some s1 →
      s1.rcc.SWS = 0 ∧ s1.rcc.HSEON = false ∧
      (∀ env1, (RCC_GetSYSCLKSource env1 s1).1 = 0x00) ∧
      (∀ env2 fuel2, 0 < fuel2 →
        ∃ s2, Mode_Exit env2 fuel2 s1 = some s2 ∧ s2.rcc = s1.rcc ∧
          ∀ env3, (RCC_GetSYSCLKSource env3 s2).1 = 0x00)) ∧
    (∀ N fuel, (∀ t, N ≤ t → env.hsiStable t = true ∧ env.switchDone t = true) → N < fuel →
      (Mode_Exit env fuel s).isSome = true) := by
  refine ⟨?_, fun N fuel hanswer hf => Mode_Exit_isSome env N fuel s hanswer hf⟩
  intro fuel s1 h
  have hrcc := Mode_Exit_rcc env fuel s s1 h
  refine ⟨by rw [hrcc]; rfl, by rw [hrcc]; rfl,
    fun env1 => RCC_GetSYSCLKSource_onHsi env1 s1 hrcc, ?_⟩
  intro env2 fuel2 hf2
  obtain ⟨f, rfl⟩ : ∃ f, fuel2 = f + 1 := ⟨fuel2 - 1, by omega⟩
  have hsome : (Mode_Exit env2 (f + 1) s1).isSome = true := by
    simp [Mode_Exit, waitHSIRDY, waitSYSCLK, RCC_GetFlagStatus_HSIRDY, RCC_GetSYSCLKSource,
      RCC_HSICmd, RCC_HSEConfig, RCC_DeInit, RCC_SYSCLKConfig, emit, hrcc, onHsi, SET, RESET,
      RCC_SYSCLKSource_HSI]
  cases h2 : Mode_Exit env2 (f + 1) s1 with
  | none => rw [h2] at hsome; exact absurd hsome (by decide)
  | some s2 =>
    have hrcc2 := Mode_Exit_rcc env2 (f + 1) s1 s2 h2
    exact ⟨s2, rfl, by rw [hrcc2, hrcc], fun env3 => RCC_GetSYSCLKSource_onHsi env3 s2 hrcc2⟩

/-- Witness for C9: from the PLL fed by HSE, with hardware that answers at once,
`Mode_Exit` returns on fuel 10 with HSI active and HSE off. -/
theorem C9_mode_exit_ends_on_HSI_witness :
    (Mode_Exit pressAtThirdPoll 10 onPll).isSome = true ∧
    ∃ s1, Mode_Exit pressAtThirdPoll 10 onPll = some s1 ∧
      s1.rcc.SWS = 0 ∧ s1.rcc.HSEON = false ∧
      (∀ env1, (RCC_GetSYSCLKSource env1 s1).1 = 0x00) ∧
      (∀ env2 fuel2, 0 < fuel2 →
        ∃ s2, Mode_Exit env2 fuel2 s1 = some s2 ∧ s2.rcc = s1.rcc ∧
          ∀ env3, (RCC_GetSYSCLKSource env3 s2).1 = 0x00) := by
  have hsome := (C9_mode_exit_ends_on_HSI pressAtThirdPoll onPll).2 0 10
    (fun _ _ => ⟨rfl, rfl⟩) (by decide)
  refine ⟨hsome, ?_⟩
  cases h : Mode_Exit pressAtThirdPoll 10 onPll with
  | none => rw [h] at hsome; exact absurd hsome (by decide)
  | some s1 => exact ⟨s1, rfl, (C9_mode_exit_ends_on_HSI pressAtThirdPoll onPll).1 10 s1 h⟩

theorem flagWrites_emit (c : Call) (s : Mcu) :
    flagWrites (emit c s).trace = flagWrites s.trace ++ flagWrites [c] := by
  simp [emit, flagWrites_append]

theorem flagWrites_LedsConfig (s : Mcu) :
    flagWrites (LedsConfig s).trace = flagWrites s.trace := by
  simp [LedsConfig, flagWrites_emit, flagWrites]

theorem flagWrites_ButtonPinInt_configuration (s : Mcu) :
    flagWrites (ButtonPinInt_configuration s).trace = flagWrites s.trace := by
  simp [ButtonPinInt_configuration, flagWrites_emit, flagWrites]

theorem flagWrites_LowPowerDemo_Init (s : Mcu) :
    flagWrites (LowPowerDemo_Init s).trace = flagWrites s.trace := by
  simp [LowPowerDemo_Init, flagWrites_ButtonPinInt_configuration, flagWrites_LedsConfig,
    flagWrites_emit, flagWrites]

theorem flagWrites_GPIO_AnalogConfig (s : Mcu) :
    flagWrites (GPIO_AnalogConfig s).trace = flagWrites s.trace := by
  simp [GPIO_AnalogConfig, List.foldl, flagWrites_emit, flagWrites]

theorem flagWrites_PWR_PrepareForStopMode (s : Mcu) :
    flagWrites (PWR_PrepareForStopMode s).trace = flagWrites s.trace := by
  simp [PWR_PrepareForStopMode, flagWrites_ButtonPinInt_configuration, flagWrites_emit,
    flagWrites]

theorem flagWrites_waitHSIRDY (env : Environment) : ∀ (fuel : Nat) (s s1 : Mcu),
    waitHSIRDY env fuel s = some s1 → flagWrites s1.trace = flagWrites s.trace := by
  intro fuel
  induction fuel with
  | zero => intro s s1 h; simp [waitHSIRDY] at h
  | succ f ih =>
    intro s s1 h
    unfold waitHSIRDY at h
    split at h
    · rw [ih _ _ h]
      simp [RCC_GetFlagStatus_HSIRDY, emit, flagWrites_append, flagWrites]
    · rw [← Option.some.inj h]
      simp [RCC_GetFlagStatus_HSIRDY, emit, flagWrites_append, flagWrites]

theorem flagWrites_waitSYSCLK (env : Environment) : ∀ (fuel : Nat) (s s1 : Mcu),
    waitSYSCLK env fuel s = some s1 → flagWrites s1.trace = flagWrites s.trace := by
  intro fuel
  induction fuel with
  | zero => intro s s1 h; simp [waitSYSCLK] at h
  | succ f ih =>
    intro s s1 h
    unfold waitSYSCLK at h
    split at h
    · rw [ih _ _ h]
      simp [RCC_GetSYSCLKSource, emit, flagWrites_append, flagWrites]
    · rw [← Option.some.inj h]
      simp [RCC_GetSYSCLKSource, emit, flagWrites_append, flagWrites]

/-- The function `Mode_Exit` does not write the flag. -/
theorem flagWrites_Mode_Exit (env : Environment) (fuel : Nat) (s s1 : Mcu)
    (h : Mode_Exit env fuel s = some s1) : flagWrites s1.trace = flagWrites s.trace := by
  cases h1 : waitHSIRDY env fuel (RCC_HSICmd true (RCC_HSEConfig RCC_HSE_OFF (RCC_DeInit s))) with
  | none => simp [Mode_Exit, h1] at h
  | some a =>
    cases h2 : waitSYSCLK env fuel (RCC_SYSCLKConfig RCC_SYSCLKSource_HSI a) with
    | none => simp [Mode_Exit, h1, h2] at h
    | some b =>
      simp only [Mode_Exit, h1, h2, Option.some.injEq] at h
      rw [← h, flagWrites_ButtonPinInt_configuration, flagWrites_LedsConfig, flagWrites_emit,
        flagWrites_waitSYSCLK env fuel _ b h2]
      have ha := flagWrites_waitHSIRDY env fuel _ a h1
      simp [RCC_SYSCLKConfig, RCC_HSICmd, RCC_HSEConfig, RCC_DeInit, emit, flagWrites_append,
        flagWrites, ha] at ha ⊢

/-- The only write of `WaitUser_PushBotton` is its final `RESET`. -/
theorem flagWrites_WaitUser_PushBotton (env : Environment) (fuel : Nat) (s s1 : Mcu)
    (h : WaitUser_PushBotton env fuel s = some s1) :
    flagWrites s1.trace = flagWrites s.trace ++ [(Writer.WaitUser_PushBotton, RESET)] := by
  obtain ⟨k, hk, hbefore, hset⟩ := WaitUser_PushBotton_inv env fuel s s1 h
  rw [WaitUser_PushBotton_run env fuel s k hbefore hset hk] at h
  rw [← Option.some.inj h]
  simp [flagWrites_append, flagWrites_reads, flagWrites]

/-- One `#if defined` block of `Measure_Stop` writes the flag twice: the clear of the
waiting loop, then the clear of `Measure_Stop` itself. -/
theorem flagWrites_stopSequence (enter : Mcu → Mcu)
    (henter : ∀ s, flagWrites (enter s).trace = flagWrites s.trace)
    (env : Environment) (fuel : Nat) (s s1 : Mcu)
    (h : stopSequence enter env fuel s = some s1) :
    flagWrites s1.trace = flagWrites s.trace ++
      [(Writer.WaitUser_PushBotton, RESET), (Writer.Measure_Stop, RESET)] := by
  cases h1 : WaitUser_PushBotton env fuel s with
  | none => simp [stopSequence, h1] at h
  | some a =>
    cases h2 : Mode_Exit env fuel (enter (GPIO_AnalogConfig a)) with
    | none => simp [stopSequence, h1, h2] at h
    | some b =>
      simp only [stopSequence, h1, h2, Option.some.injEq] at h
      rw [← h, flagWrites_emit, flagWrites_Mode_Exit env fuel _ b h2, henter,
        flagWrites_GPIO_AnalogConfig, flagWrites_WaitUser_PushBotton env fuel s a h1]
      simp [flagWrites]

theorem flagWrites_ifDefined (defined : Bool) (enter : Mcu → Mcu)
    (henter : ∀ s, flagWrites (enter s).trace = flagWrites s.trace)
    (env : Environment) (fuel : Nat) (s s1 : Mcu)
    (h : ifDefined defined (stopSequence enter env fuel) s = some s1) :
    flagWrites s1.trace = flagWrites s.trace ++
      (List.replicate defined.toNat
        [(Writer.WaitUser_PushBotton, RESET), (Writer.Measure_Stop, RESET)]).flatten := by
  cases defined with
  | false =>
    simp only [ifDefined, Bool.false_eq_true, if_false, Option.some.injEq] at h
    rw [← h]; simp
  | true =>
    simp only [ifDefined, if_true] at h
    rw [flagWrites_stopSequence enter henter env fuel s s1 h]
    simp

theorem flagWrites_PWR_StopMainRegFlashStop (s : Mcu) :
    flagWrites (PWR_StopMainRegFlashStop s).trace = flagWrites s.trace := by
  simp [PWR_StopMainRegFlashStop, flagWrites_emit, flagWrites_PWR_PrepareForStopMode, flagWrites]

theorem flagWrites_PWR_StopMainRegFlashPwrDown (s : Mcu) :
    flagWrites (PWR_StopMainRegFlashPwrDown s).trace = flagWrites s.trace := by
  simp [PWR_StopMainRegFlashPwrDown, flagWrites_emit, flagWrites_PWR_PrepareForStopMode,
    flagWrites]

theorem flagWrites_PWR_StopLowPwrRegFlashStop (s : Mcu) :
    flagWrites (PWR_StopLowPwrRegFlashStop s).trace = flagWrites s.trace := by
  simp [PWR_StopLowPwrRegFlashStop, flagWrites_emit, flagWrites_PWR_PrepareForStopMode,
    flagWrites]

theorem flagWrites_PWR_StopLowPwrRegFlashPwrDown (s : Mcu) :
    flagWrites (PWR_StopLowPwrRegFlashPwrDown s).trace = flagWrites s.trace := by
  simp [PWR_StopLowPwrRegFlashPwrDown, flagWrites_emit, flagWrites_PWR_PrepareForStopMode,
    flagWrites]

theorem flagWrites_PWR_StopMainRegUnderDriveFlashPwrDown (s : Mcu) :
    flagWrites (PWR_StopMainRegUnderDriveFlashPwrDown s).trace = flagWrites s.trace := by
  simp [PWR_StopMainRegUnderDriveFlashPwrDown, flagWrites_emit,
    flagWrites_PWR_PrepareForStopMode, flagWrites]

theorem flagWrites_PWR_StopLowPwrRegUnderDriveFlashPwrDown (s : Mcu) :
    flagWrites (PWR_StopLowPwrRegUnderDriveFlashPwrDown s).trace = flagWrites s.trace := by
  simp [PWR_StopLowPwrRegUnderDriveFlashPwrDown, flagWrites_emit,
    flagWrites_PWR_PrepareForStopMode, flagWrites]

/-- The flag writes of `Measure_Stop`: per defined sub-mode macro, the clear of the
waiting loop followed by the clear of `Measure_Stop` itself. -/
theorem flagWrites_Measure_Stop (sel : Selection) (env : Environment) (fuel : Nat)
    (s s1 : Mcu) (h : Measure_Stop sel env fuel s = some s1) :
    flagWrites s1.trace = flagWrites s.trace ++
      (List.replicate (selectedCount sel)
        [(Writer.WaitUser_PushBotton, RESET), (Writer.Measure_Stop, RESET)]).flatten := by
  simp only [Measure_Stop, Option.bind_eq_some] at h
  obtain ⟨a5, ⟨a4, ⟨a3, ⟨a2, ⟨a1, h1, h2⟩, h3⟩, h4⟩, h5⟩, h6⟩ := h
  rw [flagWrites_ifDefined _ _ flagWrites_PWR_StopLowPwrRegUnderDriveFlashPwrDown env fuel a5 s1 h6,
    flagWrites_ifDefined _ _ flagWrites_PWR_StopMainRegUnderDriveFlashPwrDown env fuel a4 a5 h5,
    flagWrites_ifDefined _ _ flagWrites_PWR_StopLowPwrRegFlashPwrDown env fuel a3 a4 h4,
    flagWrites_ifDefined _ _ flagWrites_PWR_StopLowPwrRegFlashStop env fuel a2 a3 h3,
    flagWrites_ifDefined _ _ flagWrites_PWR_StopMainRegFlashPwrDown env fuel a1 a2 h2,
    flagWrites_ifDefined _ _ flagWrites_PWR_StopMainRegFlashStop env fuel s a1 h1]
  simp only [selectedCount, List.replicate_add, List.flatten_append, List.append_assoc]

/-- C10 (refutation of the claim as stated): in the shipped build, on a run where the
flag reads `RESET`, `RESET`, `SET`, the foreground program writes the flag twice: the
waiting loop clears it after the read of `SET`, and `Measure_Stop` itself clears it
again as the last call of the run, with no further read of the flag in between.  So
`RESET` is not written by the waiting loop alone. -/
theorem C10_Measure_Stop_also_clears_flag :
    ∃ s1, main shipped pressAtThirdPoll 10 onPll = some s1 ∧
      flagWrites s1.trace =
        [(Writer.WaitUser_PushBotton, RESET), (Writer.Measure_Stop, RESET)] ∧
      flagReads s1.trace = [RESET, RESET, SET] ∧
      s1.trace.getLast? = some (Call.writeUserButtonStatus Writer.Measure_Stop RESET) ∧
      ¬ (∀ writer value, (writer, value) ∈ flagWrites s1.trace → value = RESET →
          writer = Writer.WaitUser_PushBotton) := by
  refine ⟨_, rfl, by decide, by decide, by decide, ?_⟩
  intro hall
  exact absurd (hall Writer.Measure_Stop RESET (by decide) rfl) (by decide)

/-- C10 (amended): the flag is written `SET` only by the interrupt-context functions
`EXTI15_10_IRQHandler` (when line 13 is pending) and `HAL_GPIO_EXTI_Callback` (for pin
13), which write nothing else; the foreground program `main` writes only `RESET`, and
only from two places: `WaitUser_PushBotton`, right after the read that observed `SET`
and the LED switch-off, and `Measure_Stop`, once after each defined sub-mode sequence;
no other function writes the flag. -/
theorem C10_flag_writers (sel : Selection) (env : Environment) (fuel : Nat) (s s1 : Mcu)
    (h : main sel env fuel s = some s1) :
    flagWrites s1.trace = flagWrites s.trace ++
      (List.replicate (selectedCount sel)
        [(Writer.WaitUser_PushBotton, RESET), (Writer.Measure_Stop, RESET)]).flatten ∧
    (∀ env1 fuel1 a b, WaitUser_PushBotton env1 fuel1 a = some b →
      ∃ before, b.trace = before ++
        [Call.readUserButtonStatus SET, Call.GPIO_ResetBits Port.GPIOA GPIO_Pin_5,
         Call.writeUserButtonStatus Writer.WaitUser_PushBotton RESET]) ∧
    (∀ c, flagWrites (EXTI15_10_IRQHandler c).trace = flagWrites c.trace ++
      (if c.PR &&& EXTI_Line13 ≠ 0 then [(Writer.EXTI15_10_IRQHandler, SET)] else [])) ∧
    (∀ pin c, flagWrites (HAL_GPIO_EXTI_Callback pin c).trace = flagWrites c.trace ++
      (if pin = GPIO_Pin_13 then [(Writer.HAL_GPIO_EXTI_Callback, SET)] else [])) := by
  refine ⟨?_, ?_, ?_, ?_⟩
  · rw [flagWrites_Measure_Stop sel env fuel _ s1 h, flagWrites_LowPowerDemo_Init]
  · intro env1 fuel1 a b hb
    obtain ⟨k, hk, hbefore, hset⟩ := WaitUser_PushBotton_inv env1 fuel1 a b hb
    rw [WaitUser_PushBotton_run env1 fuel1 a k hbefore hset hk] at hb
    exact ⟨_, by rw [← Option.some.inj hb]⟩
  · intro c
    by_cases hp : c.PR &&& EXTI_Line13 = 0
    · simp [EXTI15_10_IRQHandler, hp, flagWrites_append, flagWrites, SET, RESET]
    · simp [EXTI15_10_IRQHandler, hp, flagWrites_append, flagWrites, SET, RESET]
  · intro pin c
    by_cases hp : pin = GPIO_Pin_13
    · simp [HAL_GPIO_EXTI_Callback, hp, flagWrites_append, flagWrites]
    · simp [HAL_GPIO_EXTI_Callback, hp]

/-- Witness for C10 (amended): the shipped build on the run where the flag reads
`RESET`, `RESET`, `SET`. -/
theorem C10_flag_writers_witness :
    ∃ s1, main shipped pressAtThirdPoll 10 onPll = some s1 ∧
      flagWrites s1.trace = flagWrites onPll.trace ++
        (List.replicate (selectedCount shipped)
          [(Writer.WaitUser_PushBotton, RESET), (Writer.Measure_Stop, RESET)]).flatten :=
  ⟨_, rfl, (C10_flag_writers shipped pressAtThirdPoll 10 onPll _ rfl).1⟩

theorem trace_ButtonPinInt_configuration (s : Mcu) :
    (ButtonPinInt_configuration s).trace = s.trace ++ buttonExtiCalls := by
  simp [ButtonPinInt_configuration, emit, buttonExtiCalls]

theorem trace_PWR_PrepareForStopMode (s : Mcu) :
    (PWR_PrepareForStopMode s).trace = s.trace ++ [Call.PWR_ClearFlag_WU] ++ buttonExtiCalls := by
  simp [PWR_PrepareForStopMode, trace_ButtonPinInt_configuration, emit]

/-- C11 (refutation of the claim as stated): the entry functions of the two under-drive
sub-modes issue no flash power-down command at all; after clearing the wakeup flag and
arming the button EXTI they call `PWR_UnderDriveCmd(ENABLE)` and then enter STOP. -/
theorem C11_under_drive_entries_issue_no_flash_command :
    (PWR_StopMainRegUnderDriveFlashPwrDown onPll).trace =
      [Call.PWR_ClearFlag_WU] ++ buttonExtiCalls ++
      [Call.PWR_UnderDriveCmd true,
       Call.PWR_EnterUnderDriveSTOPMode Regulator.PWR_MainRegulator_UnderDrive_ON] ∧
    (∀ state, Call.PWR_FlashPowerDownCmd state ∉
      (PWR_StopMainRegUnderDriveFlashPwrDown onPll).trace) ∧
    (∀ state, Call.PWR_FlashPowerDownCmd state ∉
      (PWR_StopLowPwrRegUnderDriveFlashPwrDown onPll).trace) := by
  refine ⟨by decide, by decide, by decide⟩

/-- C11 (amended): every entry function first clears the pending wakeup flag and then
arms the button EXTI wakeup source (the calls of `ButtonPinInt_configuration`).  The
four sub-modes without under-drive then issue the flash power-down command, DISABLE for
the two FlashStop sub-modes and ENABLE for the two FlashPwrDown sub-modes, and only then
call `PWR_EnterSTOPMode`.  The two under-drive sub-modes issue no flash power-down
command: their third step is `PWR_UnderDriveCmd(ENABLE)`, followed by
`PWR_EnterUnderDriveSTOPMode`. -/
theorem C11_entry_call_order (s : Mcu) :
    (ButtonPinInt_configuration s).trace = s.trace ++ buttonExtiCalls ∧
    (PWR_StopMainRegFlashStop s).trace =
      s.trace ++ [Call.PWR_ClearFlag_WU] ++ buttonExtiCalls ++
      [Call.PWR_FlashPowerDownCmd false, Call.PWR_EnterSTOPMode Regulator.PWR_Regulator_ON] ∧
    (PWR_StopMainRegFlashPwrDown s).trace =
      s.trace ++ [Call.PWR_ClearFlag_WU] ++ buttonExtiCalls ++
      [Call.PWR_FlashPowerDownCmd true, Call.PWR_EnterSTOPMode Regulator.PWR_Regulator_ON] ∧
    (PWR_StopLowPwrRegFlashStop s).trace =
      s.trace ++ [Call.PWR_ClearFlag_WU] ++ buttonExtiCalls ++
      [Call.PWR_FlashPowerDownCmd false,
       Call.PWR_EnterSTOPMode Regulator.PWR_Regulator_LowPower] ∧
    (PWR_StopLowPwrRegFlashPwrDown s).trace =
      s.trace ++ [Call.PWR_ClearFlag_WU] ++ buttonExtiCalls ++
      [Call.PWR_FlashPowerDownCmd true,
       Call.PWR_EnterSTOPMode Regulator.PWR_Regulator_LowPower] ∧
    (PWR_StopMainRegUnderDriveFlashPwrDown s).trace =
      s.trace ++ [Call.PWR_ClearFlag_WU] ++ buttonExtiCalls ++
      [Call.PWR_UnderDriveCmd true,
       Call.PWR_EnterUnderDriveSTOPMode Regulator.PWR_MainRegulator_UnderDrive_ON] ∧
    (PWR_StopLowPwrRegUnderDriveFlashPwrDown s).trace =
      s.trace ++ [Call.PWR_ClearFlag_WU] ++ buttonExtiCalls ++
      [Call.PWR_UnderDriveCmd true,
       Call.PWR_EnterUnderDriveSTOPMode Regulator.PWR_LowPowerRegulator_UnderDrive_ON] := by
  refine ⟨trace_ButtonPinInt_configuration s, ?_, ?_, ?_, ?_, ?_, ?_⟩
  · simp [PWR_StopMainRegFlashStop, trace_PWR_PrepareForStopMode, emit]
  · simp [PWR_StopMainRegFlashPwrDown, trace_PWR_PrepareForStopMode, emit]
  · simp [PWR_StopLowPwrRegFlashStop, trace_PWR_PrepareForStopMode, emit]
  · simp [PWR_StopLowPwrRegFlashPwrDown, trace_PWR_PrepareForStopMode, emit]
  · simp [PWR_StopMainRegUnderDriveFlashPwrDown, trace_PWR_PrepareForStopMode, emit]
  · simp [PWR_StopLowPwrRegUnderDriveFlashPwrDown, trace_PWR_PrepareForStopMode, emit]

theorem stopEntries_append (xs ys : List Call) :
    stopEntries (xs ++ ys) = stopEntries xs ++ stopEntries ys := by
  induction xs with
  | nil => rfl
  | cons x xs ih => cases x <;> simp [stopEntries, ih]

theorem stopEntries_emit (c : Call) (s : Mcu) :
    stopEntries (emit c s).trace = stopEntries s.trace ++ stopEntries [c] := by
  simp [emit, stopEntries_append]

theorem stopEntries_reads (f : Nat → Nat) (l : List Nat) :
    stopEntries (l.map (fun i => Call.readUserButtonStatus (f i))) = [] := by
  induction l with
  | nil => rfl
  | cons a l ih => simpa [stopEntries] using ih

theorem stopEntries_buttonExtiCalls : stopEntries buttonExtiCalls = [] := by decide

theorem stopEntries_entry (v : Variant) (s : Mcu) :
    stopEntries (entry v s).trace = stopEntries s.trace ++ [enterCall v] := by
  cases v <;>
    simp [entry, enterCall, PWR_StopMainRegFlashStop, PWR_StopMainRegFlashPwrDown,
      PWR_StopLowPwrRegFlashStop, PWR_StopLowPwrRegFlashPwrDown,
      PWR_StopMainRegUnderDriveFlashPwrDown, PWR_StopLowPwrRegUnderDriveFlashPwrDown,
      trace_PWR_PrepareForStopMode, emit, stopEntries_append, stopEntries_buttonExtiCalls,
      stopEntries]

theorem stopEntries_GPIO_AnalogConfig (s : Mcu) :
    stopEntries (GPIO_AnalogConfig s).trace = stopEntries s.trace := by
  simp [GPIO_AnalogConfig, List.foldl, stopEntries_emit, stopEntries]

theorem stopEntries_LowPowerDemo_Init (s : Mcu) :
    stopEntries (LowPowerDemo_Init s).trace = stopEntries s.trace := by
  simp [LowPowerDemo_Init, LedsConfig, trace_ButtonPinInt_configuration, emit,
    stopEntries_append, stopEntries_buttonExtiCalls, stopEntries]

theorem stopEntries_waitHSIRDY (env : Environment) : ∀ (fuel : Nat) (s s1 : Mcu),
    waitHSIRDY env fuel s = some s1 → stopEntries s1.trace = stopEntries s.trace := by
  intro fuel
  induction fuel with
  | zero => intro s s1 h; simp [waitHSIRDY] at h
  | succ f ih =>
    intro s s1 h
    unfold waitHSIRDY at h
    split at h
    · rw [ih _ _ h]
      simp [RCC_GetFlagStatus_HSIRDY, emit, stopEntries_append, stopEntries]
    · rw [← Option.some.inj h]
      simp [RCC_GetFlagStatus_HSIRDY, emit, stopEntries_append, stopEntries]

theorem stopEntries_waitSYSCLK (env : Environment) : ∀ (fuel : Nat) (s s1 : Mcu),
    waitSYSCLK env fuel s = some s1 → stopEntries s1.trace = stopEntries s.trace := by
  intro fuel
  induction fuel with
  | zero => intro s s1 h; simp [waitSYSCLK] at h
  | succ f ih =>
    intro s s1 h
    unfold waitSYSCLK at h
    split at h
    · rw [ih _ _ h]
      simp [RCC_GetSYSCLKSource, emit, stopEntries_append, stopEntries]
    · rw [← Option.some.inj h]
      simp [RCC_GetSYSCLKSource, emit, stopEntries_append, stopEntries]

/-- The function `Mode_Exit` does not enter STOP. -/
theorem stopEntries_Mode_Exit (env : Environment) (fuel : Nat) (s s1 : Mcu)
    (h : Mode_Exit env fuel s = some s1) : stopEntries s1.trace = stopEntries s.trace := by
  cases h1 : waitHSIRDY env fuel (RCC_HSICmd true (RCC_HSEConfig RCC_HSE_OFF (RCC_DeInit s))) with
  | none => simp [Mode_Exit, h1] at h
  | some a =>
    cases h2 : waitSYSCLK env fuel (RCC_SYSCLKConfig RCC_SYSCLKSource_HSI a) with
    | none => simp [Mode_Exit, h1, h2] at h
    | some b =>
      simp only [Mode_Exit, h1, h2, Option.some.injEq] at h
      have ha := stopEntries_waitHSIRDY env fuel _ a h1
      have hb := stopEntries_waitSYSCLK env fuel _ b h2
      rw [← h]
      simp [LedsConfig, trace_ButtonPinInt_configuration, emit, stopEntries_append,
        stopEntries_buttonExtiCalls, stopEntries, hb, RCC_SYSCLKConfig, ha, RCC_HSICmd,
        RCC_HSEConfig, RCC_DeInit]

/-- The function `WaitUser_PushBotton` does not enter STOP. -/
theorem stopEntries_WaitUser_PushBotton (env : Environment) (fuel : Nat) (s s1 : Mcu)
    (h : WaitUser_PushBotton env fuel s = some s1) :
    stopEntries s1.trace = stopEntries s.trace := by
  obtain ⟨k, hk, hbefore, hset⟩ := WaitUser_PushBotton_inv env fuel s s1 h
  rw [WaitUser_PushBotton_run env fuel s k hbefore hset hk] at h
  rw [← Option.some.inj h]
  simp [stopEntries_append, stopEntries_reads, stopEntries]

/-- One `#if defined` block of `Measure_Stop` enters STOP exactly once, by the entry
function of its sub-mode. -/
theorem stopEntries_stopSequence (v : Variant) (env : Environment) (fuel : Nat) (s s1 : Mcu)
    (h : stopSequence (entry v) env fuel s = some s1) :
    stopEntries s1.trace = stopEntries s.trace ++ [enterCall v] := by
  cases h1 : WaitUser_PushBotton env fuel s with
  | none => simp [stopSequence, h1] at h
  | some a =>
    cases h2 : Mode_Exit env fuel (entry v (GPIO_AnalogConfig a)) with
    | none => simp [stopSequence, h1, h2] at h
    | some b =>
      simp only [stopSequence, h1, h2, Option.some.injEq] at h
      rw [← h, stopEntries_emit, stopEntries_Mode_Exit env fuel _ b h2, stopEntries_entry,
        stopEntries_GPIO_AnalogConfig, stopEntries_WaitUser_PushBotton env fuel s a h1]
      simp [stopEntries]

theorem stopEntries_ifDefined (defined : Bool) (v : Variant) (env : Environment) (fuel : Nat)
    (s s1 : Mcu) (h : ifDefined defined (stopSequence (entry v) env fuel) s = some s1) :
    stopEntries s1.trace = stopEntries s.trace ++
      ([v].filter (fun _ => defined)).map enterCall := by
  cases defined with
  | false =>
    simp only [ifDefined, Bool.false_eq_true, if_false, Option.some.injEq] at h
    rw [← h]; simp
  | true =>
    simp only [ifDefined, if_true] at h
    rw [stopEntries_stopSequence v env fuel s s1 h]
    simp

/-- The STOP entries of `Measure_Stop`: one per defined sub-mode macro, in source
order, each by the entry call of its sub-mode. -/
theorem stopEntries_Measure_Stop (sel : Selection) (env : Environment) (fuel : Nat)
    (s s1 : Mcu) (h : Measure_Stop sel env fuel s = some s1) :
    stopEntries s1.trace = stopEntries s.trace ++ (selected sel).map enterCall := by
  simp only [Measure_Stop, Option.bind_eq_some] at h
  obtain ⟨a5, ⟨a4, ⟨a3, ⟨a2, ⟨a1, h1, h2⟩, h3⟩, h4⟩, h5⟩, h6⟩ := h
  rw [stopEntries_ifDefined _ Variant.StopLowPwrRegUnderDriveFlashPwrDown env fuel a5 s1 h6,
    stopEntries_ifDefined _ Variant.StopMainRegUnderDriveFlashPwrDown env fuel a4 a5 h5,
    stopEntries_ifDefined _ Variant.StopLowPwrRegFlashPwrDown env fuel a3 a4 h4,
    stopEntries_ifDefined _ Variant.StopLowPwrRegFlashStop env fuel a2 a3 h3,
    stopEntries_ifDefined _ Variant.StopMainRegFlashPwrDown env fuel a1 a2 h2,
    stopEntries_ifDefined _ Variant.StopMainRegFlashStop env fuel s a1 h1]
  cases h1 : sel.StopMainRegFlashStop <;> cases h2 : sel.StopMainRegFlashPwrDown <;>
    cases h3 : sel.StopLowPwrRegFlashStop <;> cases h4 : sel.StopLowPwrRegFlashPwrDown <;>
    cases h5 : sel.StopMainRegUnderDriveFlashPwrDown <;>
    cases h6 : sel.StopLowPwrRegUnderDriveFlashPwrDown <;>
    simp [selected, isDefined, h1, h2, h3, h4, h5, h6]

theorem idleLoop_eq (iterations : Nat) (s : Mcu) : idleLoop iterations s = s := by
  induction iterations with
  | zero => rfl
  | succ n ih => exact ih

/-- C12 (refutation of the claim as stated): in the shipped build, on a run where the
button flag reads `SET` at every poll, the program reads the flag once and enters STOP
once; a thousand passes of the final loop of `main` later it has still read the flag
once and entered STOP once.  The sequence is not repeated for further button presses. -/
theorem C12_sequence_is_not_repeated :
    mainFor shipped alwaysPressed 10 1000 onPll = main shipped alwaysPressed 10 onPll ∧
    ∃ s1, mainFor shipped alwaysPressed 10 1000 onPll = some s1 ∧
      flagReads s1.trace = [SET] ∧
      stopEntries s1.trace = [Call.PWR_EnterSTOPMode Regulator.PWR_Regulator_LowPower] ∧
      s1.trace.getLast? = some (Call.writeUserButtonStatus Writer.Measure_Stop RESET) := by
  have hloop : mainFor shipped alwaysPressed 10 1000 onPll =
      main shipped alwaysPressed 10 onPll := by
    have hid : idleLoop 1000 = id := funext (idleLoop_eq 1000)
    simp [mainFor, hid]
  refine ⟨hloop, ?_⟩
  rw [hloop]
  exact ⟨_, rfl, by decide, by decide, by decide⟩

/-- C12 (amended): the wait-for-button, enter-STOP, resume sequence is executed once per
defined sub-mode macro and then never again: `main` calls `Measure_Stop` once and then
stays in its final empty loop, whose passes make no call, so after any number of passes
the state is the one `Measure_Stop` left, and the STOP entries of the whole run are one
per defined macro, exactly one (by `PWR_EnterSTOPMode` with the low-power regulator) in
the shipped build. -/
theorem C12_sequence_runs_once_per_selected_mode (sel : Selection) (env : Environment)
    (fuel iterations : Nat) (s s1 : Mcu)
    (h : mainFor sel env fuel iterations s = some s1) :
    main sel env fuel s = some s1 ∧
    Measure_Stop sel env fuel (LowPowerDemo_Init s) = some s1 ∧
    stopEntries s1.trace = stopEntries s.trace ++ (selected sel).map enterCall ∧
    (selected shipped).map enterCall =
      [Call.PWR_EnterSTOPMode Regulator.PWR_Regulator_LowPower] := by
  have hmain : main sel env fuel s = some s1 := by
    unfold mainFor at h
    cases hm : main sel env fuel s with
    | none => rw [hm] at h; simp at h
    | some a =>
      rw [hm] at h
      simp only [Option.map_some', idleLoop_eq, Option.some.injEq] at h
      rw [h]
  refine ⟨hmain, hmain, ?_, by decide⟩
  rw [stopEntries_Measure_Stop sel env fuel _ s1 hmain, stopEntries_LowPowerDemo_Init]

/-- Witness for C12 (amended): the shipped build with the button pressed at the third
poll, followed by five passes of the final loop. -/
theorem C12_sequence_runs_once_per_selected_mode_witness :
    ∃ s1, mainFor shipped pressAtThirdPoll 10 5 onPll = some s1 ∧
      stopEntries s1.trace = stopEntries onPll.trace ++ (selected shipped).map enterCall :=
  ⟨_, rfl, (C12_sequence_runs_once_per_selected_mode shipped pressAtThirdPoll 10 5 onPll _
    rfl).2.2.1⟩

/-- C13 (refutation of the claim as stated): the program accepts builds in which the
number of defined sub-mode macros is not one.  With two macros defined `Measure_Stop`
executes two sequences (two waits, two STOP entries by two different entry functions);
with none defined it executes nothing. -/
theorem C13_selection_is_not_forced_to_one :
    (∃ s1, Measure_Stop twoSelected alwaysPressed 10 onPll = some s1 ∧
      flagReads s1.trace = [SET, SET] ∧
      stopEntries s1.trace = [Call.PWR_EnterSTOPMode Regulator.PWR_Regulator_ON,
        Call.PWR_EnterSTOPMode Regulator.PWR_Regulator_LowPower]) ∧
    Measure_Stop noneSelected alwaysPressed 10 onPll = some onPll := by
  refine ⟨⟨_, rfl, by decide, by decide⟩, rfl⟩

/-- C13 (amended): `Measure_Stop` executes one wait/analog-config/enter-STOP/resume
sequence per defined sub-mode macro, in source order.  In a build that defines the macro
of exactly one sub-mode it executes exactly that one sequence, with the entry function
of that sub-mode and none of the other five; the shipped `pwr_modes.h` is such a build,
with entry function `PWR_StopLowPwrRegFlashPwrDown`. -/
theorem C13_one_sequence_per_selected_mode :
    (∀ v env fuel s, Measure_Stop (only v) env fuel s = stopSequence (entry v) env fuel s) ∧
    (∀ v, selected (only v) = [v]) ∧
    shipped = only Variant.StopLowPwrRegFlashPwrDown ∧
    entry Variant.StopLowPwrRegFlashPwrDown = PWR_StopLowPwrRegFlashPwrDown ∧
    (∀ sel env fuel s s1, Measure_Stop sel env fuel s = some s1 →
      stopEntries s1.trace = stopEntries s.trace ++ (selected sel).map enterCall) := by
  refine ⟨?_, ?_, by decide, rfl, stopEntries_Measure_Stop⟩
  · intro v env fuel s
    cases v <;> simp [Measure_Stop, only, ifDefined, entry]
  · intro v
    cases v <;> decide

/-- Witness for C13 (amended): the shipped build with the button pressed at the third
poll enters STOP once, by the call of `PWR_StopLowPwrRegFlashPwrDown`. -/
theorem C13_one_sequence_per_selected_mode_witness :
    ∃ s1, Measure_Stop shipped pressAtThirdPoll 10 onPll = some s1 ∧
      stopEntries s1.trace = stopEntries onPll.trace ++
        [Call.PWR_EnterSTOPMode Regulator.PWR_Regulator_LowPower] :=
  ⟨_, rfl, C13_one_sequence_per_selected_mode.2.2.2.2 shipped pressAtThirdPoll 10 onPll _ rfl⟩

end Current_Meg_Stop_Mode

namespace Firmware

/-- C15 (refutation of the claim as stated): on a run of the RTC demo on which
`HAL_SYSTICK_Config`, `HAL_RTC_GetTime`, `HAL_RTC_GetDate` and every `HAL_UART_Transmit`
report `HAL_ERROR`, the program does not halt at any of them: it makes the same 27 calls
as on the run where they all succeed, the last being `HAL_PWR_EnterSTANDBYMode`. -/
theorem C15_untested_failures_do_not_halt :
    RTC_Time_Date.untestedCallsFail.systickConfig = HAL_StatusTypeDef.HAL_ERROR ∧
    RTC_Time_Date.untestedCallsFail.rtcGetTime = HAL_StatusTypeDef.HAL_ERROR ∧
    RTC_Time_Date.untestedCallsFail.rtcGetDate = HAL_StatusTypeDef.HAL_ERROR ∧
    RTC_Time_Date.untestedCallsFail.uartTransmit = HAL_StatusTypeDef.HAL_ERROR ∧
    (RTC_Time_Date.main RTC_Time_Date.untestedCallsFail).trace =
      (RTC_Time_Date.main RTC_Time_Date.resumedBoot).trace ∧
    (RTC_Time_Date.main RTC_Time_Date.untestedCallsFail).trace.length = 27 ∧
    (RTC_Time_Date.main RTC_Time_Date.untestedCallsFail).trace.getLast? =
      some RTC_Time_Date.Call.HAL_PWR_EnterSTANDBYMode ∧
    ¬ (RTC_Time_Date.main RTC_Time_Date.untestedCallsFail).haltedAt
      (RTC_Time_Date.Call.HAL_SYSTICK_Config 50000) := by
  refine ⟨rfl, rfl, rfl, rfl, by decide, by decide, by decide, ?_⟩
  intro h
  exact absurd h.2 (by decide)

theorem PWM_startup_halted_iff (hw : PWM_LED.Hardware) :
    (PWM_LED.startup hw).halted = false ↔
      (hw.oscConfig = HAL_StatusTypeDef.HAL_OK ∧ hw.clockConfig = HAL_StatusTypeDef.HAL_OK ∧
       hw.uartInit = HAL_StatusTypeDef.HAL_OK ∧ hw.timPwmInit = HAL_StatusTypeDef.HAL_OK ∧
       hw.timPwmConfigChannel = HAL_StatusTypeDef.HAL_OK ∧
       hw.timPwmStart = HAL_StatusTypeDef.HAL_OK) := by
  by_cases h1 : hw.oscConfig = HAL_StatusTypeDef.HAL_OK <;>
  by_cases h2 : hw.clockConfig = HAL_StatusTypeDef.HAL_OK <;>
  by_cases h3 : hw.uartInit = HAL_StatusTypeDef.HAL_OK <;>
  by_cases h4 : hw.timPwmInit = HAL_StatusTypeDef.HAL_OK <;>
  by_cases h5 : hw.timPwmConfigChannel = HAL_StatusTypeDef.HAL_OK <;>
  by_cases h6 : hw.timPwmStart = HAL_StatusTypeDef.HAL_OK <;>
  simp [PWM_LED.startup, PWM_LED.SystemClock_Config_HSE, PWM_LED.clockSetting,
    PWM_LED.GPIO_Init, PWM_LED.UART2_Init, PWM_LED.TIMER2_Init, PWM_LED.checked,
    PWM_LED.Error_handler, Run.steps, Run.andThen, Run.call, Run.unchecked, Run.skip,
    Run.halt, h1, h2, h3, h4, h5, h6]

theorem RTC_main_reaches_standby_iff (hw : RTC_Time_Date.Hardware) :
    RTC_Time_Date.Call.HAL_PWR_EnterSTANDBYMode ∈ (RTC_Time_Date.main hw).trace ↔
      (hw.oscConfig = HAL_StatusTypeDef.HAL_OK ∧ hw.clockConfig = HAL_StatusTypeDef.HAL_OK ∧
       hw.uartInit = HAL_StatusTypeDef.HAL_OK ∧ hw.rtcInit = HAL_StatusTypeDef.HAL_OK) := by
  by_cases h1 : hw.oscConfig = HAL_StatusTypeDef.HAL_OK <;>
  by_cases h2 : hw.clockConfig = HAL_StatusTypeDef.HAL_OK <;>
  by_cases h3 : hw.uartInit = HAL_StatusTypeDef.HAL_OK <;>
  by_cases h4 : hw.rtcInit = HAL_StatusTypeDef.HAL_OK <;>
  cases h5 : hw.standbyFlag <;>
  simp [RTC_Time_Date.main, RTC_Time_Date.SystemClock_Config_HSE,
    RTC_Time_Date.clockSetting, RTC_Time_Date.GPIO_Init, RTC_Time_Date.UART2_Init,
    RTC_Time_Date.RTC_Init, RTC_Time_Date.checked, RTC_Time_Date.RTC_AppError,
    RTC_Time_Date.rtc_uart_printf, RTC_Time_Date.HAL_GPIO_EXTI_Callback, Run.steps,
    Run.andThen, Run.call, Run.unchecked, Run.skip, Run.halt, h1, h2, h3, h4, h5]

theorem CAN_AppInit_halted_iff (hw : CAN_Normal_Mode.Hardware) :
    (CAN_Normal_Mode.CAN_AppInit hw).halted = false ↔
      (hw.configFilter = HAL_StatusTypeDef.HAL_OK ∧
       hw.activateNotification = HAL_StatusTypeDef.HAL_OK ∧
       hw.start = HAL_StatusTypeDef.HAL_OK ∧ hw.addTxMessage = HAL_StatusTypeDef.HAL_OK) := by
  by_cases h1 : hw.configFilter = HAL_StatusTypeDef.HAL_OK <;>
  by_cases h2 : hw.activateNotification = HAL_StatusTypeDef.HAL_OK <;>
  by_cases h3 : hw.start = HAL_StatusTypeDef.HAL_OK <;>
  by_cases h4 : hw.addTxMessage = HAL_StatusTypeDef.HAL_OK <;>
  simp [CAN_Normal_Mode.CAN_AppInit, CAN_Normal_Mode.CAN_AppConfigFilter,
    CAN_Normal_Mode.CAN_AppSendInitialFrame, CAN_Normal_Mode.checked,
    CAN_Normal_Mode.Error_Handler, Run.steps, Run.andThen, Run.call, Run.skip, Run.halt,
    h1, h2, h3, h4]

theorem CAN_callback_halted_iff (status : HAL_StatusTypeDef) (DLC : Nat) (payload : List Nat) :
    (CAN_Normal_Mode.HAL_CAN_RxFifo0MsgPendingCallback status DLC payload).halted = false ↔
      status = HAL_StatusTypeDef.HAL_OK := by
  by_cases h1 : status = HAL_StatusTypeDef.HAL_OK <;>
  simp [CAN_Normal_Mode.HAL_CAN_RxFifo0MsgPendingCallback, CAN_Normal_Mode.CAN_AppPrint,
    CAN_Normal_Mode.checked, CAN_Normal_Mode.Error_Handler, Run.steps, Run.andThen, Run.call,
    Run.skip, Run.halt, h1]

/-- C15 (amended): a failure is handled by the halt routine exactly for the calls whose
status the source tests.  The start-up of the PWM demo goes through if and only if its
six tested calls return `HAL_OK`; the RTC demo reaches `HAL_PWR_EnterSTANDBYMode` if
and only if its four tested calls return `HAL_OK`; `CAN_AppInit` returns if and only
if its four tested calls return `HAL_OK`, and the CAN receive callback returns if and
only if `HAL_CAN_GetRxMessage` does.  The statuses returned by `HAL_SYSTICK_Config`
(PWM and RTC demos), `HAL_RTC_GetTime`, `HAL_RTC_GetDate` and `HAL_UART_Transmit` (RTC
demo) are not tested: the run is the same whatever they are. -/
theorem C15_tested_failures_halt_untested_are_ignored :
    (∀ hw : PWM_LED.Hardware, (PWM_LED.startup hw).halted = false ↔
      (hw.oscConfig = HAL_StatusTypeDef.HAL_OK ∧ hw.clockConfig = HAL_StatusTypeDef.HAL_OK ∧
       hw.uartInit = HAL_StatusTypeDef.HAL_OK ∧ hw.timPwmInit = HAL_StatusTypeDef.HAL_OK ∧
       hw.timPwmConfigChannel = HAL_StatusTypeDef.HAL_OK ∧
       hw.timPwmStart = HAL_StatusTypeDef.HAL_OK)) ∧
    (∀ hw : RTC_Time_Date.Hardware,
      RTC_Time_Date.Call.HAL_PWR_EnterSTANDBYMode ∈ (RTC_Time_Date.main hw).trace ↔
      (hw.oscConfig = HAL_StatusTypeDef.HAL_OK ∧ hw.clockConfig = HAL_StatusTypeDef.HAL_OK ∧
       hw.uartInit = HAL_StatusTypeDef.HAL_OK ∧ hw.rtcInit = HAL_StatusTypeDef.HAL_OK)) ∧
    (∀ hw : CAN_Normal_Mode.Hardware, (CAN_Normal_Mode.CAN_AppInit hw).halted = false ↔
      (hw.configFilter = HAL_StatusTypeDef.HAL_OK ∧
       hw.activateNotification = HAL_StatusTypeDef.HAL_OK ∧
       hw.start = HAL_StatusTypeDef.HAL_OK ∧ hw.addTxMessage = HAL_StatusTypeDef.HAL_OK)) ∧
    (∀ (status : HAL_StatusTypeDef) (DLC : Nat) (payload : List Nat),
      (CAN_Normal_Mode.HAL_CAN_RxFifo0MsgPendingCallback status DLC payload).halted = false ↔
      status = HAL_StatusTypeDef.HAL_OK) ∧
    (∀ (hw : PWM_LED.Hardware) (status : HAL_StatusTypeDef) (fuel passes : Nat),
      PWM_LED.main { hw with systickConfig := status } fuel passes =
        PWM_LED.main hw fuel passes) ∧
    (∀ (hw : RTC_Time_Date.Hardware) (s1 s2 s3 s4 : HAL_StatusTypeDef),
      RTC_Time_Date.main
        { hw with systickConfig := s1, rtcGetTime := s2, rtcGetDate := s3, uartTransmit := s4 } =
        RTC_Time_Date.main hw) :=
  ⟨PWM_startup_halted_iff, RTC_main_reaches_standby_iff, CAN_AppInit_halted_iff,
   CAN_callback_halted_iff, fun _ _ _ _ => rfl, fun _ _ _ _ _ => rfl⟩

end Firmware

namespace RTC_Time_Date

open Firmware

set_option maxRecDepth 100000 in
/-- The conversion `%02d` of a value below 100 gives exactly two digits. -/
theorem fmt02d_lt_100 : ∀ v, v < 100 → fmt02d v = twoDigits v := by decide

theorem twoDigits_ne_zero (v : Nat) : ∀ b ∈ twoDigits v, b ≠ 0 := by
  intro b hb
  simp only [twoDigits, List.mem_cons, List.mem_singleton, List.not_mem_nil, or_false] at hb
  omega

theorem weekday_name_ne_zero (index : Nat) :
    ∀ b ∈ bytes (rtc_get_weekday_name index), b ≠ 0 := by
  by_cases h : index = 0 ∨ index > 7
  · simp only [rtc_get_weekday_name, h, if_true]; decide
  · have h1 : 1 ≤ index ∧ index ≤ 7 := by omega
    obtain ⟨h1, h2⟩ := h1
    interval_cases index <;> decide

theorem weekday_name_length (index : Nat) :
    (bytes (rtc_get_weekday_name index)).length ≤ 9 := by
  by_cases h : index = 0 ∨ index > 7
  · simp only [rtc_get_weekday_name, h, if_true]; decide
  · have h1 : 1 ≤ index ∧ index ≤ 7 := by omega
    obtain ⟨h1, h2⟩ := h1
    interval_cases index <;> decide

/-- A NUL-free text of at most 79 characters is printed unchanged by `rtc_uart_printf`. -/
theorem printed_eq_self (text : List Nat) (hlen : text.length ≤ 79)
    (hnz : ∀ b ∈ text, b ≠ 0) : cString (snprintf 80 text) = text := by
  rw [snprintf_eq_self 80 text hlen hnz]
  exact cString_eq_self text hnz

theorem timeLine_printed (t : RTC_TimeTypeDef) (hh : t.Hours < 100) (hm : t.Minutes < 100)
    (hs : t.Seconds < 100) :
    cString (snprintf 80 (timeLine t)) =
      bytes "Time : " ++ twoDigits t.Hours ++ bytes ":" ++ twoDigits t.Minutes ++ bytes ":" ++
        twoDigits t.Seconds ++ bytes "\r\n" := by
  have e1 : bytes "Time : " = [84, 105, 109, 101, 32, 58, 32] := by decide
  have e2 : bytes ":" = [58] := by decide
  have e3 : bytes "\r\n" = [13, 10] := by decide
  have hline : timeLine t =
      bytes "Time : " ++ twoDigits t.Hours ++ bytes ":" ++ twoDigits t.Minutes ++ bytes ":" ++
        twoDigits t.Seconds ++ bytes "\r\n" := by
    simp only [timeLine, fmt02d_lt_100 _ hh, fmt02d_lt_100 _ hm, fmt02d_lt_100 _ hs]
  rw [hline]
  apply printed_eq_self
  · simp [e1, e2, e3, twoDigits]
  · intro b hb
    simp only [e1, e2, e3, twoDigits, List.mem_append, List.mem_cons, List.mem_singleton,
      List.not_mem_nil, or_false] at hb
    omega

theorem dateLine_printed (d : RTC_DateTypeDef) (hm : d.Month < 100) (hd : d.Date < 100)
    (hy : d.Year < 100) :
    cString (snprintf 80 (dateLine d)) =
      bytes "Date : " ++ twoDigits d.Month ++ bytes "-" ++ twoDigits d.Date ++ bytes "-" ++
        twoDigits d.Year ++ bytes "  <" ++ bytes (rtc_get_weekday_name d.WeekDay) ++
        bytes ">\r\n" := by
  have e1 : bytes "Date : " = [68, 97, 116, 101, 32, 58, 32] := by decide
  have e2 : bytes "-" = [45] := by decide
  have e3 : bytes "  <" = [32, 32, 60] := by decide
  have e4 : bytes ">\r\n" = [62, 13, 10] := by decide
  have hname := weekday_name_ne_zero d.WeekDay
  have hlen := weekday_name_length d.WeekDay
  have hline : dateLine d =
      bytes "Date : " ++ twoDigits d.Month ++ bytes "-" ++ twoDigits d.Date ++ bytes "-" ++
        twoDigits d.Year ++ bytes "  <" ++ bytes (rtc_get_weekday_name d.WeekDay) ++
        bytes ">\r\n" := by
    simp only [dateLine, fmt02d_lt_100 _ hm, fmt02d_lt_100 _ hd, fmt02d_lt_100 _ hy,
      cString_eq_self _ hname]
  rw [hline]
  apply printed_eq_self
  · simp only [e1, e2, e3, e4, twoDigits, List.length_append, List.length_cons,
      List.length_nil]
    omega
  · intro b hb
    simp only [e1, e2, e3, e4, twoDigits, List.mem_append, List.mem_cons, List.mem_singleton,
      List.not_mem_nil, or_false] at hb
    rcases hb with hb | hb
    · rcases hb with hb | hb
      · omega
      · exact hname b hb
    · omega

/-- C16 (refutation of the claim as stated): for the time 12:11:10 and the date 06-12-18,
a Tuesday, the callback sends "Time : 12:11:10" and "Date : 06-12-18  <Tuesday>", with
two spaces between the year and the '<', not the line with a single space. -/
theorem C16_date_line_has_two_spaces :
    uartTexts (HAL_GPIO_EXTI_Callback resumedBoot 0).trace =
      [bytes "Time : 12:11:10\r\n", bytes "Date : 06-12-18  <Tuesday>\r\n"] ∧
    uartTexts (HAL_GPIO_EXTI_Callback resumedBoot 0).trace ≠
      [bytes "Time : 12:11:10\r\n", bytes "Date : 06-12-18 <Tuesday>\r\n"] := by
  constructor <;> decide

/-- C16 (amended): for every time with hours, minutes and seconds below 100 and every
date with month, day and year below 100, the EXTI callback sends exactly two texts:
"Time : HH:MM:SS" CR LF, and "Date : MM-DD-YY" followed by two spaces, '<', the weekday
name, '>' and CR LF; each numeric field is written with two decimal digits, zero-padded. -/
theorem C16_callback_lines (hw : Hardware) (GPIO_Pin : Nat)
    (hh : hw.timeNow.Hours < 100) (hmin : hw.timeNow.Minutes < 100)
    (hs : hw.timeNow.Seconds < 100) (hmon : hw.dateNow.Month < 100)
    (hd : hw.dateNow.Date < 100) (hy : hw.dateNow.Year < 100) :
    uartTexts (HAL_GPIO_EXTI_Callback hw GPIO_Pin).trace =
      [bytes "Time : " ++ twoDigits hw.timeNow.Hours ++ bytes ":" ++
          twoDigits hw.timeNow.Minutes ++ bytes ":" ++ twoDigits hw.timeNow.Seconds ++
          bytes "\r\n",
       bytes "Date : " ++ twoDigits hw.dateNow.Month ++ bytes "-" ++
          twoDigits hw.dateNow.Date ++ bytes "-" ++ twoDigits hw.dateNow.Year ++
          bytes "  <" ++ bytes (rtc_get_weekday_name hw.dateNow.WeekDay) ++ bytes ">\r\n"] := by
  rw [← timeLine_printed hw.timeNow hh hmin hs, ← dateLine_printed hw.dateNow hmon hd hy]
  simp [HAL_GPIO_EXTI_Callback, rtc_uart_printf, Run.steps, Run.andThen, Run.call,
    Run.unchecked, Run.skip, uartTexts, cString_idem]

/-- Witness for C16 (amended): 09:05:00 on 01-02-03, weekday 7. -/
theorem C16_callback_lines_witness :
    uartTexts (HAL_GPIO_EXTI_Callback
      { resumedBoot with
        timeNow := { Hours := 9, Minutes := 5, Seconds := 0 }
        dateNow := { WeekDay := 7, Month := 1, Date := 2, Year := 3 } } 13).trace =
      [bytes "Time : 09:05:00\r\n", bytes "Date : 01-02-03  <Sunday>\r\n"] :=
  (C16_callback_lines _ 13 (by decide) (by decide) (by decide) (by decide) (by decide)
    (by decide)).trans (by decide)

/-- C17: `rtc_get_weekday_name` is defined for every index; for the indices 1 to 7 it
returns "Monday" to "Sunday" in this order, and for index 0 and every index above 7 it
returns "?"; whenever the table `names` (7 entries) is indexed, the position
`index - 1` lies in 0..6 and the entry there is the result. -/
theorem C17_weekday_names :
    rtc_get_weekday_name 1 = "Monday" ∧ rtc_get_weekday_name 2 = "Tuesday" ∧
    rtc_get_weekday_name 3 = "Wednesday" ∧ rtc_get_weekday_name 4 = "Thursday" ∧
    rtc_get_weekday_name 5 = "Friday" ∧ rtc_get_weekday_name 6 = "Saturday" ∧
    rtc_get_weekday_name 7 = "Sunday" ∧
    (∀ index, index = 0 ∨ 7 < index → rtc_get_weekday_name index = "?") ∧
    names.length = 7 ∧
    (∀ index, ¬ (index = 0 ∨ index > 7) →
      index - 1 < names.length ∧ index - 1 ≤ 6 ∧
      names[index - 1]? = some (rtc_get_weekday_name index)) := by
  refine ⟨by decide, by decide, by decide, by decide, by decide, by decide, by decide, ?_,
    by decide, ?_⟩
  · intro index h
    have h1 : index = 0 ∨ index > 7 := h
    simp only [rtc_get_weekday_name, h1, if_true]
  · intro index h
    have h1 : 1 ≤ index ∧ index ≤ 7 := by omega
    obtain ⟨h1, h2⟩ := h1
    interval_cases index <;> decide

/-- Witness for C17: index 200 gives "?", and index 3 reads entry 2 of the table. -/
theorem C17_weekday_names_witness :
    rtc_get_weekday_name 200 = "?" ∧ (3 - 1 < names.length ∧ 3 - 1 ≤ 6 ∧
      names[3 - 1]? = some (rtc_get_weekday_name 3)) :=
  ⟨C17_weekday_names.2.2.2.2.2.2.2.1 200 (Or.inr (by decide)),
   C17_weekday_names.2.2.2.2.2.2.2.2.2 3 (by decide)⟩

/-- The calls of a run of `main` on which the four tested start-up calls succeed. -/
theorem main_trace_of_init_ok (hw : Hardware)
    (hosc : hw.oscConfig = HAL_StatusTypeDef.HAL_OK)
    (hclk : hw.clockConfig = HAL_StatusTypeDef.HAL_OK)
    (huart : hw.uartInit = HAL_StatusTypeDef.HAL_OK)
    (hrtc : hw.rtcInit = HAL_StatusTypeDef.HAL_OK) :
    (main hw).trace =
      startupCalls hw ++
      [Call.HAL_UART_Transmit (bytes "RTC standby example started\r\n"),
       Call.PWR_GET_FLAG PwrFlag.PWR_FLAG_SB] ++
      (if hw.standbyFlag then resumeCalls hw else []) ++
      [Call.HAL_PWR_EnableWakeUpPin,
       Call.HAL_UART_Transmit (bytes "Entering STANDBY mode now\r\n"),
       Call.HAL_PWR_EnterSTANDBYMode] := by
  have hbanner : cString (snprintf 80 (bytes "RTC standby example started\r\n")) =
      bytes "RTC standby example started\r\n" := by decide
  have hwoke : cString (snprintf 80 (bytes "System woke up from STANDBY mode\r\n")) =
      bytes "System woke up from STANDBY mode\r\n" := by decide
  have hentering : cString (snprintf 80 (bytes "Entering STANDBY mode now\r\n")) =
      bytes "Entering STANDBY mode now\r\n" := by decide
  cases hsb : hw.standbyFlag <;>
    simp [main, Run.steps, Run.andThen, Run.call, Run.unchecked, Run.skip, Run.halt, GPIO_Init,
      SystemClock_Config_HSE, clockSetting, checked, UART2_Init, RTC_Init, rtc_uart_printf,
      HAL_GPIO_EXTI_Callback, hosc, hclk, huart, hrtc, hsb, hbanner, hwoke,
      hentering, startupCalls, resumeCalls, cString_idem]

/-- C18 (refutation of the claim as stated): the first-boot run `firstBoot` sends the
banner "RTC standby example started" and "Entering STANDBY mode now"; the run
`resumedBoot`, which differs only in that the standby flag is set, sends both of these
texts as well, the banner first. -/
theorem C18_resumed_run_still_prints_first_boot_output :
    firstBoot.standbyFlag = false ∧ resumedBoot.standbyFlag = true ∧
    uartTexts (main firstBoot).trace =
      [bytes "RTC standby example started\r\n", bytes "Entering STANDBY mode now\r\n"] ∧
    bytes "RTC standby example started\r\n" ∈ uartTexts (main resumedBoot).trace ∧
    bytes "Entering STANDBY mode now\r\n" ∈ uartTexts (main resumedBoot).trace ∧
    (uartTexts (main resumedBoot).trace).head? =
      some (bytes "RTC standby example started\r\n") := by
  refine ⟨rfl, rfl, by decide, by decide, by decide, by decide⟩

/-- C18 (amended): on every run of `main` on which the four tested start-up calls
succeed, the program prints the banner, reads the standby flag, makes the
resume-specific calls (clear `PWR_FLAG_SB` and `PWR_FLAG_WU`, print "System woke up
from STANDBY mode", read and print time and date) if and only if the flag is set, and
then in either case enables the wakeup pin, prints "Entering STANDBY mode now" and
enters STANDBY.  The resume path is inserted into the first-boot path; the first-boot
output is produced on resumed runs too. -/
theorem C18_resume_path_is_inserted (hw : Hardware)
    (hosc : hw.oscConfig = HAL_StatusTypeDef.HAL_OK)
    (hclk : hw.clockConfig = HAL_StatusTypeDef.HAL_OK)
    (huart : hw.uartInit = HAL_StatusTypeDef.HAL_OK)
    (hrtc : hw.rtcInit = HAL_StatusTypeDef.HAL_OK) :
    (main hw).trace =
      startupCalls hw ++
      [Call.HAL_UART_Transmit (bytes "RTC standby example started\r\n"),
       Call.PWR_GET_FLAG PwrFlag.PWR_FLAG_SB] ++
      (if hw.standbyFlag then resumeCalls hw else []) ++
      [Call.HAL_PWR_EnableWakeUpPin,
       Call.HAL_UART_Transmit (bytes "Entering STANDBY mode now\r\n"),
       Call.HAL_PWR_EnterSTANDBYMode] ∧
    (Call.PWR_CLEAR_FLAG PwrFlag.PWR_FLAG_SB ∈ (main hw).trace ↔ hw.standbyFlag = true) ∧
    (Call.PWR_CLEAR_FLAG PwrFlag.PWR_FLAG_WU ∈ (main hw).trace ↔ hw.standbyFlag = true) ∧
    (bytes "System woke up from STANDBY mode\r\n" ∈ uartTexts (main hw).trace ↔
      hw.standbyFlag = true) ∧
    (Call.HAL_RTC_GetTime ∈ (main hw).trace ↔ hw.standbyFlag = true) ∧
    bytes "RTC standby example started\r\n" ∈ uartTexts (main hw).trace ∧
    bytes "Entering STANDBY mode now\r\n" ∈ uartTexts (main hw).trace := by
  have htrace := main_trace_of_init_ok hw hosc hclk huart hrtc
  have htexts := uartTexts_main_of_init_ok hw hosc hclk huart hrtc
  refine ⟨htrace, ?_, ?_, ?_, ?_, ?_, ?_⟩
  · rw [htrace]; cases hw.standbyFlag <;> simp [startupCalls, resumeCalls]
  · rw [htrace]; cases hw.standbyFlag <;> simp [startupCalls, resumeCalls]
  · rw [htexts]
    cases hw.standbyFlag
    · simp only [Bool.false_eq_true, if_false, iff_false]; decide
    · simp
  · rw [htrace]; cases hw.standbyFlag <;> simp [startupCalls, resumeCalls]
  · rw [htexts]; simp
  · rw [htexts]; simp

/-- Witness for C18 (amended): the runs `resumedBoot` and `firstBoot`. -/
theorem C18_resume_path_is_inserted_witness :
    Call.PWR_CLEAR_FLAG PwrFlag.PWR_FLAG_SB ∈ (main resumedBoot).trace ∧
    Call.PWR_CLEAR_FLAG PwrFlag.PWR_FLAG_SB ∉ (main firstBoot).trace ∧
    bytes "RTC standby example started\r\n" ∈ uartTexts (main resumedBoot).trace :=
  ⟨(C18_resume_path_is_inserted resumedBoot rfl rfl rfl rfl).2.1.mpr rfl,
   fun h => absurd ((C18_resume_path_is_inserted firstBoot rfl rfl rfl rfl).2.1.mp h)
     (by decide),
   (C18_resume_path_is_inserted resumedBoot rfl rfl rfl rfl).2.2.2.2.2.1⟩

end RTC_Time_Date

namespace CAN_Normal_Mode

open Firmware

/-- C19: the filter that `CAN_AppInit` hands to `HAL_CAN_ConfigFilter` (its first call)
has identifier 0x00000000 and mask 0x00000000 in 32-bit identifier-mask mode, is
activated on bank 0 and assigned to `CAN_RX_FIFO0`; with it the match condition
`(id AND mask) = (filterId AND mask)` holds for every identifier, in particular for
every 11-bit standard and every 29-bit extended identifier. -/
theorem C19_filter_accepts_every_identifier :
    (∀ hw, (CAN_AppInit hw).trace.head? = some (Call.HAL_CAN_ConfigFilter acceptAllFilter)) ∧
    filterId32 acceptAllFilter = 0x00000000 ∧
    filterMask32 acceptAllFilter = 0x00000000 ∧
    acceptAllFilter.FilterMode = FilterMode.CAN_FILTERMODE_IDMASK ∧
    acceptAllFilter.FilterScale = FilterScale.CAN_FILTERSCALE_32BIT ∧
    acceptAllFilter.FilterActivation = true ∧
    acceptAllFilter.FilterBank = 0 ∧
    acceptAllFilter.FilterFIFOAssignment = RxFifo.CAN_RX_FIFO0 ∧
    (∀ id : Nat, id &&& filterMask32 acceptAllFilter =
      filterId32 acceptAllFilter &&& filterMask32 acceptAllFilter) ∧
    (∀ id : Nat, identifierMaskMatch acceptAllFilter id = true) := by
  have hmask : filterMask32 acceptAllFilter = 0 := rfl
  have hid : filterId32 acceptAllFilter = 0 := rfl
  refine ⟨?_, rfl, rfl, rfl, rfl, rfl, rfl, rfl, ?_, ?_⟩
  · intro hw
    by_cases h1 : hw.configFilter = HAL_StatusTypeDef.HAL_OK <;>
    by_cases h2 : hw.activateNotification = HAL_StatusTypeDef.HAL_OK <;>
    by_cases h3 : hw.start = HAL_StatusTypeDef.HAL_OK <;>
    by_cases h4 : hw.addTxMessage = HAL_StatusTypeDef.HAL_OK <;>
    simp [CAN_AppInit, CAN_AppConfigFilter, CAN_AppSendInitialFrame, checked, Error_Handler,
      Run.steps, Run.andThen, Run.call, Run.skip, Run.halt, h1, h2, h3, h4]
  · intro id
    rw [hmask, hid]
    simp
  · intro id
    have hact : acceptAllFilter.FilterActivation = true := rfl
    simp only [identifierMaskMatch, hmask, hid, hact, Nat.and_zero, decide_True, Bool.and_self]

end CAN_Normal_Mode

namespace PWM_LED

theorem chain_up_exact (n : Nat) : ∀ k : Nat, k + n ≤ 500 →
    List.Chain (fun a b => a + dutyStep < 65536 ∧ b = a + dutyStep) (20 * k)
      ((List.range' (k + 1) n).map (fun i => 20 * i)) := by
  induction n with
  | zero => intro k _; simp
  | succ n ih =>
    intro k hk
    simp only [List.range'_succ, List.map_cons, List.chain_cons]
    refine ⟨⟨?_, ?_⟩, ih (k + 1) (by omega)⟩
    · simp only [dutyStep]; omega
    · simp only [dutyStep]; ring

theorem chain_down_exact (n : Nat) :
    List.Chain (fun a b => dutyStep ≤ a ∧ b = a - dutyStep) (20 * n)
      ((List.range n).map (fun i => 20 * i)).reverse := by
  induction n with
  | zero => simp
  | succ n ih =>
    simp only [List.range_succ, List.map_append, List.map_cons, List.map_nil,
      List.reverse_append, List.reverse_cons, List.reverse_nil, List.nil_append,
      List.singleton_append, List.chain_cons]
    refine ⟨⟨?_, ?_⟩, ih⟩
    · simp only [dutyStep]; omega
    · simp only [dutyStep]; omega

/-- The compare values written by any number of passes: each pass writes the rising
values and then the falling values. -/
theorem breathing_writes (fuel : Nat) (hf : 500 < fuel) : ∀ passes : Nat,
    ∃ calls, breathing Period dutyStep fuel passes 0 = some (0, calls) ∧
      compareWrites calls =
        (List.replicate passes (risingWrites ++ fallingWrites)).flatten := by
  intro passes
  induction passes with
  | zero => exact ⟨[], rfl, by simp [compareWrites]⟩
  | succ n ih =>
    obtain ⟨up, down, _, _, hpass, hupw, hdownw⟩ := breathingPass_run fuel hf
    obtain ⟨rest, hrest, hwrites⟩ := ih
    refine ⟨up ++ down ++ rest, by simp only [breathing, hpass, hrest], ?_⟩
    rw [compareWrites_append, compareWrites_append, hupw, hdownw, hwrites,
      List.replicate_succ, List.flatten_cons]
    rfl

/-- C20: with Period 9999 and step 20 the 16-bit duty arithmetic never wraps.  For any
number of passes and any fuel above 500 both inner loops terminate in every pass, and
each pass writes 500 rising values, every one the exact sum of the previous duty and 20
(a sum below 65536), up to the peak 10000, a multiple of 20, and then 500 falling
values, every one the exact difference of a previous duty of at least 20 and 20, down
to exactly 0. -/
theorem C20_duty_arithmetic_never_wraps (fuel passes : Nat) (hf : 500 < fuel) :
    ∃ calls, breathing Period dutyStep fuel passes 0 = some (0, calls) ∧
      compareWrites calls =
        (List.replicate passes (risingWrites ++ fallingWrites)).flatten ∧
      risingWrites.length = 500 ∧ risingWrites.getLast? = some 10000 ∧
      10000 % dutyStep = 0 ∧ Period < 10000 ∧
      List.Chain (fun a b => a + dutyStep < 65536 ∧ b = a + dutyStep) 0 risingWrites ∧
      fallingWrites.length = 500 ∧ fallingWrites.getLast? = some 0 ∧
      List.Chain (fun a b => dutyStep ≤ a ∧ b = a - dutyStep) 10000 fallingWrites := by
  obtain ⟨calls, hrun, hwrites⟩ := breathing_writes fuel hf passes
  refine ⟨calls, hrun, hwrites, by simp [risingWrites], ?_, by decide, by decide, ?_,
    by simp [fallingWrites], ?_, ?_⟩
  · have hsplit : List.range' 1 500 = List.range' 1 499 ++ [500] := List.range'_concat 1 499
    simp [risingWrites, hsplit]
  · exact chain_up_exact 500 0 (by omega)
  · have hsplit : List.range 500 = 0 :: (List.range 499).map Nat.succ :=
      List.range_succ_eq_map 499
    simp [fallingWrites, hsplit]
  · exact chain_down_exact 500

/-- Witness for C20: four passes on fuel 501. -/
theorem C20_duty_arithmetic_never_wraps_witness :
    ∃ calls, breathing Period dutyStep 501 4 0 = some (0, calls) ∧
      compareWrites calls =
        (List.replicate 4 (risingWrites ++ fallingWrites)).flatten ∧
      risingWrites.getLast? = some 10000 ∧ fallingWrites.getLast? = some 0 := by
  obtain ⟨calls, hrun, hwrites, _, hpeak, _, _, _, _, hzero, _⟩ :=
    C20_duty_arithmetic_never_wraps 501 4 (by decide)
  exact ⟨calls, hrun, hwrites, hpeak, hzero⟩

end PWM_LED

namespace CAN_Normal_Mode

open Firmware

/-- The echoed part of the line is the C string of the bytes before the terminator, so
it has at most seven characters. -/
theorem echo_length_le_seven (DLC : Nat) (payload : List Nat) (hlen : payload.length = 8) :
    (cString (terminated payload DLC)).length ≤ 7 := by
  have hidx : terminatorIndex DLC ≤ 7 := by unfold terminatorIndex; split <;> omega
  have hecho : cString (terminated payload DLC) = cString (payload.take (terminatorIndex DLC)) :=
    cString_set_zero payload _ (by omega)
  have h1 := cString_length_le (payload.take (terminatorIndex DLC))
  have h2 : (payload.take (terminatorIndex DLC)).length ≤ terminatorIndex DLC :=
    List.length_take_le _ _
  rw [hecho]
  omega

/-- C21: in the receive callback, for every value of the DLC field (so for every 32-bit
value) the terminator is written at an index within 0..7 of the 8-byte payload buffer,
which keeps its length; the formatted line, "CAN RX: " followed by at most 7 payload
bytes and CR LF, has at most 17 characters, fewer than the 63 that the 64-byte text
buffer holds, so `snprintf` stores it whole and the text printed is the whole line. -/
theorem C21_terminator_in_bounds_and_line_fits (DLC : Nat) (payload : List Nat)
    (hlen : payload.length = 8) :
    terminatorIndex DLC ≤ 7 ∧ terminatorIndex DLC < payload.length ∧
    (terminated payload DLC).length = 8 ∧
    (terminated payload DLC)[terminatorIndex DLC]? = some 0 ∧
    (cString (terminated payload DLC)).length ≤ 7 ∧
    (bytes "CAN RX: " ++ cString (terminated payload DLC) ++ bytes "\r\n").length ≤ 17 ∧
    (bytes "CAN RX: " ++ cString (terminated payload DLC) ++ bytes "\r\n").take (64 - 1) =
      bytes "CAN RX: " ++ cString (terminated payload DLC) ++ bytes "\r\n" ∧
    rxText payload DLC =
      bytes "CAN RX: " ++ cString (terminated payload DLC) ++ bytes "\r\n" := by
  have hidx : terminatorIndex DLC ≤ 7 := by unfold terminatorIndex; split <;> omega
  have hecho := echo_length_le_seven DLC payload hlen
  have hl1 : (bytes "CAN RX: ").length = 8 := by decide
  have hl2 : (bytes "\r\n").length = 2 := by decide
  have hline : (bytes "CAN RX: " ++ cString (terminated payload DLC) ++ bytes "\r\n").length
      ≤ 17 := by
    simp only [List.length_append, hl1, hl2]; omega
  have hall : ∀ b ∈ bytes "CAN RX: " ++ cString (terminated payload DLC) ++ bytes "\r\n",
      b ≠ 0 := by
    intro b hb
    rcases List.mem_append.mp hb with h | h
    · rcases List.mem_append.mp h with h1 | h1
      · exact bytes_ne_zero_label b h1
      · exact cString_ne_zero _ b h1
    · exact bytes_ne_zero_crlf b h
  refine ⟨hidx, by omega, ?_, ?_, hecho, hline, ?_, ?_⟩
  · simp [terminated, hlen]
  · unfold terminated
    exact List.getElem?_set_self (by omega)
  · exact List.take_of_length_le (by omega)
  · unfold rxText
    exact snprintf_eq_self 64 _ (by omega) hall

/-- Witness for C21: DLC 0xFFFFFFFF with the payload "ABCDEFGH". -/
theorem C21_terminator_in_bounds_and_line_fits_witness :
    terminatorIndex 0xFFFFFFFF ≤ 7 ∧
    rxText (bytes "ABCDEFGH") 0xFFFFFFFF = bytes "CAN RX: ABCDEFG\r\n" :=
  ⟨(C21_terminator_in_bounds_and_line_fits 0xFFFFFFFF (bytes "ABCDEFGH") (by decide)).1,
   (C21_terminator_in_bounds_and_line_fits 0xFFFFFFFF (bytes "ABCDEFGH")
      (by decide)).2.2.2.2.2.2.2.trans (by decide)⟩

end CAN_Normal_Mode

namespace Current_Meg_Stop_Mode

open Firmware

theorem clear_mask_line13 : (0xFFFFFFFF ^^^ EXTI_Line13) &&& EXTI_Line13 = 0 := by decide

theorem clear_mask_other_bits :
    ∀ i, i < 32 → i ≠ 13 → (0xFFFFFFFF ^^^ EXTI_Line13).testBit i = true := by decide

theorem clear_mask_high_bits (i : Nat) (hi : 32 ≤ i) :
    (0xFFFFFFFF ^^^ EXTI_Line13).testBit i = false := by
  apply Nat.testBit_lt_two_pow
  calc 0xFFFFFFFF ^^^ EXTI_Line13 < 2 ^ 32 := by decide
    _ ≤ 2 ^ i := Nat.pow_le_pow_right (by decide) hi

/-- C23: when EXTI line 13 is pending, `EXTI15_10_IRQHandler` clears the pending bit of
line 13, leaves every other pending bit as it was and sets `UserButtonStatus` to `SET`;
when line 13 is not pending it changes neither the flag nor the pending register and
makes no call but the status query.  So the flag is set and the bit cleared if and only
if line 13 is pending, and the handler never writes `RESET` to the flag. -/
theorem C23_handler_acts_only_on_line13 (c : IrqContext) (hPR : c.PR < 2 ^ 32) :
    (c.PR &&& EXTI_Line13 ≠ 0 →
      (EXTI15_10_IRQHandler c).UserButtonStatus = SET ∧
      (EXTI15_10_IRQHandler c).PR &&& EXTI_Line13 = 0 ∧
      (∀ i, i ≠ 13 → (EXTI15_10_IRQHandler c).PR.testBit i = c.PR.testBit i) ∧
      (EXTI15_10_IRQHandler c).trace = c.trace ++
        [Call.EXTI_GetITStatus EXTI_Line13 SET, Call.EXTI_ClearITPendingBit EXTI_Line13,
         Call.writeUserButtonStatus Writer.EXTI15_10_IRQHandler SET]) ∧
    (c.PR &&& EXTI_Line13 = 0 →
      (EXTI15_10_IRQHandler c).UserButtonStatus = c.UserButtonStatus ∧
      (EXTI15_10_IRQHandler c).PR = c.PR ∧
      (EXTI15_10_IRQHandler c).trace = c.trace ++ [Call.EXTI_GetITStatus EXTI_Line13 RESET]) ∧
    (flagWrites (EXTI15_10_IRQHandler c).trace = flagWrites c.trace ++
      (if c.PR &&& EXTI_Line13 ≠ 0 then [(Writer.EXTI15_10_IRQHandler, SET)] else [])) ∧
    (∀ writer, (writer, RESET) ∈ flagWrites (EXTI15_10_IRQHandler c).trace →
      (writer, RESET) ∈ flagWrites c.trace) := by
  have hwrites : flagWrites (EXTI15_10_IRQHandler c).trace = flagWrites c.trace ++
      (if c.PR &&& EXTI_Line13 ≠ 0 then [(Writer.EXTI15_10_IRQHandler, SET)] else []) := by
    by_cases hp : c.PR &&& EXTI_Line13 = 0
    · simp [EXTI15_10_IRQHandler, hp, flagWrites_append, flagWrites, SET, RESET]
    · simp [EXTI15_10_IRQHandler, hp, flagWrites_append, flagWrites, SET, RESET]
  refine ⟨?_, ?_, hwrites, ?_⟩
  · intro hp
    have hnew : (EXTI15_10_IRQHandler c).PR = c.PR &&& (0xFFFFFFFF ^^^ EXTI_Line13) := by
      simp [EXTI15_10_IRQHandler, hp, SET, RESET]
    refine ⟨by simp [EXTI15_10_IRQHandler, hp, SET, RESET], ?_, ?_,
      by simp [EXTI15_10_IRQHandler, hp, SET, RESET]⟩
    · rw [hnew, Nat.and_assoc, clear_mask_line13, Nat.and_zero]
    · intro i hi
      rw [hnew, Nat.testBit_and]
      by_cases h32 : i < 32
      · rw [clear_mask_other_bits i h32 hi, Bool.and_true]
      · have hold : c.PR.testBit i = false :=
          Nat.testBit_lt_two_pow (Nat.lt_of_lt_of_le hPR
            (Nat.pow_le_pow_right (by decide) (by omega)))
        rw [hold, Bool.false_and]
  · intro hp
    simp [EXTI15_10_IRQHandler, hp, SET, RESET]
  · intro writer hmem
    rw [hwrites] at hmem
    rcases List.mem_append.mp hmem with h | h
    · exact h
    · by_cases hp : c.PR &&& EXTI_Line13 = 0
      · simp [hp] at h
      · simp [hp, SET, RESET] at h

/-- Witness for C23: with lines 13 and 10 pending the handler leaves only line 10
pending and sets the flag; with only line 10 pending it changes nothing. -/
theorem C23_handler_acts_only_on_line13_witness :
    ((EXTI15_10_IRQHandler line13Pending).UserButtonStatus = SET ∧
      (EXTI15_10_IRQHandler line13Pending).PR &&& EXTI_Line13 = 0 ∧
      (∀ i, i ≠ 13 →
        (EXTI15_10_IRQHandler line13Pending).PR.testBit i = line13Pending.PR.testBit i) ∧
      (EXTI15_10_IRQHandler line13Pending).trace = line13Pending.trace ++
        [Call.EXTI_GetITStatus EXTI_Line13 SET, Call.EXTI_ClearITPendingBit EXTI_Line13,
         Call.writeUserButtonStatus Writer.EXTI15_10_IRQHandler SET]) ∧
    ((EXTI15_10_IRQHandler line10Pending).UserButtonStatus = line10Pending.UserButtonStatus ∧
      (EXTI15_10_IRQHandler line10Pending).PR = line10Pending.PR ∧
      (EXTI15_10_IRQHandler line10Pending).trace = line10Pending.trace ++
        [Call.EXTI_GetITStatus EXTI_Line13 RESET]) ∧
    (EXTI15_10_IRQHandler line13Pending).PR = 0x0400 :=
  ⟨(C23_handler_acts_only_on_line13 line13Pending (by decide)).1 (by decide),
   (C23_handler_acts_only_on_line13 line10Pending (by decide)).2.1 (by decide),
   by decide⟩

theorem trace_GPIO_AnalogConfig (s : Mcu) :
    (GPIO_AnalogConfig s).trace = s.trace ++ analogCalls := by
  simp [GPIO_AnalogConfig, List.foldl, emit, analogCalls]

theorem trace_entry (v : Variant) (s : Mcu) : (entry v s).trace = s.trace ++ entryCalls v := by
  cases v <;>
    simp [entry, entryCalls, powerCommand, enterCall, PWR_StopMainRegFlashStop,
      PWR_StopMainRegFlashPwrDown, PWR_StopLowPwrRegFlashStop, PWR_StopLowPwrRegFlashPwrDown,
      PWR_StopMainRegUnderDriveFlashPwrDown, PWR_StopLowPwrRegUnderDriveFlashPwrDown,
      trace_PWR_PrepareForStopMode, emit]

theorem wakeupAfter_append (w : WakeupConfig) (xs ys : List Call) :
    wakeupAfter w (xs ++ ys) = wakeupAfter (wakeupAfter w xs) ys := by
  simp [wakeupAfter, List.foldl_append]

/-- After `GPIO_AnalogConfig`, whatever the configuration before, PC13 is in analog mode
and the GPIOC clock is off. -/
theorem wakeupAfter_analogCalls (w : WakeupConfig) :
    (wakeupAfter w analogCalls).pc13Mode = GPIOMode.GPIO_Mode_AN ∧
    (wakeupAfter w analogCalls).gpiocClock = false := by
  cases w
  constructor <;> rfl

/-- The calls of an entry function before its STOP entry call arm the wakeup path,
whatever the configuration before. -/
theorem wakeupAfter_before_entry (v : Variant) (w : WakeupConfig) :
    wakeupAfter w ([Call.PWR_ClearFlag_WU] ++ buttonExtiCalls ++ [powerCommand v]) =
      armedConfig := by
  cases w
  cases v <;> rfl

theorem configAtStopEntries_append (xs ys : List Call) : ∀ w : WakeupConfig,
    configAtStopEntries w (xs ++ ys) =
      configAtStopEntries w xs ++ configAtStopEntries (wakeupAfter w xs) ys := by
  induction xs with
  | nil => intro w; simp [configAtStopEntries, wakeupAfter]
  | cons x xs ih =>
    intro w
    simp [configAtStopEntries, ih, wakeupAfter]

theorem armedExtension_refl (s : Mcu) : armedExtension s s 0 :=
  ⟨[], by simp, fun _ => rfl⟩

theorem armedExtension_trans (s s1 s2 : Mcu) (n m : Nat) (h1 : armedExtension s s1 n)
    (h2 : armedExtension s1 s2 m) : armedExtension s s2 (n + m) := by
  obtain ⟨t1, ht1, hc1⟩ := h1
  obtain ⟨t2, ht2, hc2⟩ := h2
  refine ⟨t1 ++ t2, by rw [ht2, ht1, List.append_assoc], ?_⟩
  intro w
  rw [configAtStopEntries_append, hc1, hc2, List.replicate_add]

theorem armedExtension_emit (c : Call) (s : Mcu) (h : isStopEntry c = false) :
    armedExtension s (emit c s) 0 :=
  ⟨[c], rfl, fun w => by simp [configAtStopEntries, h]⟩

theorem armedExtension_LedsConfig (s : Mcu) : armedExtension s (LedsConfig s) 0 :=
  armedExtension_trans _ _ _ 0 0 (armedExtension_emit _ s (by rfl)) (armedExtension_emit _ _ (by rfl))

theorem armedExtension_ButtonPinInt_configuration (s : Mcu) :
    armedExtension s (ButtonPinInt_configuration s) 0 :=
  ⟨buttonExtiCalls, trace_ButtonPinInt_configuration s, fun w => by cases w; rfl⟩

theorem armedExtension_LowPowerDemo_Init (s : Mcu) :
    armedExtension s (LowPowerDemo_Init s) 0 :=
  armedExtension_trans _ _ _ 0 0
    (armedExtension_trans _ _ _ 0 0 (armedExtension_emit _ s (by rfl)) (armedExtension_LedsConfig _))
    (armedExtension_ButtonPinInt_configuration _)

theorem armedExtension_GPIO_AnalogConfig (s : Mcu) :
    armedExtension s (GPIO_AnalogConfig s) 0 :=
  ⟨analogCalls, trace_GPIO_AnalogConfig s, fun w => by cases w; rfl⟩

/-- The entry function of a sub-mode issues one STOP entry call, with the wakeup path
armed. -/
theorem armedExtension_entry (v : Variant) (s : Mcu) : armedExtension s (entry v s) 1 :=
  ⟨entryCalls v, trace_entry v s, fun w => by cases w; cases v <;> rfl⟩

theorem armedExtension_pollButton (env : Environment) : ∀ (fuel : Nat) (s s1 : Mcu),
    pollButton env fuel s = some s1 → armedExtension s s1 0 := by
  intro fuel
  induction fuel with
  | zero => intro s s1 h; simp [pollButton] at h
  | succ f ih =>
    intro s s1 h
    have hstep : armedExtension s
        (emit (Call.readUserButtonStatus (env.buttonStatus s.tick))
          { s with tick := s.tick + 1 }) 0 :=
      ⟨[Call.readUserButtonStatus (env.buttonStatus s.tick)], rfl,
        fun w => by simp [configAtStopEntries, isStopEntry]⟩
    unfold pollButton at h
    simp only at h
    split at h
    · exact armedExtension_trans _ _ _ 0 0 hstep (ih _ _ h)
    · rw [← Option.some.inj h]; exact hstep

theorem armedExtension_WaitUser_PushBotton (env : Environment) (fuel : Nat) (s s1 : Mcu)
    (h : WaitUser_PushBotton env fuel s = some s1) : armedExtension s s1 0 := by
  unfold WaitUser_PushBotton at h
  cases hp : pollButton env fuel (emit (Call.GPIO_SetBits Port.GPIOA GPIO_Pin_5) s) with
  | none => simp [hp] at h
  | some a =>
    simp only [hp, Option.some.injEq] at h
    rw [← h]
    exact armedExtension_trans _ _ _ 0 0
      (armedExtension_trans _ _ _ 0 0
        (armedExtension_trans _ _ _ 0 0 (armedExtension_emit _ s (by rfl))
          (armedExtension_pollButton env fuel _ a hp))
        (armedExtension_emit _ a (by rfl)))
      (armedExtension_emit _ _ (by rfl))

theorem armedExtension_waitHSIRDY (env : Environment) : ∀ (fuel : Nat) (s s1 : Mcu),
    waitHSIRDY env fuel s = some s1 → armedExtension s s1 0 := by
  intro fuel
  induction fuel with
  | zero => intro s s1 h; simp [waitHSIRDY] at h
  | succ f ih =>
    intro s s1 h
    have hstep : armedExtension s (RCC_GetFlagStatus_HSIRDY env s).2 0 :=
      ⟨[Call.RCC_GetFlagStatus_HSIRDY (RCC_GetFlagStatus_HSIRDY env s).1], rfl,
        fun w => by simp [configAtStopEntries, isStopEntry]⟩
    unfold waitHSIRDY at h
    split at h
    · exact armedExtension_trans _ _ _ 0 0 hstep (ih _ _ h)
    · rw [← Option.some.inj h]; exact hstep

theorem armedExtension_waitSYSCLK (env : Environment) : ∀ (fuel : Nat) (s s1 : Mcu),
    waitSYSCLK env fuel s = some s1 → armedExtension s s1 0 := by
  intro fuel
  induction fuel with
  | zero => intro s s1 h; simp [waitSYSCLK] at h
  | succ f ih =>
    intro s s1 h
    have hstep : armedExtension s (RCC_GetSYSCLKSource env s).2 0 :=
      ⟨[Call.RCC_GetSYSCLKSource (RCC_GetSYSCLKSource env s).1], rfl,
        fun w => by simp [configAtStopEntries, isStopEntry]⟩
    unfold waitSYSCLK at h
    split at h
    · exact armedExtension_trans _ _ _ 0 0 hstep (ih _ _ h)
    · rw [← Option.some.inj h]; exact hstep

theorem armedExtension_Mode_Exit (env : Environment) (fuel : Nat) (s s1 : Mcu)
    (h : Mode_Exit env fuel s = some s1) : armedExtension s s1 0 := by
  cases h1 : waitHSIRDY env fuel (RCC_HSICmd true (RCC_HSEConfig RCC_HSE_OFF (RCC_DeInit s))) with
  | none => simp [Mode_Exit, h1] at h
  | some a =>
    cases h2 : waitSYSCLK env fuel (RCC_SYSCLKConfig RCC_SYSCLKSource_HSI a) with
    | none => simp [Mode_Exit, h1, h2] at h
    | some b =>
      simp only [Mode_Exit, h1, h2, Option.some.injEq] at h
      have hstart : armedExtension s
          (RCC_HSICmd true (RCC_HSEConfig RCC_HSE_OFF (RCC_DeInit s))) 0 :=
        ⟨[Call.RCC_DeInit, Call.RCC_HSEConfig RCC_HSE_OFF, Call.RCC_HSICmd true],
          by simp [RCC_HSICmd, RCC_HSEConfig, RCC_DeInit, emit],
          fun w => by simp [configAtStopEntries, isStopEntry, applyCall]⟩
      have hswitch : armedExtension a (RCC_SYSCLKConfig RCC_SYSCLKSource_HSI a) 0 :=
        ⟨[Call.RCC_SYSCLKConfig RCC_SYSCLKSource_HSI], rfl,
          fun w => by simp [configAtStopEntries, isStopEntry]⟩
      rw [← h]
      exact armedExtension_trans _ _ _ 0 0
        (armedExtension_trans _ _ _ 0 0
          (armedExtension_trans _ _ _ 0 0
            (armedExtension_trans _ _ _ 0 0 hstart (armedExtension_waitHSIRDY env fuel _ a h1))
            hswitch)
          (armedExtension_waitSYSCLK env fuel _ b h2))
        (armedExtension_LowPowerDemo_Init b)

/-- One `#if defined` block of `Measure_Stop` issues one STOP entry call, with the
wakeup path armed. -/
theorem armedExtension_stopSequence (v : Variant) (env : Environment) (fuel : Nat)
    (s s1 : Mcu) (h : stopSequence (entry v) env fuel s = some s1) :
    armedExtension s s1 1 := by
  cases h1 : WaitUser_PushBotton env fuel s with
  | none => simp [stopSequence, h1] at h
  | some a =>
    cases h2 : Mode_Exit env fuel (entry v (GPIO_AnalogConfig a)) with
    | none => simp [stopSequence, h1, h2] at h
    | some b =>
      simp only [stopSequence, h1, h2, Option.some.injEq] at h
      rw [← h]
      exact armedExtension_trans _ _ _ 1 0
        (armedExtension_trans _ _ _ 1 0
          (armedExtension_trans _ _ _ 0 1
            (armedExtension_trans _ _ _ 0 0
              (armedExtension_WaitUser_PushBotton env fuel s a h1)
              (armedExtension_GPIO_AnalogConfig a))
            (armedExtension_entry v _))
          (armedExtension_Mode_Exit env fuel _ b h2))
        (armedExtension_emit _ b (by rfl))

theorem armedExtension_ifDefined (defined : Bool) (v : Variant) (env : Environment)
    (fuel : Nat) (s s1 : Mcu)
    (h : ifDefined defined (stopSequence (entry v) env fuel) s = some s1) :
    armedExtension s s1 (if defined then 1 else 0) := by
  cases defined with
  | false =>
    simp only [ifDefined, Bool.false_eq_true, if_false, Option.some.injEq] at h
    rw [← h]
    exact armedExtension_refl s
  | true =>
    simp only [ifDefined, if_true] at h
    exact armedExtension_stopSequence v env fuel s s1 h

/-- Every STOP entry call of `Measure_Stop` is issued with the wakeup path armed, and
there is one per defined sub-mode macro. -/
theorem armedExtension_Measure_Stop (sel : Selection) (env : Environment) (fuel : Nat)
    (s s1 : Mcu) (h : Measure_Stop sel env fuel s = some s1) :
    armedExtension s s1 (selected sel).length := by
  simp only [Measure_Stop, Option.bind_eq_some] at h
  obtain ⟨a5, ⟨a4, ⟨a3, ⟨a2, ⟨a1, h1, h2⟩, h3⟩, h4⟩, h5⟩, h6⟩ := h
  have e1 := armedExtension_ifDefined _ Variant.StopMainRegFlashStop env fuel s a1 h1
  have e2 := armedExtension_ifDefined _ Variant.StopMainRegFlashPwrDown env fuel a1 a2 h2
  have e3 := armedExtension_ifDefined _ Variant.StopLowPwrRegFlashStop env fuel a2 a3 h3
  have e4 := armedExtension_ifDefined _ Variant.StopLowPwrRegFlashPwrDown env fuel a3 a4 h4
  have e5 :=
    armedExtension_ifDefined _ Variant.StopMainRegUnderDriveFlashPwrDown env fuel a4 a5 h5
  have e6 :=
    armedExtension_ifDefined _ Variant.StopLowPwrRegUnderDriveFlashPwrDown env fuel a5 s1 h6
  have e := armedExtension_trans _ _ _ _ _ (armedExtension_trans _ _ _ _ _
    (armedExtension_trans _ _ _ _ _ (armedExtension_trans _ _ _ _ _
      (armedExtension_trans _ _ _ _ _ e1 e2) e3) e4) e5) e6
  have hn : (selected sel).length =
      (((((if sel.StopMainRegFlashStop then 1 else 0) +
        (if sel.StopMainRegFlashPwrDown then 1 else 0)) +
        (if sel.StopLowPwrRegFlashStop then 1 else 0)) +
        (if sel.StopLowPwrRegFlashPwrDown then 1 else 0)) +
        (if sel.StopMainRegUnderDriveFlashPwrDown then 1 else 0)) +
        (if sel.StopLowPwrRegUnderDriveFlashPwrDown then 1 else 0) := by
    cases h1 : sel.StopMainRegFlashStop <;> cases h2 : sel.StopMainRegFlashPwrDown <;>
      cases h3 : sel.StopLowPwrRegFlashStop <;> cases h4 : sel.StopLowPwrRegFlashPwrDown <;>
      cases h5 : sel.StopMainRegUnderDriveFlashPwrDown <;>
      cases h6 : sel.StopLowPwrRegUnderDriveFlashPwrDown <;>
      simp [selected, isDefined, h1, h2, h3, h4, h5, h6]
  rw [hn]
  exact e

/-- C22: in the STOP demo the wakeup source is armed at the moment of every STOP entry
call, for every sub-mode.  For a run of `main` that reaches its final loop, in any build
and from any starting configuration of the wakeup path, the configuration in force at
each STOP entry call (one per defined sub-mode macro) is the armed one: GPIOC and SYSCFG
clocks on, PC13 an input, EXTI line 13 routed to port C with its interrupt enabled on the
rising edge only, `EXTI15_10_IRQn` enabled in the NVIC.  Block by block: `GPIO_AnalogConfig`
calls `GPIO_Init` with all pins in analog mode for each of the ports A to H and ends by
disabling the GPIO clocks, so that after it PC13 is analog and the GPIOC clock is off;
the entry function of every sub-mode then clears the wakeup flag, makes the calls of
`ButtonPinInt_configuration` and its power command, and only then the STOP entry call,
at which point the path is armed again. -/
theorem C22_wakeup_armed_at_stop_entry (sel : Selection) (env : Environment) (fuel : Nat)
    (s s1 : Mcu) (w : WakeupConfig) (h : main sel env fuel s = some s1) :
    configAtStopEntries w s1.trace =
      configAtStopEntries w s.trace ++ List.replicate (selected sel).length armedConfig ∧
    (configAtStopEntries w s1.trace).length = (stopEntries s1.trace).length ∧
    (∀ (v : Variant) (a : Mcu) (w0 : WakeupConfig),
      (GPIO_AnalogConfig a).trace = a.trace ++ analogCalls ∧
      (wakeupAfter w0 (GPIO_AnalogConfig a).trace).pc13Mode = GPIOMode.GPIO_Mode_AN ∧
      (wakeupAfter w0 (GPIO_AnalogConfig a).trace).gpiocClock = false ∧
      (entry v (GPIO_AnalogConfig a)).trace =
        (GPIO_AnalogConfig a).trace ++ [Call.PWR_ClearFlag_WU] ++ buttonExtiCalls ++
          [powerCommand v] ++ [enterCall v] ∧
      isStopEntry (enterCall v) = true ∧
      wakeupAfter w0 ((GPIO_AnalogConfig a).trace ++ [Call.PWR_ClearFlag_WU] ++
        buttonExtiCalls ++ [powerCommand v]) = armedConfig) ∧
    (∀ port : Port, Call.GPIO_Init port analogCfg ∈ analogCalls) ∧
    analogCfg.GPIO_Pin = 0xFFFF ∧ analogCfg.GPIO_Mode = GPIOMode.GPIO_Mode_AN ∧
    analogCalls.drop 10 =
      [Call.RCC_AHB1PeriphClockCmd
          [Port.GPIOA, Port.GPIOB, Port.GPIOC, Port.GPIOD, Port.GPIOE, Port.GPIOH] false,
       Call.RCC_AHB1PeriphClockCmd [Port.GPIOF, Port.GPIOG] false] ∧
    armedConfig.pc13Mode = GPIOMode.GPIO_Mode_IN ∧
    armedConfig.exti13Port = some Port.GPIOC ∧
    armedConfig.exti13Interrupt = true ∧
    armedConfig.exti13Rising = true ∧
    armedConfig.exti13Falling = false ∧
    armedConfig.nvicEXTI15_10 = true ∧
    armedConfig.gpiocClock = true ∧
    armedConfig.syscfgClock = true := by
  have hrun : armedExtension s s1 (selected sel).length := by
    have e := armedExtension_trans _ _ _ 0 _ (armedExtension_LowPowerDemo_Init s)
      (armedExtension_Measure_Stop sel env fuel _ s1 h)
    rwa [Nat.zero_add] at e
  obtain ⟨t, ht, hc⟩ := hrun
  have hall : configAtStopEntries w s1.trace =
      configAtStopEntries w s.trace ++ List.replicate (selected sel).length armedConfig := by
    rw [ht, configAtStopEntries_append, hc]
  have hlen : ∀ (l : List Call) (w0 : WakeupConfig),
      (configAtStopEntries w0 l).length = (stopEntries l).length := by
    intro l
    induction l with
    | nil => intro w0; rfl
    | cons c l ih => intro w0; cases c <;> simp [configAtStopEntries, stopEntries, isStopEntry, ih]
  refine ⟨hall, hlen _ _, ?_, ?_, rfl, rfl, rfl, rfl, rfl, rfl, rfl, rfl, rfl, rfl, rfl⟩
  · intro v a w0
    have ha := wakeupAfter_analogCalls (wakeupAfter w0 a.trace)
    refine ⟨trace_GPIO_AnalogConfig a, ?_, ?_, ?_, by cases v <;> rfl, ?_⟩
    · rw [trace_GPIO_AnalogConfig, wakeupAfter_append]; exact ha.1
    · rw [trace_GPIO_AnalogConfig, wakeupAfter_append]; exact ha.2
    · rw [trace_entry]; simp [entryCalls]
    · rw [List.append_assoc, List.append_assoc, wakeupAfter_append]
      simpa [List.append_assoc] using wakeupAfter_before_entry v (wakeupAfter w0 _)
  · intro port
    cases port <;> decide

/-- Witness for C22: the shipped build with the button pressed at the third poll, from
a wakeup path with nothing set up; its one STOP entry call is issued with the path
armed. -/
theorem C22_wakeup_armed_at_stop_entry_witness :
    ∃ s1, main shipped pressAtThirdPoll 10 onPll = some s1 ∧
      configAtStopEntries unconfigured s1.trace =
        configAtStopEntries unconfigured onPll.trace ++
          List.replicate (selected shipped).length armedConfig ∧
      configAtStopEntries unconfigured s1.trace = [armedConfig] :=
  ⟨_, rfl, (C22_wakeup_armed_at_stop_entry shipped pressAtThirdPoll 10 onPll _ unconfigured
    rfl).1, by decide⟩

end Current_Meg_Stop_Mode
